import Mathlib

/-! # sealer: pipeline runner, plugin dispatch, config pre-processing, node join

A shallow embedding of the Go sources

* `apply/processor/install.go`  (`InstallProcessor`)
* `pkg/gen/gen.go`              (`GenerateProcessor`)
* `pkg/plugin/shell_plugin.go`  (`Sheller.Run`)
* `pkg/config/pre_process.go`   (`NewProcessorsAndRun` and the three processors)
* `pkg/runtime/nodes.go`        (`joinNodes`, `deleteNodes` and their helpers)

The file has two parts: the embedding (definitions only), then the theorems.

Conventions.

* A Go function `func(...) error` that performs I/O is a state transformer
  `σ → Option ε × σ`: `σ` is everything the call can touch (the cluster
  descriptor behind the pointer, the file system, the remote hosts), `none` is
  the `nil` error.  A function returning `(T, error)` returns `Except ε T`.
* Collaborators whose code is outside these files (interfaces such as
  `cloudfilesystem.Interface`, `plugin.Plugins`, `guest.Interface`, the SSH
  client, the YAML libraries) are fields of a structure, so every theorem
  quantifies over all their behaviours.
* What a function does to the outside is observed through a journal: the
  `traced` variant of a collaborator structure behaves as the original and
  appends every call to a list carried in the state.
* An `error` built by `fmt.Errorf("... %v", err)` is its message.
* Go strings are Lean `String`s where only equality and concatenation matter
  (host names, commands), and byte lists (`GoString`) in the config
  pre-processing, where the bytes matter.
-/

namespace Sealer

/-! ## Stages and the pipeline loop -/

/-- A pipeline stage, `func(cluster *v2.Cluster) error`.  The state `σ` holds
the descriptor the pointer refers to together with the outside world. -/
abbrev Stage (σ ε : Type) := σ → Option ε × σ

/-- The loop shared by both `Execute` methods:
`for _, f := range pipLine { if err = f(cluster); err != nil { return err } }; return nil`. -/
def runPipeLine {σ ε : Type} : List (Stage σ ε) → Stage σ ε
  | [], w => (none, w)
  | f :: fs, w =>
    match f w with
    | (some err, w') => (some err, w')
    | (none, w') => runPipeLine fs w'

/-- A plugin phase is a Go `string` newtype (`type Phase string`). -/
abbrev Phase := String

/-- Modelled from the spec: the constant `plugin.PhaseOriginally` (its
declaration is outside the sources at hand); the spec lists the phase values
`Originally, PreGuest, PostInstall, PreJoin, PostJoin, PreClean, PostClean`. -/
def PhaseOriginally : Phase := "Originally"

/-- Modelled from the spec: the constant `plugin.PhasePreGuest`. -/
def PhasePreGuest : Phase := "PreGuest"

/-- Modelled from the spec: the constant `plugin.PhasePostInstall`. -/
def PhasePostInstall : Phase := "PostInstall"

/-! ## `InstallProcessor` (apply/processor/install.go) -/

/-- The collaborators an `InstallProcessor` holds, as state transformers.
`GetMasterIPList`/`GetNodeIPList` read the descriptor stored in the state. -/
structure InstallProcessor (σ ε : Type) where
  /-- `cluster.GetMasterIPList()` -/
  GetMasterIPList : σ → List String
  /-- `cluster.GetNodeIPList()` -/
  GetNodeIPList : σ → List String
  /-- `i.Plugins.Dump(i.clusterFile.GetPlugins())` -/
  Plugins_Dump : Stage σ ε
  /-- `i.Config.Dump(i.clusterFile.GetConfigs())` -/
  Config_Dump : Stage σ ε
  /-- `i.fileSystem.MountRootfs(cluster, hosts, initFlag)` -/
  fileSystem_MountRootfs : List String → Bool → Stage σ ε
  /-- `i.Guest.Apply(cluster)` -/
  Guest_Apply : Stage σ ε
  /-- `i.Plugins.Load()` -/
  Plugins_Load : Stage σ ε
  /-- `i.Plugins.Run(cluster, phase)` -/
  Plugins_Run : Phase → Stage σ ε

namespace InstallProcessor

variable {σ ε : Type}

/-- `func (i InstallProcessor) initPlugin() error` -/
def initPlugin (i : InstallProcessor σ ε) : Stage σ ε :=
  i.Plugins_Dump

/-- `func (i InstallProcessor) RunConfig(cluster *v2.Cluster) error` -/
def RunConfig (i : InstallProcessor σ ε) : Stage σ ε :=
  i.Config_Dump

/-- `func (i InstallProcessor) MountRootfs(cluster *v2.Cluster) error` -/
def MountRootfs (i : InstallProcessor σ ε) : Stage σ ε := fun w =>
  let hosts := i.GetMasterIPList w ++ i.GetNodeIPList w
  i.fileSystem_MountRootfs hosts false w

/-- `func (i InstallProcessor) Install(cluster *v2.Cluster) error` -/
def Install (i : InstallProcessor σ ε) : Stage σ ε :=
  i.Guest_Apply

/-- `func (i InstallProcessor) GetPhasePluginFunc(phase plugin.Phase) func(cluster *v2.Cluster) error` -/
def GetPhasePluginFunc (i : InstallProcessor σ ε) (phase : Phase) : Stage σ ε := fun w =>
  if phase = PhasePreGuest then
    match i.Plugins_Load w with
    | (some err, w') => (some err, w')
    | (none, w') => i.Plugins_Run phase w'
  else
    i.Plugins_Run phase w

/-- `func (i InstallProcessor) GetPipeLine() ([]func(cluster *v2.Cluster) error, error)` -/
def GetPipeLine (i : InstallProcessor σ ε) : List (Stage σ ε) × Option ε :=
  let todoList : List (Stage σ ε) := []
  let todoList := todoList ++
    [ i.RunConfig,
      i.MountRootfs,
      i.GetPhasePluginFunc PhasePreGuest,
      i.Install,
      i.GetPhasePluginFunc PhasePostInstall ]
  (todoList, none)

/-- `func (i InstallProcessor) Execute(cluster *v2.Cluster) error`.
`config.NewConfiguration` and `plugin.NewPlugins` only build the two handles
the collaborator fields stand for. -/
def Execute (i : InstallProcessor σ ε) : Stage σ ε := fun w =>
  match i.initPlugin w with
  | (some err, w1) => (some err, w1)
  | (none, w1) =>
    match i.GetPipeLine with
    | (_, some err) => (some err, w1)
    | (pipLine, none) => runPipeLine pipLine w1

end InstallProcessor

/-! ## `GenerateProcessor` (pkg/gen/gen.go) -/

/-- The collaborators of a `GenerateProcessor`.  `R` and `F` are the runtime and
file-system handles; the fields `g.Runtime` and `g.Filesystem` live in the state
and start as `nil` (`none`). -/
structure GenerateProcessor (σ ε R F : Type) where
  /-- current value of `g.Runtime` -/
  Runtime : σ → Option R
  /-- current value of `g.Filesystem` -/
  Filesystem : σ → Option F
  /-- the assignments `g.Runtime = runt.(*runtime.KubeadmRuntime); g.Filesystem = fs` -/
  setHandles : R → F → σ → σ
  /-- `utils.MarshalYamlToFile(fileName, cluster)` with
  `fileName = <home>/.sealer/<cluster.Name>/Clusterfile` -/
  MarshalYamlToFile : Stage σ ε
  /-- `runtime.NewDefaultRuntime(cluster, nil)` -/
  NewDefaultRuntime : σ → Except ε R × σ
  /-- `filesystem.NewFilesystem(common.DefaultMountCloudImageDir(cluster.Name))` -/
  NewFilesystem : σ → Except ε F × σ
  /-- `g.ImageManager.PullIfNotExist(cluster.Spec.Image)` -/
  PullIfNotExist : Stage σ ε
  /-- `g.ImageMounter.MountImage(cluster)` -/
  MountImage : Stage σ ε
  /-- `g.ImageMounter.UnMountImage(cluster)` -/
  UnMountImage : Stage σ ε
  /-- `cluster.GetMasterIPList()` -/
  GetMasterIPList : σ → List String
  /-- `cluster.GetNodeIPList()` -/
  GetNodeIPList : σ → List String
  /-- `runtime.GetRegistryConfig(rootfsDir, master0).IP` -/
  RegistryIP : σ → String
  /-- `utils.NotInIPList(ip, hosts)` -/
  NotInIPList : String → List String → Bool
  /-- `fs.MountRootfs(cluster, hosts, initFlag)` called through the field `g.Filesystem` -/
  Filesystem_MountRootfs : Option F → List String → Bool → Stage σ ε
  /-- `runt.GenerateRegistryCert()` -/
  GenerateRegistryCert : R → Stage σ ε
  /-- `g.Runtime.ApplyRegistry()` called through the field `g.Runtime` -/
  Runtime_ApplyRegistry : Option R → Stage σ ε

namespace GenerateProcessor

variable {σ ε R F : Type}

/-- `func (g *GenerateProcessor) init(cluster *v2.Cluster) error` -/
def init (g : GenerateProcessor σ ε R F) : Stage σ ε := fun w =>
  match g.NewDefaultRuntime w with
  | (.error err, w1) => (some err, w1)
  | (.ok runt, w1) =>
    match g.NewFilesystem w1 with
    | (.error err, w2) => (some err, w2)
    | (.ok fs, w2) => (none, g.setHandles runt fs w2)

/-- `func (g *GenerateProcessor) MountImage(cluster *v2.Cluster) error` -/
def MountImageStage (g : GenerateProcessor σ ε R F) : Stage σ ε := fun w =>
  match g.PullIfNotExist w with
  | (some err, w1) => (some err, w1)
  | (none, w1) => g.MountImage w1

/-- `func (g *GenerateProcessor) MountRootfs(cluster *v2.Cluster) error` -/
def MountRootfs (g : GenerateProcessor σ ε R F) : Stage σ ε := fun w =>
  let hosts := g.GetMasterIPList w ++ g.GetNodeIPList w
  let regIP := g.RegistryIP w
  let hosts := if g.NotInIPList regIP hosts then hosts ++ [regIP] else hosts
  g.Filesystem_MountRootfs (g.Filesystem w) hosts false w

/-- `func (g *GenerateProcessor) ApplyRegistry(cluster *v2.Cluster) error` -/
def ApplyRegistry (g : GenerateProcessor σ ε R F) : Stage σ ε := fun w =>
  match g.NewDefaultRuntime w with
  | (.error err, w1) => (some err, w1)
  | (.ok runt, w1) =>
    match g.GenerateRegistryCert runt w1 with
    | (some err, w2) => (some err, w2)
    | (none, w2) => g.Runtime_ApplyRegistry (g.Runtime w2) w2

/-- `func (g *GenerateProcessor) UnmountImage(cluster *v2.Cluster) error` -/
def UnmountImage (g : GenerateProcessor σ ε R F) : Stage σ ε :=
  g.UnMountImage

/-- `func (g *GenerateProcessor) GetPipeLine() ([]func(cluster *v2.Cluster) error, error)` -/
def GetPipeLine (g : GenerateProcessor σ ε R F) : List (Stage σ ε) × Option ε :=
  let todoList : List (Stage σ ε) := []
  let todoList := todoList ++
    [ g.init,
      g.MountImageStage,
      g.MountRootfs,
      g.ApplyRegistry,
      g.UnmountImage ]
  (todoList, none)

/-- `func (g *GenerateProcessor) Execute(cluster *v2.Cluster) error` -/
def Execute (g : GenerateProcessor σ ε R F) : Stage σ ε := fun w =>
  match g.MarshalYamlToFile w with
  | (some err, w1) => (some err, w1)
  | (none, w1) =>
    match g.GetPipeLine with
    | (_, some err) => (some err, w1)
    | (pipLine, none) => runPipeLine pipLine w1

end GenerateProcessor

/-! ## Instrumented stage stubs -/

/-- One record of the stage journal: the index of the stage that was invoked
and the error it returned. -/
abbrev StageRecord (ε : Type) := Nat × Option ε

/-- Stage `f`, placed at index `k` of a pipeline, instrumented: it behaves as
`f` and appends `(k, returned error)` to the journal. -/
def instrument {σ ε : Type} (k : Nat) (f : Stage σ ε) : Stage (σ × List (StageRecord ε)) ε :=
  fun w =>
    let r := f w.1
    (r.1, (r.2, w.2 ++ [(k, r.1)]))

/-- Instrument every stage of a pipeline, numbering them from `k`. -/
def instrumentFrom {σ ε : Type} : Nat → List (Stage σ ε) → List (Stage (σ × List (StageRecord ε)) ε)
  | _, [] => []
  | k, f :: fs => instrument k f :: instrumentFrom (k + 1) fs

/-- The observable outcome of running pipeline `fs` from state `w`: the
returned error, the final state, and the journal of stage invocations. -/
def observe {σ ε : Type} (fs : List (Stage σ ε)) (w : σ) : Option ε × σ × List (StageRecord ε) :=
  runPipeLine (instrumentFrom 0 fs) (w, [])

/-- The fail-fast contract of a pipeline of `n` stages, read off the journal
`tr` and the returned error `r`:
* the invoked stages are `0, 1, ..., tr.length - 1`, each once, in list order;
* a stage that returned a non-nil error is the last one invoked, and its
  error is what the run returns;
* if no invoked stage returned an error, all `n` stages were invoked and the
  run returns `nil`. -/
def FailFast {ε : Type} (n : Nat) (r : Option ε) (tr : List (StageRecord ε)) : Prop :=
  tr.map Prod.fst = List.range tr.length ∧
  tr.length ≤ n ∧
  (∀ k e, (k, some e) ∈ tr → r = some e ∧ tr.length = k + 1) ∧
  ((∀ k e, (k, some e) ∉ tr) → tr.length = n ∧ r = none)

end Sealer

namespace Sealer

/-! ## Call journal of an `InstallProcessor` -/

/-- The collaborator calls an `InstallProcessor` can make. -/
inductive InstallCall where
  /-- `i.Plugins.Dump(...)` -/
  | pluginsDump
  /-- `i.Config.Dump(...)` -/
  | configDump
  /-- `i.fileSystem.MountRootfs(cluster, hosts, initFlag)` -/
  | mountRootfs (hosts : List String) (initFlag : Bool)
  /-- `i.Guest.Apply(cluster)` -/
  | guestApply
  /-- `i.Plugins.Load()` -/
  | pluginsLoad
  /-- `i.Plugins.Run(cluster, phase)` -/
  | pluginsRun (phase : Phase)
  deriving DecidableEq, Repr

/-- Run collaborator call `f` and append `c` to the call journal. -/
def journaled {σ ε κ : Type} (c : κ) (f : Stage σ ε) : Stage (σ × List κ) ε :=
  fun w =>
    let r := f w.1
    (r.1, (r.2, w.2 ++ [c]))

/-- The processor `i` with every collaborator journaled: same behaviour on the
state, and each collaborator call is appended to the journal. -/
def InstallProcessor.traced {σ ε : Type} (i : InstallProcessor σ ε) :
    InstallProcessor (σ × List InstallCall) ε where
  GetMasterIPList := fun w => i.GetMasterIPList w.1
  GetNodeIPList := fun w => i.GetNodeIPList w.1
  Plugins_Dump := journaled .pluginsDump i.Plugins_Dump
  Config_Dump := journaled .configDump i.Config_Dump
  fileSystem_MountRootfs := fun hosts initFlag =>
    journaled (.mountRootfs hosts initFlag) (i.fileSystem_MountRootfs hosts initFlag)
  Guest_Apply := journaled .guestApply i.Guest_Apply
  Plugins_Load := journaled .pluginsLoad i.Plugins_Load
  Plugins_Run := fun phase => journaled (.pluginsRun phase) (i.Plugins_Run phase)

/-- A sample install processor over a counter state: every collaborator bumps
the counter and succeeds, except that `Guest.Apply` fails with `guestErr`. -/
def sampleInstall (guestErr : Option String) : InstallProcessor Nat String where
  GetMasterIPList := fun _ => ["10.0.0.1"]
  GetNodeIPList := fun _ => ["10.0.0.2", "10.0.0.3"]
  Plugins_Dump := fun w => (none, w + 1)
  Config_Dump := fun w => (none, w + 1)
  fileSystem_MountRootfs := fun _ _ w => (none, w + 1)
  Guest_Apply := fun w => (guestErr, w + 1)
  Plugins_Load := fun w => (none, w + 1)
  Plugins_Run := fun _ w => (none, w + 1)

/-- A sample generate processor over a counter state: every collaborator bumps
the counter and succeeds, except that `PullIfNotExist` fails with `pullErr`. -/
def sampleGenerate (pullErr : Option String) : GenerateProcessor Nat String Unit Unit where
  Runtime := fun _ => some ()
  Filesystem := fun _ => some ()
  setHandles := fun _ _ w => w
  MarshalYamlToFile := fun w => (none, w + 1)
  NewDefaultRuntime := fun w => (.ok (), w + 1)
  NewFilesystem := fun w => (.ok (), w + 1)
  PullIfNotExist := fun w => (pullErr, w + 1)
  MountImage := fun w => (none, w + 1)
  UnMountImage := fun w => (none, w + 1)
  GetMasterIPList := fun _ => ["10.0.0.1"]
  GetNodeIPList := fun _ => []
  RegistryIP := fun _ => "10.0.0.1"
  NotInIPList := fun ip hosts => !(hosts.contains ip)
  Filesystem_MountRootfs := fun _ _ _ w => (none, w + 1)
  GenerateRegistryCert := fun _ w => (none, w + 1)
  Runtime_ApplyRegistry := fun _ w => (none, w + 1)

end Sealer

namespace Sealer

/-! ## `Sheller.Run` (pkg/plugin/shell_plugin.go) -/

/-- The view of the cluster descriptor (`v2.Cluster`) that the code reads. -/
structure Cluster where
  /-- `cluster.Name` -/
  Name : String
  /-- `cluster.GetMasterIPList()` -/
  GetMasterIPList : List String
  /-- `cluster.GetNodeIPList()` -/
  GetNodeIPList : List String
  deriving DecidableEq, Repr

/-- `v1.Plugin.Spec`: type tag, declared action, data payload, "on" selector. -/
structure PluginSpec where
  /-- `Spec.Type` (`Type` is reserved in Lean) -/
  SpecType : String
  /-- `Spec.Action` -/
  Action : String
  /-- `Spec.Data` -/
  Data : String
  /-- `Spec.On` -/
  On : String
  deriving DecidableEq, Repr

/-- `plugin.Context`: the descriptor and one plugin definition. -/
structure Context where
  /-- `context.Cluster` -/
  Cluster : Cluster
  /-- `context.Plugin.Spec` -/
  Plugin : PluginSpec
  deriving DecidableEq, Repr

/-- Modelled from the spec: the constant `plugin.ShellPlugin`, the type tag of
shell plugins (the spec names the tag `"SHELL"`). -/
def ShellPlugin : String := "SHELL"

/-- What `Sheller.Run` needs from outside the file.  Errors are their messages. -/
structure ShellEnv (σ : Type) where
  /-- `ssh.NewStdoutSSHClient(ip, context.Cluster)`; the client it returns is
  the one `CmdAsync ip` runs on -/
  NewStdoutSSHClient : String → Stage σ String
  /-- `sshClient.CmdAsync(ip, cmd)` -/
  CmdAsync : String → String → Stage σ String
  /-- `GetIpsByOnField(on, context, phase)` -/
  GetIpsByOnField : String → Context → Phase → σ → Except String (List String) × σ
  /-- `env.NewEnvProcessor(context.Cluster).WrapperShell(ip, cmd)` -/
  WrapperShell : Cluster → String → String → String
  /-- `fmt.Sprintf(common.CdAndExecCmd, dir, cmd)` -/
  CdAndExecCmd : String → String → String
  /-- `common.DefaultTheClusterRootfsDir(name)` -/
  DefaultTheClusterRootfsDir : String → String

namespace Sheller

variable {σ : Type}

/-- The loop `for _, ip := range allHostIP { ... }` of `Sheller.Run`. -/
def runOnHosts (env : ShellEnv σ) (context : Context) (pluginCmd : String) :
    List String → Stage σ String
  | [], w => (none, w)
  | ip :: ips, w =>
    match env.NewStdoutSSHClient ip w with
    | (some err, w1) => (some err, w1)
    | (none, w1) =>
      match env.CmdAsync ip (env.WrapperShell context.Cluster ip pluginCmd) w1 with
      | (some err, w2) => (some ("failed to run shell cmd,  " ++ err), w2)
      | (none, w2) => runOnHosts env context pluginCmd ips w2

/-- The command text: `Spec.Data`, wrapped by `CdAndExecCmd` unless the phase
is `Originally`. -/
def pluginCmd (env : ShellEnv σ) (context : Context) (phase : Phase) : String :=
  if phase ≠ PhaseOriginally then
    env.CdAndExecCmd (env.DefaultTheClusterRootfsDir context.Cluster.Name) context.Plugin.Data
  else
    context.Plugin.Data

/-- `func (s Sheller) Run(context Context, phase Phase) (err error)` -/
def Run (env : ShellEnv σ) (context : Context) (phase : Phase) : Stage σ String := fun w =>
  if phase ≠ context.Plugin.Action ∨ context.Plugin.SpecType ≠ ShellPlugin then
    (none, w)
  else
    let pluginCmd := pluginCmd env context phase
    let allHostIP := context.Cluster.GetMasterIPList ++ context.Cluster.GetNodeIPList
    if context.Plugin.On ≠ "" then
      match env.GetIpsByOnField context.Plugin.On context phase w with
      | (.error err, w1) => (some err, w1)
      | (.ok allHostIP, w1) => runOnHosts env context pluginCmd allHostIP w1
    else
      runOnHosts env context pluginCmd allHostIP w

end Sheller

/-- The remote calls `Sheller.Run` can make. -/
inductive ShellCall where
  /-- `ssh.NewStdoutSSHClient(ip, cluster)` -/
  | newClient (ip : String)
  /-- `sshClient.CmdAsync(ip, cmd)` -/
  | cmdAsync (ip : String) (cmd : String)
  /-- `GetIpsByOnField(on, context, phase)` -/
  | getIpsByOnField (onSel : String)
  deriving DecidableEq, Repr

/-- Run call `f` and append `(c, returned error)` to the journal. -/
def recorded {σ ε κ : Type} (c : κ) (f : Stage σ ε) : Stage (σ × List (κ × Option ε)) ε :=
  fun w =>
    let r := f w.1
    (r.1, (r.2, w.2 ++ [(c, r.1)]))

/-- The environment `env` with every remote call recorded in a journal. -/
def ShellEnv.traced {σ : Type} (env : ShellEnv σ) :
    ShellEnv (σ × List (ShellCall × Option String)) where
  NewStdoutSSHClient := fun ip => recorded (.newClient ip) (env.NewStdoutSSHClient ip)
  CmdAsync := fun ip cmd => recorded (.cmdAsync ip cmd) (env.CmdAsync ip cmd)
  GetIpsByOnField := fun onSel context phase w =>
    let r := env.GetIpsByOnField onSel context phase w.1
    (r.1, (r.2, w.2 ++ [(.getIpsByOnField onSel,
      match r.1 with
      | .error err => some err
      | .ok _ => none)]))
  WrapperShell := env.WrapperShell
  CdAndExecCmd := env.CdAndExecCmd
  DefaultTheClusterRootfsDir := env.DefaultTheClusterRootfsDir

/-- The IPs for which an SSH client was requested, in journal order. -/
def contacted : List (ShellCall × Option String) → List String
  | [] => []
  | (.newClient ip, _) :: rest => ip :: contacted rest
  | _ :: rest => contacted rest

/-- The IPs on which a command was started, in journal order. -/
def commanded : List (ShellCall × Option String) → List String
  | [] => []
  | (.cmdAsync ip _, _) :: rest => ip :: commanded rest
  | _ :: rest => commanded rest

/-- The two journal records of a host on which the plugin ran successfully. -/
def hostOk (wrap : String → String) (ip : String) : List (ShellCall × Option String) :=
  [(.newClient ip, none), (.cmdAsync ip (wrap ip), none)]

/-- A sample environment over a counter state: SSH client creation fails for
the IPs in `noSSH`, the command fails on the IPs in `cmdFails`. -/
def sampleShellEnv (noSSH cmdFails : List String) : ShellEnv Nat where
  NewStdoutSSHClient := fun ip w =>
    (if noSSH.contains ip then some ("dial " ++ ip) else none, w + 1)
  CmdAsync := fun ip _ w =>
    (if cmdFails.contains ip then some ("exit 1 on " ++ ip) else none, w + 1)
  GetIpsByOnField := fun onSel _ _ w => (.ok [onSel], w + 1)
  WrapperShell := fun _ _ cmd => cmd
  CdAndExecCmd := fun dir cmd => "cd " ++ dir ++ " && " ++ cmd
  DefaultTheClusterRootfsDir := fun name => "/var/lib/sealer/data/" ++ name ++ "/rootfs"

/-- A sample plugin context: one master, two nodes, one shell plugin. -/
def sampleContext (type action onSel : String) : Context where
  Cluster := { Name := "my-cluster", GetMasterIPList := ["10.0.0.1"],
               GetNodeIPList := ["10.0.0.2", "10.0.0.3"] }
  Plugin := { SpecType := type, Action := action, Data := "echo hi", On := onSel }

end Sealer

namespace Sealer

/-- The shape of the journal `tr` and returned error `r` of a run of the shell
plugin over `hosts`: the plugin ran successfully on the first `k` hosts, and
then either the list was exhausted and `r` is nil, or host number `k` is the
first one to fail: its SSH client could not be created (`r` is that error and
no command was started on it), or its command failed (`r` is that error
prefixed with `failed to run shell cmd,  `).  Nothing follows the failure. -/
def RanOnLeadingHosts (wrap : String → String) (hosts : List String) (r : Option String)
    (tr : List (ShellCall × Option String)) : Prop :=
  ∃ (k : Nat) (tail : List (ShellCall × Option String)),
    k ≤ hosts.length ∧
    tr = (hosts.take k).flatMap (hostOk wrap) ++ tail ∧
    ((k = hosts.length ∧ tail = [] ∧ r = none) ∨
     (∃ ip e, hosts[k]? = some ip ∧ tail = [(.newClient ip, some e)] ∧ r = some e) ∨
     (∃ ip e, hosts[k]? = some ip ∧
        tail = [(.newClient ip, none), (.cmdAsync ip (wrap ip), some e)] ∧
        r = some ("failed to run shell cmd,  " ++ e)))

end Sealer

namespace Sealer

/-! ## Config pre-processing (pkg/config/pre_process.go) -/

/-- A Go `byte`. -/
abbrev Byte := Fin 256

/-- A Go `string`: a finite sequence of arbitrary bytes (not necessarily UTF-8). -/
abbrev GoString := List Byte

/-- The Go conversion `byte(n)`: the low eight bits of `n`. -/
def byte (n : Nat) : Byte := ⟨n % 256, Nat.mod_lt n (by decide)⟩

/-- The bytes of a string literal whose characters are all ASCII. -/
def ascii (s : String) : GoString := s.toList.map (fun c => byte c.toNat)

/-- A Go `map[string]V`, as its entries in the order a `range` loop visits
them.  The keys of a map are pairwise distinct. -/
abbrev GoMap (V : Type) := List (GoString × V)

namespace GoMap

variable {V : Type}

/-- The lookup `v, ok := m[k]`. -/
def get (k : GoString) : GoMap V → Option V
  | [] => none
  | (k', v) :: rest => if k = k' then some v else get k rest

/-- The assignment `m[k] = v`. -/
def set (k : GoString) (v : V) : GoMap V → GoMap V
  | [] => [(k, v)]
  | (k', v') :: rest => if k = k' then (k', v) :: rest else (k', v') :: set k v rest

/-- The keys of the map. -/
def keys (m : GoMap V) : List GoString := m.map Prod.fst

end GoMap

/-- `config.Spec` of a `v1.Config`: the processor chain and the payload. -/
structure ConfigSpec where
  /-- `Spec.Process` -/
  Process : GoString
  /-- `Spec.Data` -/
  Data : GoString
  deriving DecidableEq

/-- The fields of `v1.Config` the processors read or write. -/
structure Config where
  /-- `config.Labels` (`nil` and the empty map are both `[]`) -/
  Labels : GoMap GoString
  /-- `config.Spec` -/
  Spec : ConfigSpec
  deriving DecidableEq

/-- `valueProcessorName = "value"` -/
def valueProcessorName : GoString := ascii "value"
/-- `toJSONProcessorName = "toJson"` -/
def toJSONProcessorName : GoString := ascii "toJson"
/-- `toBase64ProcessorName = "toBase64"` -/
def toBase64ProcessorName : GoString := ascii "toBase64"
/-- `trueLabelValue = "true"` -/
def trueLabelValue : GoString := ascii "true"
/-- `trueLabelKey = "preprocess.value"` -/
def trueLabelKey : GoString := ascii "preprocess.value"

/-- The parts of the YAML libraries (`sigs.k8s.io/yaml`, `gopkg.in/yaml.v2`) and
of `fmt` that the processors call.  `Value` is what an `interface{}` holds after
unmarshalling.  An error is its message. -/
structure YamlLib (Value : Type) where
  /-- `yaml.YAMLToJSON(data)` -/
  YAMLToJSON : GoString → Except GoString GoString
  /-- `yaml.Unmarshal(data, &dataMap)` for `dataMap : map[string]interface{}` -/
  UnmarshalAny : GoString → Except GoString (GoMap Value)
  /-- `yaml.Unmarshal(data, &dataMap)` for `dataMap : map[string]string` -/
  UnmarshalString : GoString → Except GoString (GoMap GoString)
  /-- `yaml.Marshal(v)` for one `interface{}` value -/
  MarshalValue : Value → Except GoString GoString
  /-- a string stored into an `interface{}` -/
  ofString : GoString → Value
  /-- `yaml2.Marshal(dataMap)` for `dataMap : map[string]interface{}` -/
  Marshal2 : GoMap Value → Except GoString GoString
  /-- `yaml.Marshal(dataMap)` for `dataMap : map[string]string` -/
  MarshalStringMap : GoMap GoString → Except GoString GoString
  /-- the text `%v` prints for a `map[string]interface{}` -/
  fmtMap : GoMap Value → GoString

/-! ### `encoding/base64`, `StdEncoding` -/

/-- The alphabet of `base64.StdEncoding`. -/
def encodeStd : GoString :=
  ascii "ABCDEFGHIJKLMNOPQRSTUVWXYZabcdefghijklmnopqrstuvwxyz0123456789+/"

/-- The padding character `'='` of `base64.StdEncoding`. -/
def StdPadding : Byte := 61

/-- The character of the 6-bit value `n`: `enc.encode[n]`. -/
def encodeChar (n : Nat) : Byte := encodeStd.getD n 0

/-- The 6-bit value of a character of the alphabet (`enc.decodeMap`), `none`
for any other byte. -/
def decodeChar (c : Byte) : Option Nat :=
  if encodeStd.indexOf c < 64 then some (encodeStd.indexOf c) else none

/-- `base64.StdEncoding.EncodeToString`: three bytes give four characters; a
last group of one or two bytes is padded with `=`.  Shifts and masks of the Go
code are written as division and remainder. -/
def EncodeToString : GoString → GoString
  | [] => []
  | [a] =>
    let val := a.val * 65536
    [encodeChar (val / 262144 % 64), encodeChar (val / 4096 % 64), StdPadding, StdPadding]
  | [a, b] =>
    let val := a.val * 65536 + b.val * 256
    [encodeChar (val / 262144 % 64), encodeChar (val / 4096 % 64), encodeChar (val / 64 % 64),
      StdPadding]
  | a :: b :: c :: rest =>
    let val := a.val * 65536 + b.val * 256 + c.val
    encodeChar (val / 262144 % 64) :: encodeChar (val / 4096 % 64) ::
      encodeChar (val / 64 % 64) :: encodeChar (val % 64) :: EncodeToString rest

/-- Decoding of a text without line breaks, four characters at a time; only
the last group may end in one or two `=`. -/
def decodeQuanta : GoString → Option GoString
  | [] => some []
  | c0 :: c1 :: c2 :: c3 :: rest =>
    if rest = [] ∧ c3 = StdPadding then
      if c2 = StdPadding then
        match decodeChar c0, decodeChar c1 with
        | some d0, some d1 =>
          let val := d0 * 262144 + d1 * 4096
          some [byte (val / 65536)]
        | _, _ => none
      else
        match decodeChar c0, decodeChar c1, decodeChar c2 with
        | some d0, some d1, some d2 =>
          let val := d0 * 262144 + d1 * 4096 + d2 * 64
          some [byte (val / 65536), byte (val / 256)]
        | _, _, _ => none
    else
      match decodeChar c0, decodeChar c1, decodeChar c2, decodeChar c3, decodeQuanta rest with
      | some d0, some d1, some d2, some d3, some tail =>
        let val := d0 * 262144 + d1 * 4096 + d2 * 64 + d3
        some (byte (val / 65536) :: byte (val / 256) :: byte val :: tail)
      | _, _, _, _, _ => none
  | _ => none

/-- `base64.StdEncoding.DecodeString`: `'\r'` and `'\n'` are ignored, then the
text is decoded group by group; `none` stands for a `CorruptInputError`. -/
def DecodeString (s : GoString) : Option GoString :=
  decodeQuanta (s.filter (fun c => c ≠ 10 ∧ c ≠ 13))

end Sealer

namespace Sealer

/-! ### The three processors and the chain -/

/-- `strings.Split(s, sep)` for a one-byte separator: the pieces between the
separators, `n + 1` pieces for `n` separators (so `[""]` for the empty string). -/
def Split : GoString → Byte → List GoString
  | [], _ => [[]]
  | b :: s, sep =>
    if b = sep then [] :: Split s sep
    else
      match Split s sep with
      | [] => [[b]]
      | t :: ts => (b :: t) :: ts

/-- `strings.Join(elems, sep)` for a one-byte separator. -/
def Join : List GoString → Byte → GoString
  | [], _ => []
  | [t], _ => t
  | t :: t' :: ts, sep => t ++ sep :: Join (t' :: ts) sep

/-- The byte `'|'`. -/
def pipe : Byte := 124

/-- A value of the interface `PreProcessor`: its method
`Process(config *v1.Config) error`, returning the error and the config as the
call leaves it. -/
abbrev PreProcessor := Config → Option GoString × Config

/-- The test `v, ok := config.Labels[trueLabelKey]; !ok || v != trueLabelValue`. -/
def notValue (config : Config) : Bool :=
  match GoMap.get trueLabelKey config.Labels with
  | none => true
  | some v => v ≠ trueLabelValue

/-- `func (v valueProcessor) Process(config *v1.Config) error` -/
def valueProcessor.Process : PreProcessor := fun config =>
  let labels : GoMap GoString := []
  let labels := GoMap.set trueLabelKey trueLabelValue labels
  (none, { config with Labels := labels })

/-- The loop `for k, v := range dataMap { ... dataMap[k] = string(bytes) }` of
`toJSONProcessor.Process`, over the entries still to visit. -/
def toJSONLoop {Value : Type} (y : YamlLib Value) :
    List (GoString × Value) → GoMap Value → Except GoString (GoMap Value)
  | [], dataMap => .ok dataMap
  | (k, v) :: rest, dataMap =>
    match y.MarshalValue v with
    | .error err => .error (ascii "encode yaml failed," ++ err)
    | .ok data =>
      match y.YAMLToJSON data with
      | .error err =>
        .error (ascii "toJson: failed to convert yaml to json, key is " ++ k ++ ascii ", " ++ err)
      | .ok bytes => toJSONLoop y rest (GoMap.set k (y.ofString bytes) dataMap)

/-- `func (t toJSONProcessor) Process(config *v1.Config) error` -/
def toJSONProcessor.Process {Value : Type} (y : YamlLib Value) : PreProcessor := fun config =>
  if notValue config then
    match y.YAMLToJSON config.Spec.Data with
    | .error err => (some (ascii "failed to resolve config data to json, " ++ err), config)
    | .ok json => (none, { config with Spec := { config.Spec with Data := json } })
  else
    match y.UnmarshalAny config.Spec.Data with
    | .error err => (some (ascii "convert yaml data to map failed, " ++ err), config)
    | .ok dataMap =>
      match toJSONLoop y dataMap dataMap with
      | .error err => (some err, config)
      | .ok dataMap =>
        match y.Marshal2 dataMap with
        | .error err =>
          (some (ascii "failed to convert data map, " ++ y.fmtMap dataMap ++ ascii "," ++ err),
            config)
        | .ok data => (none, { config with Spec := { config.Spec with Data := data } })

/-- The loop `for k, v := range dataMap { dataMap[k] = base64...EncodeToString([]byte(v)) }`
of `toBase64Processor.Process`, over the entries still to visit. -/
def toBase64Loop : List (GoString × GoString) → GoMap GoString → GoMap GoString
  | [], dataMap => dataMap
  | (k, v) :: rest, dataMap => toBase64Loop rest (GoMap.set k (EncodeToString v) dataMap)

/-- `func (t toBase64Processor) Process(config *v1.Config) error` -/
def toBase64Processor.Process {Value : Type} (y : YamlLib Value) : PreProcessor := fun config =>
  if notValue config then
    (none, { config with Spec := { config.Spec with Data := EncodeToString config.Spec.Data } })
  else
    match y.UnmarshalString config.Spec.Data with
    | .error err => (some (ascii "tobase64: convert yaml data to map failed, " ++ err), config)
    | .ok dataMap =>
      let dataMap := toBase64Loop dataMap dataMap
      match y.MarshalStringMap dataMap with
      | .error err => (some (ascii "failed to convert base64 to yaml, " ++ err), config)
      | .ok bs => (none, { config with Spec := { config.Spec with Data := bs } })

/-- The table `pmap` built at the start of `NewProcessorsAndRun`. -/
def pmap {Value : Type} (y : YamlLib Value) : GoMap PreProcessor :=
  let pmap : GoMap PreProcessor := []
  let pmap := GoMap.set valueProcessorName valueProcessor.Process pmap
  let pmap := GoMap.set toJSONProcessorName (toJSONProcessor.Process y) pmap
  let pmap := GoMap.set toBase64ProcessorName (toBase64Processor.Process y) pmap
  pmap

/-- The loop `for _, pname := range processors { ... }` of `NewProcessorsAndRun`.
The warning logged for an unknown name is not part of the state. -/
def runProcessors (pmap : GoMap PreProcessor) : List GoString → PreProcessor
  | [], config => (none, config)
  | pname :: rest, config =>
    if pname = [] then runProcessors pmap rest config
    else
      match GoMap.get pname pmap with
      | none => runProcessors pmap rest config
      | some prossor =>
        match prossor config with
        | (some err, config) => (some err, config)
        | (none, config) => runProcessors pmap rest config

/-- `func NewProcessorsAndRun(config *v1.Config) error` -/
def NewProcessorsAndRun {Value : Type} (y : YamlLib Value) : PreProcessor := fun config =>
  let processors := Split config.Spec.Process pipe
  runProcessors (pmap y) processors config

/-- The spec's reading of a processor chain: a token counts when it is not
empty and is one of `value`, `toJson`, `toBase64`. -/
def isProcessorName (pname : GoString) : Bool :=
  pname ≠ [] ∧ (pname = valueProcessorName ∨ pname = toJSONProcessorName ∨
    pname = toBase64ProcessorName)

/-- The spec `s` with every empty token and every token that is not a
processor name deleted. -/
def cleanSpec (s : GoString) : GoString :=
  Join ((Split s pipe).filter isProcessorName) pipe

/-- `config` with its processor chain replaced by `s`. -/
def Config.withProcess (config : Config) (s : GoString) : Config :=
  { config with Spec := { config.Spec with Process := s } }

/-- A sample YAML library over `Value := GoString`: documents are kept as they
are, maps are written `k=v;`, `YAMLToJSON` brackets its input. -/
def sampleYaml : YamlLib GoString where
  YAMLToJSON := fun d => .ok (ascii "[" ++ d ++ ascii "]")
  UnmarshalAny := fun d => .ok [(ascii "k", d)]
  UnmarshalString := fun d => .ok [(ascii "user", d), (ascii "pass", ascii "s3cret")]
  MarshalValue := fun v => .ok v
  ofString := fun s => s
  Marshal2 := fun m => .ok (m.flatMap (fun e => e.1 ++ ascii "=" ++ e.2 ++ ascii ";"))
  MarshalStringMap := fun m => .ok (m.flatMap (fun e => e.1 ++ ascii "=" ++ e.2 ++ ascii ";"))
  fmtMap := fun _ => ascii "map[]"

/-- A sample config document carrying one label of its own. -/
def sampleConfig (process data : String) : Config where
  Labels := [(ascii "app", ascii "nginx")]
  Spec := { Process := ascii process, Data := ascii data }

end Sealer

namespace Sealer

/-! ## Node join and delete (pkg/runtime/nodes.go) -/

/-- The state of a `KubeadmRuntime` that `nodes.go` reads or writes.  `Other`
is the rest of the kubeadm configuration (join token, hashes, keys, ...). -/
structure KubeadmRuntime (κ : Type) where
  /-- `k.GetMasterIPList()` -/
  MasterIPList : List String
  /-- `k.getVIP()` -/
  VIP : String
  /-- `k.getAPIServerDomain()` -/
  APIServerDomain : String
  /-- `k.getRootfs()` -/
  Rootfs : String
  /-- `k.getImageMountDir()` -/
  ImageMountDir : String
  /-- `k.getKubeVersion()` -/
  KubeVersion : String
  /-- `k.Vlog` -/
  Vlog : Int
  /-- the API-server endpoint of the join configuration -/
  APIServerEndpoint : String
  /-- the cgroup driver of the kubelet configuration -/
  CgroupDriver : String
  /-- the local API endpoint of the join configuration, `none` once cleaned -/
  JoinLocalAPIEndPoint : Option String
  /-- the remaining configuration -/
  Other : κ

namespace KubeadmRuntime

variable {κ : Type}

/-- `k.GetMasterIPList()` -/
def GetMasterIPList (k : KubeadmRuntime κ) : List String := k.MasterIPList

/-- Modelled from the spec: `k.GetMaster0IP()`, "first master IP is the
bootstrap/control node"; the empty string when there is no master. -/
def GetMaster0IP (k : KubeadmRuntime κ) : String := k.MasterIPList.headD ""

/-- `k.getVIP()` -/
def getVIP (k : KubeadmRuntime κ) : String := k.VIP

/-- `k.getAPIServerDomain()` -/
def getAPIServerDomain (k : KubeadmRuntime κ) : String := k.APIServerDomain

/-- `k.getRootfs()` -/
def getRootfs (k : KubeadmRuntime κ) : String := k.Rootfs

/-- `k.getImageMountDir()` -/
def getImageMountDir (k : KubeadmRuntime κ) : String := k.ImageMountDir

/-- `k.getKubeVersion()` -/
def getKubeVersion (k : KubeadmRuntime κ) : String := k.KubeVersion

/-- Modelled from the spec: `k.setAPIServerEndpoint(endpoint)` stores the
API-server endpoint ("API-server endpoint = VIP:6443") in the join configuration. -/
def setAPIServerEndpoint (k : KubeadmRuntime κ) (endpoint : String) : KubeadmRuntime κ :=
  { k with APIServerEndpoint := endpoint }

/-- Modelled from the spec: `k.setCgroupDriver(cGroupDriver)` stores the probed
cgroup driver ("cached into the descriptor"). -/
def setCgroupDriver (k : KubeadmRuntime κ) (cGroupDriver : String) : KubeadmRuntime κ :=
  { k with CgroupDriver := cGroupDriver }

/-- Modelled from the spec: `k.cleanJoinLocalAPIEndPoint()` clears the local API
endpoint of the join configuration. -/
def cleanJoinLocalAPIEndPoint (k : KubeadmRuntime κ) : KubeadmRuntime κ :=
  { k with JoinLocalAPIEndPoint := none }

end KubeadmRuntime

/-- The result of `GetRegistryConfig`. -/
structure RegistryConfig where
  /-- `cf.Domain` -/
  Domain : String
  /-- `cf.Port` -/
  Port : String
  /-- `cf.Username` -/
  Username : String
  /-- `cf.Password` -/
  Password : String
  deriving DecidableEq, Repr

/-- What `nodes.go` calls outside the file.  Methods of `k` that may rewrite its
configuration act on the pair of runtime and world; calls that only talk to a
host read the runtime and act on the world `σ`.  An error is its message. -/
structure RuntimeEnv (κ σ : Type) where
  /-- `k.MergeKubeadmConfig()` -/
  MergeKubeadmConfig : Stage (KubeadmRuntime κ × σ) String
  /-- `k.WaitSSHReady(tryTimes, hosts...)` -/
  WaitSSHReady : KubeadmRuntime κ → Nat → List String → Stage σ String
  /-- `k.sendRegistryCert(hosts)` -/
  sendRegistryCert : KubeadmRuntime κ → List String → Stage σ String
  /-- `k.GetJoinTokenHashAndKey()` -/
  GetJoinTokenHashAndKey : Stage (KubeadmRuntime κ × σ) String
  /-- `k.getCgroupDriverFromShell(nodeIP)` -/
  getCgroupDriverFromShell : KubeadmRuntime κ → String → σ → Except String String × σ
  /-- `utils.MarshalYamlConfigs(k.JoinConfiguration, k.KubeletConfiguration)` -/
  MarshalYamlConfigs : KubeadmRuntime κ → Except String String
  /-- `k.getHostSSHClient(hostIP)`; the client returned is the one the three
  command calls for that host run on -/
  getHostSSHClient : KubeadmRuntime κ → String → Stage σ String
  /-- `ssh.CmdAsync(host, cmds...)` -/
  CmdAsync : String → List String → Stage σ String
  /-- `ssh.CmdToString(host, cmd, spilt)` -/
  CmdToString : String → String → String → σ → Except String String × σ
  /-- `ssh.Cmd(host, cmd)` -/
  Cmd : String → String → σ → Except String String × σ
  /-- `k.isHostName(master, host)` -/
  isHostName : KubeadmRuntime κ → String → String → σ → Except String String × σ
  /-- `utils.GetLocalHostAddresses()` -/
  GetLocalHostAddresses : σ → Except String (List String) × σ
  /-- `utils.IsLocalIP(ip, addresses)` -/
  IsLocalIP : String → List String → Bool
  /-- `k.Command(version, JoinNode)` -/
  CommandJoinNode : KubeadmRuntime κ → String → String
  /-- `ipvs.LvsStaticPodYaml(vip, masters, image)` -/
  LvsStaticPodYaml : String → List String → String → String
  /-- `getRegistryHost(rootfs, defaultRegistry)` -/
  getRegistryHost : String → String → String
  /-- `GetRegistryConfig(rootfs, defaultRegistry)` -/
  GetRegistryConfig : String → String → RegistryConfig
  /-- `getAPIServerHost(ipAddr, APIServer)` -/
  getAPIServerHost : String → String → String
  /-- `fmt.Sprintf(RemoteAddEtcHosts, a, b)` -/
  RemoteAddEtcHosts : String → String → String
  /-- `fmt.Sprintf(DockerLoginCommand, registry, username, password)` -/
  DockerLoginCommand : String → String → String → String
  /-- `fmt.Sprintf(RemoteCleanMasterOrNode, vlogToStr(vlog))` -/
  RemoteCleanMasterOrNode : Int → String
  /-- `fmt.Sprintf(RemoteRemoveAPIServerEtcHost, host)` -/
  RemoteRemoveAPIServerEtcHost : String → String
  /-- the constant `RemoveKubeConfig` -/
  RemoveKubeConfig : String
  /-- `fmt.Sprintf(KubeDeleteNode, name)` -/
  KubeDeleteNode : String → String
  /-- `strings.TrimSpace` -/
  TrimSpace : String → String
  /-- the Go scheduler: the order in which the goroutines of an `errgroup`
  move, see `observeGroup` -/
  schedule : List Nat

/-- Modelled from the spec: the constant `utils.RouteOK`, the sentinel the route
check prints when no action is needed ("a sentinel string like `OK`"). -/
def RouteOK : String := "OK"

/-- `fmt.Sprintf(RemoteAddIPVS, vip, masters)` -/
def RemoteAddIPVS (vip masters : String) : String :=
  "seautil ipvs --vs " ++ vip ++ ":6443 " ++ masters ++
    " --health-path /healthz --health-schem https --run-once"

/-- The constant `RemoteStaticPodMkdir`. -/
def RemoteStaticPodMkdir : String := "mkdir -p /etc/kubernetes/manifests"

/-- `fmt.Sprintf(RemoteJoinConfig, config, rootfs)` -/
def RemoteJoinConfig (config rootfs : String) : String :=
  "echo \"" ++ config ++ "\" > " ++ rootfs ++ "/etc/kubeadm.yml"

/-- The constant `LvscareDefaultStaticPodFileName`. -/
def LvscareDefaultStaticPodFileName : String := "/etc/kubernetes/manifests/kube-lvscare.yaml"

/-- `fmt.Sprintf(RemoteAddIPVSEtcHosts, vip, domain)` -/
def RemoteAddIPVSEtcHosts (vip domain : String) : String :=
  "echo " ++ vip ++ " " ++ domain ++ " >> /etc/hosts"

/-- `fmt.Sprintf(RemoteCheckRoute, host)` -/
def RemoteCheckRoute (host : String) : String := "seautil route check --host " ++ host

/-- `fmt.Sprintf(RemoteAddRoute, host, gateway)` -/
def RemoteAddRoute (host gateway : String) : String :=
  "seautil route add --host " ++ host ++ " --gateway " ++ gateway

/-- `fmt.Sprintf(RemoteDelRoute, host, gateway)` -/
def RemoteDelRoute (host gateway : String) : String :=
  "if command -v seautil > /dev/null 2>&1; then seautil route del --host " ++ host ++
    " --gateway " ++ gateway ++ "; fi"

/-- `fmt.Sprintf(LvscareStaticPodCmd, yaml, file)` -/
def LvscareStaticPodCmd (yaml file : String) : String :=
  "echo \"" ++ yaml ++ "\" > " ++ file

end Sealer

namespace Sealer

/-! ## Goroutines and `errgroup` (golang.org/x/sync/errgroup) -/

/-- The body of a goroutine, cut into atomic steps on the state `S` that the
goroutines of a group share.  A step is one statement that reads or writes
the shared state or calls out of the file; between two steps of a goroutine
the other goroutines of the group may take any number of steps. -/
inductive Routine (S α : Type) where
  /-- the body has returned `a` -/
  | ret (a : α) : Routine S α
  /-- one atomic step, taken in the shared state `s`: the shared state becomes
  `upd s` and the body goes on as `next s` -/
  | act (upd : S → S) (next : S → Routine S α) : Routine S α

namespace Routine

variable {S α β : Type}

/-- Sequencing: run `p`, then `g` on what `p` returned. -/
def bind : Routine S α → (α → Routine S β) → Routine S β
  | ret a, g => g a
  | act upd next, g => act upd (fun s => (next s).bind g)

/-- One statement as one atomic step: `f` gives the value of the statement and
the shared state it leaves. -/
def atomic (f : S → α × S) : Routine S α :=
  act (fun s => (f s).2) (fun s => ret (f s).1)

/-- The body run from `s` to its end with no other goroutine in between. -/
def run : Routine S α → S → α × S
  | ret a, s => (a, s)
  | act upd next, s => (next s).run (upd s)

instance : Monad (Routine S) where
  pure := ret
  bind := bind

end Routine

/-- An `errgroup.Group` while its goroutines run. -/
structure Group (S ε : Type) where
  /-- what goroutine `i` (the `i`-th `eg.Go`) has left to run, `none` once its
  function has returned and the group has taken its result -/
  routines : List (Option (Routine S (Option ε)))
  /-- `g.err`, the first non-nil error returned so far (`g.errOnce`) -/
  err : Option ε
  /-- the state the goroutines share -/
  shared : S
  /-- observation only: index and result of the goroutines that have returned,
  in the order they returned -/
  returned : List (StageRecord ε)

namespace Group

variable {S ε : Type}

/-- The group right after the `eg.Go` loop. -/
def start (tasks : List (Routine S (Option ε))) (s : S) : Group S ε :=
  { routines := tasks.map some, err := none, shared := s, returned := [] }

/-- `g.errOnce.Do(func() { g.err = err })` for the result `r` of a goroutine:
only the first non-nil error is kept. -/
def errOnce (err r : Option ε) : Option ε :=
  match err with
  | some e => some e
  | none => r

/-- The scheduler lets goroutine `i` move: it takes its next atomic step, or,
when its function has returned, the group takes its result.  A goroutine
that is through (or an index out of range) does not move. -/
def step (g : Group S ε) (i : Nat) : Group S ε :=
  match g.routines.getD i none with
  | none => g
  | some (.ret r) =>
    { routines := g.routines.set i none, err := errOnce g.err r, shared := g.shared,
      returned := g.returned ++ [(i, r)] }
  | some (.act upd next) =>
    { routines := g.routines.set i (some (next g.shared)), err := g.err,
      shared := upd g.shared, returned := g.returned }

/-- The goroutines `rest` (numbered from `i`) that are not through yet run to
their end one after the other, in list order. -/
def drain : Nat → List (Option (Routine S (Option ε))) → Option ε × S × List (StageRecord ε) →
    Option ε × S × List (StageRecord ε)
  | _, [], out => out
  | i, none :: rest, out => drain (i + 1) rest out
  | i, some p :: rest, out =>
    drain (i + 1) rest
      (errOnce out.1 (p.run out.2.1).1, (p.run out.2.1).2, out.2.2 ++ [(i, (p.run out.2.1).1)])

end Group

/-- The outcome of an `errgroup`: `eg.Go(task)` for every task, then
`eg.Wait()`.  The goroutines interleave as the schedule `sched` says: its
entries name, one after the other, the goroutine that moves next, so that
every interleaving of the steps is the run under some schedule.  `eg.Wait()`
returns when every goroutine has returned, so a schedule that ends before
that is completed by `Group.drain`.  The outcome is the error that `eg.Wait()`
returns (the first non-nil error returned in time), the shared state, and the
results in the order the goroutines returned. -/
def observeGroup {S ε : Type} (sched : List Nat) (tasks : List (Routine S (Option ε))) (s : S) :
    Option ε × S × List (StageRecord ε) :=
  let g := sched.foldl Group.step (Group.start tasks s)
  Group.drain 0 g.routines (g.err, g.shared, g.returned)

/-- `eg.Go(task)` for every task, then `eg.Wait()`: the error returned and the
shared state, under the schedule `sched`. -/
def runGroup {S ε : Type} (sched : List Nat) (tasks : List (Routine S (Option ε))) :
    Stage S ε := fun s =>
  ((observeGroup sched tasks s).1, (observeGroup sched tasks s).2.1)

/-! ## Reasoning about interleaved goroutines -/

namespace Routine

variable {S S' α : Type}

/-- Rely/guarantee for a goroutine body that starts in `s` while other
goroutines move the shared state along `R`: every step the body takes is
itself inside `R`, and when it returns `a`, `Q a` holds of the state then and
of every state the others move it to. -/
def Runs (R : S → S → Prop) (Q : α → S → Prop) : Routine S α → S → Prop
  | ret a, s => ∀ s', R s s' → Q a s'
  | act upd next, s => ∀ s', R s s' → R s' (upd s') ∧ Runs R Q (next s') (upd s')

/-- The body `q` on the state `S'` does, seen through `π`, what `p` does on `S`. -/
def Sim (π : S' → S) : Routine S α → Routine S' α → Prop
  | ret a, ret b => a = b
  | act upd next, act upd' next' =>
    ∀ s', π (upd' s') = upd (π s') ∧ Sim π (next (π s')) (next' s')
  | _, _ => False

end Routine

/-- The first non-nil error among results in the order they were returned. -/
def firstError {ε : Type} : List (StageRecord ε) → Option ε
  | [] => none
  | (_, some e) :: _ => some e
  | (_, none) :: rest => firstError rest

end Sealer

namespace Sealer

namespace Group

variable {S S' ε : Type}

/-- Bookkeeping of a group of `n` goroutines: the goroutines that are through
are those with a result recorded, each once, and `g.err` is the first non-nil
error recorded. -/
def Book (n : Nat) (g : Group S ε) : Prop :=
  g.routines.length = n ∧
  (∀ j, j < n → (g.routines.getD j none = none ↔ j ∈ g.returned.map Prod.fst)) ∧
  (g.returned.map Prod.fst).Nodup ∧
  (∀ j ∈ g.returned.map Prod.fst, j < n) ∧
  g.err = firstError g.returned

/-- Rely/guarantee for a group started in `s0`: the shared state has moved
along `R`, every goroutine still running satisfies its judgement, and every
recorded result satisfies its postcondition from now on. -/
def Sound (R : S → S → Prop) (Q : Nat → Option ε → S → Prop) (s0 : S) (g : Group S ε) : Prop :=
  R s0 g.shared ∧
  (∀ i p, g.routines.getD i none = some p → Routine.Runs R (Q i) p g.shared) ∧
  (∀ rec ∈ g.returned, ∀ s', R g.shared s' → Q rec.1 rec.2 s')

/-- Two slots of two groups hold simulated bodies, or are both through. -/
def SimSlot (π : S' → S) :
    Option (Routine S (Option ε)) → Option (Routine S' (Option ε)) → Prop
  | none, none => True
  | some p, some q => Routine.Sim π p q
  | _, _ => False

/-- The group `h` on the state `S'` is, seen through `π`, the group `g`. -/
def Simulates (π : S' → S) (g : Group S ε) (h : Group S' ε) : Prop :=
  g.routines.length = h.routines.length ∧
  (∀ i, SimSlot π (g.routines.getD i none) (h.routines.getD i none)) ∧
  g.err = h.err ∧ π h.shared = g.shared ∧ g.returned = h.returned

end Group

end Sealer

namespace Sealer

namespace KubeadmRuntime

variable {κ σ : Type}

/-- `func (k *KubeadmRuntime) joinNodeConfig(nodeIP string) ([]byte, error)` -/
def joinNodeConfig (env : RuntimeEnv κ σ) (nodeIP : String) :
    KubeadmRuntime κ × σ → Except String String × (KubeadmRuntime κ × σ) := fun (k, w) =>
  let k := k.setAPIServerEndpoint (k.getVIP ++ ":6443")
  match env.getCgroupDriverFromShell k nodeIP w with
  | (.error err, w) => (.error err, (k, w))
  | (.ok cGroupDriver, w) =>
    let k := k.setCgroupDriver cGroupDriver
    (env.MarshalYamlConfigs k, (k, w))

/-- `func (k *KubeadmRuntime) checkMultiNetworkAddVIPRoute(node string) error` -/
def checkMultiNetworkAddVIPRoute (env : RuntimeEnv κ σ) (node : String) :
    Stage (KubeadmRuntime κ × σ) String := fun (k, w) =>
  match env.getHostSSHClient k node w with
  | (some err, w) => (some err, (k, w))
  | (none, w) =>
    match env.CmdToString node (RemoteCheckRoute node) "" w with
    | (.error err, w) => (some err, (k, w))
    | (.ok result, w) =>
      if result = RouteOK then (none, (k, w))
      else
        match env.Cmd node (RemoteAddRoute k.getVIP node) w with
        | (.error err, w) => (some err, (k, w))
        | (.ok _, w) => (none, (k, w))

/-- `func (k *KubeadmRuntime) deleteVIPRouteIfExist(node string) error` -/
def deleteVIPRouteIfExist (env : RuntimeEnv κ σ) (node : String) :
    Stage (KubeadmRuntime κ × σ) String := fun (k, w) =>
  match env.getHostSSHClient k node w with
  | (some err, w) => (some err, (k, w))
  | (none, w) =>
    match env.Cmd node (RemoteDelRoute k.getVIP node) w with
    | (.error err, w) => (some err, (k, w))
    | (.ok _, w) => (none, (k, w))

/-- The seven commands a join task hands to `ssh.CmdAsync`, in call order. -/
def joinCommands (env : RuntimeEnv κ σ) (k : KubeadmRuntime κ)
    (addRegistryHostsAndLogin joinConfig ipvsCmd : String) : List String :=
  let cmdWriteJoinConfig := RemoteJoinConfig joinConfig k.getRootfs
  let cmdHosts := RemoteAddIPVSEtcHosts k.getVIP k.getAPIServerDomain
  let cmd := env.CommandJoinNode k k.getKubeVersion
  let yaml := env.LvsStaticPodYaml k.getVIP k.GetMasterIPList ""
  let lvscareStaticCmd := LvscareStaticPodCmd yaml LvscareDefaultStaticPodFileName
  [addRegistryHostsAndLogin, cmdWriteJoinConfig, cmdHosts, ipvsCmd, cmd, RemoteStaticPodMkdir,
    lvscareStaticCmd]

/-- The task `eg.Go(func() error { ... })` that `joinNodes` starts for `node`;
`ipvsCmd` and `addRegistryHostsAndLogin` are the two strings the closure
captures.  The `logger.Info` lines are not part of the state. -/
def joinNodeTask (env : RuntimeEnv κ σ) (ipvsCmd addRegistryHostsAndLogin : String)
    (node : String) : Stage (KubeadmRuntime κ × σ) String := fun s =>
  match checkMultiNetworkAddVIPRoute env node s with
  | (some err, s) => (some ("failed to check multi network: " ++ err), s)
  | (none, s) =>
    match joinNodeConfig env node s with
    | (.error err, s) => (some ("failed to join node " ++ node ++ " " ++ err), s)
    | (.ok joinConfig, (k, w)) =>
      let cmds := joinCommands env k addRegistryHostsAndLogin joinConfig ipvsCmd
      match env.getHostSSHClient k node w with
      | (some err, w) => (some ("failed to join node " ++ node ++ " " ++ err), (k, w))
      | (none, w) =>
        match env.CmdAsync node cmds w with
        | (some err, w) => (some ("failed to join node " ++ node ++ " " ++ err), (k, w))
        | (none, w) => (none, (k, w))

/-- The loop `for _, master := range k.GetMasterIPList() { masters += fmt.Sprintf(" --rs %s:6443", master) }`. -/
def mastersArg (masterIPList : List String) : String :=
  masterIPList.foldl (fun masters master => masters ++ (" --rs " ++ master ++ ":6443")) ""

/-- The string `addRegistryHostsAndLogin` that `joinNodes` builds. -/
def addRegistryHostsAndLogin (env : RuntimeEnv κ σ) (k : KubeadmRuntime κ) : String :=
  let registryHost := env.getRegistryHost k.getImageMountDir k.GetMaster0IP
  let addRegistryHostsAndLogin := env.RemoteAddEtcHosts registryHost registryHost
  let cf := env.GetRegistryConfig k.getImageMountDir k.GetMaster0IP
  if cf.Username ≠ "" ∧ cf.Password ≠ "" then
    addRegistryHostsAndLogin ++ " && " ++
      env.DockerLoginCommand (cf.Domain ++ ":" ++ cf.Port) cf.Username cf.Password
  else
    addRegistryHostsAndLogin

/-- A statement of a goroutine that calls out of the file: the call reads the
runtime, acts on the world and returns a value, in one atomic step. -/
def call {α : Type} (f : KubeadmRuntime κ → σ → α × σ) : Routine (KubeadmRuntime κ × σ) α :=
  Routine.atomic fun s => ((f s.1 s.2).1, (s.1, (f s.1 s.2).2))

/-- A statement of a goroutine that reads the shared runtime, in one atomic step. -/
def load {α : Type} (f : KubeadmRuntime κ → α) : Routine (KubeadmRuntime κ × σ) α :=
  Routine.atomic fun s => (f s.1, s)

/-- A statement of a goroutine that writes the shared runtime, in one atomic step. -/
def store (f : KubeadmRuntime κ → KubeadmRuntime κ) : Routine (KubeadmRuntime κ × σ) Unit :=
  Routine.atomic fun s => ((), (f s.1, s.2))

/-- `checkMultiNetworkAddVIPRoute` as it runs inside a goroutine: every
statement that touches the world or the shared runtime is one atomic step. -/
def checkMultiNetworkAddVIPRouteSteps (env : RuntimeEnv κ σ) (node : String) :
    Routine (KubeadmRuntime κ × σ) (Option String) := do
  match ← call fun k w => env.getHostSSHClient k node w with
  | some err => return some err
  | none =>
    match ← call fun _ w => env.CmdToString node (RemoteCheckRoute node) "" w with
    | .error err => return some err
    | .ok result =>
      if result = RouteOK then return none
      else
        match ← call fun k w => env.Cmd node (RemoteAddRoute k.getVIP node) w with
        | .error err => return some err
        | .ok _ => return none

/-- `joinNodeConfig` as it runs inside a goroutine: the two writes of the
shared runtime, the probe in between and the rendering that reads the runtime
are four atomic steps. -/
def joinNodeConfigSteps (env : RuntimeEnv κ σ) (nodeIP : String) :
    Routine (KubeadmRuntime κ × σ) (Except String String) := do
  store fun k => k.setAPIServerEndpoint (k.getVIP ++ ":6443")
  match ← call fun k w => env.getCgroupDriverFromShell k nodeIP w with
  | .error err => return .error err
  | .ok cGroupDriver =>
    store fun k => k.setCgroupDriver cGroupDriver
    load fun k => env.MarshalYamlConfigs k

/-- The goroutine `eg.Go(func() error { ... })` that `joinNodes` starts for
`node`, statement by statement: every statement that touches the world or
the shared runtime `k` is one atomic step, between any two of them the
goroutines of the other nodes may move. -/
def joinNodeTaskSteps (env : RuntimeEnv κ σ) (ipvsCmd addRegistryHostsAndLogin : String)
    (node : String) : Routine (KubeadmRuntime κ × σ) (Option String) := do
  match ← checkMultiNetworkAddVIPRouteSteps env node with
  | some err => return some ("failed to check multi network: " ++ err)
  | none =>
    match ← joinNodeConfigSteps env node with
    | .error err => return some ("failed to join node " ++ node ++ " " ++ err)
    | .ok joinConfig =>
      let cmdWriteJoinConfig ← load fun k => RemoteJoinConfig joinConfig k.getRootfs
      let cmdHosts ← load fun k => RemoteAddIPVSEtcHosts k.getVIP k.getAPIServerDomain
      let cmd ← load fun k => env.CommandJoinNode k k.getKubeVersion
      let yaml ← load fun k => env.LvsStaticPodYaml k.getVIP k.GetMasterIPList ""
      let lvscareStaticCmd := LvscareStaticPodCmd yaml LvscareDefaultStaticPodFileName
      match ← call fun k w => env.getHostSSHClient k node w with
      | some err => return some ("failed to join node " ++ node ++ " " ++ err)
      | none =>
        match ← call fun _ w => env.CmdAsync node
            [addRegistryHostsAndLogin, cmdWriteJoinConfig, cmdHosts, ipvsCmd, cmd,
              RemoteStaticPodMkdir, lvscareStaticCmd] w with
        | some err => return some ("failed to join node " ++ node ++ " " ++ err)
        | none => return none

/-- `func (k *KubeadmRuntime) joinNodes(nodes []string) error` -/
def joinNodes (env : RuntimeEnv κ σ) (nodes : List String) :
    Stage (KubeadmRuntime κ × σ) String := fun s =>
  if nodes.length = 0 then (none, s)
  else
    match env.MergeKubeadmConfig s with
    | (some err, s) => (some err, s)
    | (none, (k, w)) =>
      match env.WaitSSHReady k 6 nodes w with
      | (some err, w) => (some ("join nodes wait for ssh ready time out: " ++ err), (k, w))
      | (none, w) =>
        match env.sendRegistryCert k nodes w with
        | (some err, w) => (some err, (k, w))
        | (none, w) =>
          match env.GetJoinTokenHashAndKey (k, w) with
          | (some err, s) => (some err, s)
          | (none, (k, w)) =>
            let masters := mastersArg k.GetMasterIPList
            let ipvsCmd := RemoteAddIPVS k.getVIP masters
            let k := k.setAPIServerEndpoint (k.getVIP ++ ":6443")
            let k := k.cleanJoinLocalAPIEndPoint
            let addRegistryHostsAndLogin := addRegistryHostsAndLogin env k
            runGroup env.schedule
              (nodes.map (joinNodeTaskSteps env ipvsCmd addRegistryHostsAndLogin)) (k, w)

/-- `func (k *KubeadmRuntime) deleteNode(node string) error` -/
def deleteNode (env : RuntimeEnv κ σ) (node : String) :
    Stage (KubeadmRuntime κ × σ) String := fun (k, w) =>
  match env.getHostSSHClient k node w with
  | (some err, w) => (some ("failed to delete node: " ++ err), (k, w))
  | (none, w) =>
    let remoteCleanCmds :=
      [env.RemoteCleanMasterOrNode k.Vlog,
        env.RemoteRemoveAPIServerEtcHost (env.getRegistryHost k.getRootfs k.GetMaster0IP),
        env.RemoteRemoveAPIServerEtcHost k.getAPIServerDomain]
    let (address, w) := env.GetLocalHostAddresses w
    let remoteCleanCmds :=
      match address with
      | .error _ => remoteCleanCmds ++ [env.RemoveKubeConfig]
      | .ok address =>
        if !env.IsLocalIP node address then remoteCleanCmds ++ [env.RemoveKubeConfig]
        else
          let apiServerHost := env.getAPIServerHost k.GetMaster0IP k.getAPIServerDomain
          remoteCleanCmds ++ [env.RemoteAddEtcHosts apiServerHost apiServerHost]
    match env.CmdAsync node remoteCleanCmds w with
    | (some err, w) => (some err, (k, w))
    | (none, w) =>
      if k.GetMasterIPList.length > 0 then
        match env.isHostName k k.GetMaster0IP node w with
        | (.error err, w) => (some err, (k, w))
        | (.ok hostname, w) =>
          match env.getHostSSHClient k k.GetMaster0IP w with
          | (some err, w) => (some ("failed to delete node on master0," ++ err), (k, w))
          | (none, w) =>
            match env.CmdAsync k.GetMaster0IP [env.KubeDeleteNode (env.TrimSpace hostname)] w with
            | (some err, w) =>
              (some ("delete node " ++ hostname ++ " failed " ++ err), (k, w))
            | (none, w) => (none, (k, w))
      else (none, (k, w))

/-- The task `eg.Go(func() error { ... })` that `deleteNodes` starts for `node`. -/
def deleteNodeTask (env : RuntimeEnv κ σ) (node : String) :
    Stage (KubeadmRuntime κ × σ) String := fun s =>
  match deleteNode env node s with
  | (some err, s) => (some ("delete node " ++ node ++ " failed " ++ err), s)
  | (none, s) =>
    match deleteVIPRouteIfExist env node s with
    | (some err, s) => (some ("failed to delete " ++ node ++ " route: " ++ err), s)
    | (none, s) => (none, s)

/-- `deleteVIPRouteIfExist` as it runs inside a goroutine. -/
def deleteVIPRouteIfExistSteps (env : RuntimeEnv κ σ) (node : String) :
    Routine (KubeadmRuntime κ × σ) (Option String) := do
  match ← call fun k w => env.getHostSSHClient k node w with
  | some err => return some err
  | none =>
    match ← call fun k w => env.Cmd node (RemoteDelRoute k.getVIP node) w with
    | .error err => return some err
    | .ok _ => return none

/-- `deleteNode` as it runs inside a goroutine: every statement that touches
the world or the shared runtime is one atomic step. -/
def deleteNodeSteps (env : RuntimeEnv κ σ) (node : String) :
    Routine (KubeadmRuntime κ × σ) (Option String) := do
  match ← call fun k w => env.getHostSSHClient k node w with
  | some err => return some ("failed to delete node: " ++ err)
  | none =>
    let remoteCleanCmds ← load fun k =>
      [env.RemoteCleanMasterOrNode k.Vlog,
        env.RemoteRemoveAPIServerEtcHost (env.getRegistryHost k.getRootfs k.GetMaster0IP),
        env.RemoteRemoveAPIServerEtcHost k.getAPIServerDomain]
    let address ← call fun _ w => env.GetLocalHostAddresses w
    let remoteCleanCmds ←
      match address with
      | .error _ => pure (remoteCleanCmds ++ [env.RemoveKubeConfig])
      | .ok address =>
        if !env.IsLocalIP node address then pure (remoteCleanCmds ++ [env.RemoveKubeConfig])
        else do
          let apiServerHost ← load fun k =>
            env.getAPIServerHost k.GetMaster0IP k.getAPIServerDomain
          pure (remoteCleanCmds ++ [env.RemoteAddEtcHosts apiServerHost apiServerHost])
    match ← call fun _ w => env.CmdAsync node remoteCleanCmds w with
    | some err => return some err
    | none =>
      if (← load fun k => k.GetMasterIPList.length) > 0 then
        match ← call fun k w => env.isHostName k k.GetMaster0IP node w with
        | .error err => return some err
        | .ok hostname =>
          match ← call fun k w => env.getHostSSHClient k k.GetMaster0IP w with
          | some err => return some ("failed to delete node on master0," ++ err)
          | none =>
            match ← call fun k w =>
                env.CmdAsync k.GetMaster0IP [env.KubeDeleteNode (env.TrimSpace hostname)] w with
            | some err => return some ("delete node " ++ hostname ++ " failed " ++ err)
            | none => return none
      else return none

/-- The goroutine `eg.Go(func() error { ... })` that `deleteNodes` starts for
`node`, statement by statement. -/
def deleteNodeTaskSteps (env : RuntimeEnv κ σ) (node : String) :
    Routine (KubeadmRuntime κ × σ) (Option String) := do
  match ← deleteNodeSteps env node with
  | some err => return some ("delete node " ++ node ++ " failed " ++ err)
  | none =>
    match ← deleteVIPRouteIfExistSteps env node with
    | some err => return some ("failed to delete " ++ node ++ " route: " ++ err)
    | none => return none

/-- `func (k *KubeadmRuntime) deleteNodes(nodes []string) error` -/
def deleteNodes (env : RuntimeEnv κ σ) (nodes : List String) :
    Stage (KubeadmRuntime κ × σ) String := fun s =>
  if nodes.length = 0 then (none, s)
  else runGroup env.schedule (nodes.map (deleteNodeTaskSteps env)) s

end KubeadmRuntime

end Sealer

namespace Sealer

/-- The calls of `nodes.go` that leave the process. -/
inductive RuntimeCall where
  /-- `k.MergeKubeadmConfig()` -/
  | mergeKubeadmConfig
  /-- `k.WaitSSHReady(tryTimes, hosts...)` -/
  | waitSSHReady (tryTimes : Nat) (hosts : List String)
  /-- `k.sendRegistryCert(hosts)` -/
  | sendRegistryCert (hosts : List String)
  /-- `k.GetJoinTokenHashAndKey()` -/
  | getJoinTokenHashAndKey
  /-- `k.getCgroupDriverFromShell(nodeIP)` -/
  | getCgroupDriverFromShell (nodeIP : String)
  /-- `k.getHostSSHClient(hostIP)` -/
  | getHostSSHClient (hostIP : String)
  /-- `ssh.CmdAsync(host, cmds...)` -/
  | cmdAsync (host : String) (cmds : List String)
  /-- `ssh.CmdToString(host, cmd, spilt)` -/
  | cmdToString (host : String) (cmd : String)
  /-- `ssh.Cmd(host, cmd)` -/
  | cmd (host : String) (cmd : String)
  /-- `k.isHostName(master, host)` -/
  | isHostName (master : String) (host : String)
  /-- `utils.GetLocalHostAddresses()` -/
  | getLocalHostAddresses
  deriving DecidableEq, Repr

/-- The journal of a runtime: each call with the error it returned. -/
abbrev RuntimeJournal := List (RuntimeCall × Option String)

/-- The error of an `Except` result, `none` on success. -/
def errorOf {α : Type} : Except String α → Option String
  | .error err => some err
  | .ok _ => none

/-- Run the value-returning call `f` and append `(c, returned error)` to the journal. -/
def recordedE {σ α : Type} (c : RuntimeCall) (f : σ → Except String α × σ) :
    σ × RuntimeJournal → Except String α × (σ × RuntimeJournal) :=
  fun w =>
    let r := f w.1
    (r.1, (r.2, w.2 ++ [(c, errorOf r.1)]))

/-- Run the configuration-rewriting call `f` and append `(c, returned error)` to
the journal. -/
def recordedK {κ σ : Type} (c : RuntimeCall) (f : Stage (KubeadmRuntime κ × σ) String) :
    Stage (KubeadmRuntime κ × (σ × RuntimeJournal)) String :=
  fun s =>
    let r := f (s.1, s.2.1)
    (r.1, (r.2.1, (r.2.2, s.2.2 ++ [(c, r.1)])))

/-- The environment `env` with every call that leaves the process journaled. -/
def RuntimeEnv.traced {κ σ : Type} (env : RuntimeEnv κ σ) :
    RuntimeEnv κ (σ × RuntimeJournal) :=
  { env with
    MergeKubeadmConfig := recordedK .mergeKubeadmConfig env.MergeKubeadmConfig
    WaitSSHReady := fun k tryTimes hosts =>
      recorded (.waitSSHReady tryTimes hosts) (env.WaitSSHReady k tryTimes hosts)
    sendRegistryCert := fun k hosts =>
      recorded (.sendRegistryCert hosts) (env.sendRegistryCert k hosts)
    GetJoinTokenHashAndKey := recordedK .getJoinTokenHashAndKey env.GetJoinTokenHashAndKey
    getCgroupDriverFromShell := fun k nodeIP =>
      recordedE (.getCgroupDriverFromShell nodeIP) (env.getCgroupDriverFromShell k nodeIP)
    getHostSSHClient := fun k hostIP =>
      recorded (.getHostSSHClient hostIP) (env.getHostSSHClient k hostIP)
    CmdAsync := fun host cmds => recorded (.cmdAsync host cmds) (env.CmdAsync host cmds)
    CmdToString := fun host cmd spilt =>
      recordedE (.cmdToString host cmd) (env.CmdToString host cmd spilt)
    Cmd := fun host cmd => recordedE (.cmd host cmd) (env.Cmd host cmd)
    isHostName := fun k master host =>
      recordedE (.isHostName master host) (env.isHostName k master host)
    GetLocalHostAddresses := recordedE .getLocalHostAddresses env.GetLocalHostAddresses }

/-- The command sequences handed to `ssh.CmdAsync`, with their host, in journal order. -/
def cmdAsyncCalls : RuntimeJournal → List (String × List String)
  | [] => []
  | (.cmdAsync host cmds, _) :: rest => (host, cmds) :: cmdAsyncCalls rest
  | _ :: rest => cmdAsyncCalls rest

/-- A sample environment over a counter state: every call succeeds, the route
check prints `routeResult`, the registry credentials are `user`/`password`. -/
def sampleRuntimeEnv (routeResult user password : String) : RuntimeEnv Unit Nat where
  MergeKubeadmConfig := fun s => (none, (s.1, s.2 + 1))
  WaitSSHReady := fun _ _ _ w => (none, w + 1)
  sendRegistryCert := fun _ _ w => (none, w + 1)
  GetJoinTokenHashAndKey := fun s => (none, (s.1, s.2 + 1))
  getCgroupDriverFromShell := fun _ _ w => (.ok "systemd", w + 1)
  MarshalYamlConfigs := fun k =>
    .ok ("endpoint: " ++ k.APIServerEndpoint ++ ", cgroupDriver: " ++ k.CgroupDriver)
  getHostSSHClient := fun _ _ w => (none, w + 1)
  CmdAsync := fun _ _ w => (none, w + 1)
  CmdToString := fun _ _ _ w => (.ok routeResult, w + 1)
  Cmd := fun _ _ w => (.ok "", w + 1)
  isHostName := fun _ _ host w => (.ok (" node-" ++ host ++ "\n"), w + 1)
  GetLocalHostAddresses := fun w => (.ok ["192.168.0.9"], w + 1)
  IsLocalIP := fun ip addresses => addresses.contains ip
  CommandJoinNode := fun _ version => "kubeadm join --config /etc/kubeadm.yml # " ++ version
  LvsStaticPodYaml := fun vip masters _ =>
    "lvscare " ++ vip ++ ":6443" ++ String.join (masters.map (fun m => " " ++ m ++ ":6443"))
  getRegistryHost := fun _ ip => ip ++ " sea.hub"
  GetRegistryConfig := fun _ _ =>
    { Domain := "sea.hub", Port := "5000", Username := user, Password := password }
  getAPIServerHost := fun ip domain => ip ++ " " ++ domain
  RemoteAddEtcHosts := fun a b => "grep -q '" ++ a ++ "' /etc/hosts || echo " ++ b ++ " >> /etc/hosts"
  DockerLoginCommand := fun registry username password =>
    "docker login " ++ registry ++ " -u " ++ username ++ " -p " ++ password
  RemoteCleanMasterOrNode := fun _ => "kubeadm reset -f"
  RemoteRemoveAPIServerEtcHost := fun host => "sed -i '/" ++ host ++ "/d' /etc/hosts"
  RemoveKubeConfig := "rm -rf $HOME/.kube"
  KubeDeleteNode := fun name => "kubectl delete node " ++ name
  TrimSpace := String.trim
  schedule := []

/-- A sample runtime with the given masters. -/
def sampleRuntime (masters : List String) : KubeadmRuntime Unit where
  MasterIPList := masters
  VIP := "10.103.97.2"
  APIServerDomain := "apiserver.cluster.local"
  Rootfs := "/var/lib/sealer/data/my-cluster/rootfs"
  ImageMountDir := "/var/lib/sealer/data/my-cluster/mount"
  KubeVersion := "v1.19.8"
  Vlog := 0
  APIServerEndpoint := ""
  CgroupDriver := ""
  JoinLocalAPIEndPoint := some "10.0.0.1"
  Other := ()

end Sealer

namespace Sealer

/-! ## Ad hoc command broadcast (pkg/exec/exec.go) -/

/-- The view of a loaded descriptor (`*v2.Cluster`) that `exec.go` reads.  Role
names are byte strings, since they come out of `strings.Split`. -/
structure ExecCluster where
  /-- `cluster.GetMasterIPList()` -/
  GetMasterIPList : List String
  /-- `cluster.GetNodeIPList()` -/
  GetNodeIPList : List String
  /-- `cluster.GetIPSByRole(role)` -/
  GetIPSByRole : GoString → List String

/-- `type Exec struct { cluster *v2.Cluster; ipList []string }`; `cluster` is
`none` for the nil pointer. -/
structure Exec where
  /-- `e.cluster` -/
  cluster : Option ExecCluster
  /-- `e.ipList` -/
  ipList : List String

/-- The zero value `Exec{}`. -/
def Exec.zero : Exec := { cluster := none, ipList := [] }

/-- What `exec.go` calls outside the file.  An error is its message. -/
structure ExecEnv (σ : Type) where
  /-- `clusterfile.GetDefaultClusterName()` -/
  GetDefaultClusterName : σ → Except String String × σ
  /-- `common.GetClusterWorkClusterfile(clusterName)` -/
  GetClusterWorkClusterfile : String → String
  /-- `clusterfile.GetClusterFromFile(clusterFile)` -/
  GetClusterFromFile : String → σ → Except String ExecCluster × σ
  /-- `ssh.NewStdoutSSHClient(ip, e.cluster)`; the client it returns is the one
  `CmdAsync ip` runs on -/
  NewStdoutSSHClient : String → Option ExecCluster → Stage σ String
  /-- `sshClient.CmdAsync(ip, cmd)` -/
  CmdAsync : String → String → Stage σ String
  /-- the Go scheduler: the order in which the goroutines of an `errgroup`
  move, see `observeGroup` -/
  schedule : List Nat

/-- The byte `','`. -/
def comma : Byte := 44

/-- The loop `for _, role := range roles { ipList = append(ipList, cluster.GetIPSByRole(role)...) }`,
started with the list `ipList`. -/
def appendIPSByRoles (cluster : ExecCluster) : List GoString → List String → List String
  | [], ipList => ipList
  | role :: roles, ipList => appendIPSByRoles cluster roles (ipList ++ cluster.GetIPSByRole role)

/-- `func NewExecCmd(clusterName string, roles string) (Exec, error)`: the pair
returned, and the state after the call. -/
def NewExecCmd {σ : Type} (env : ExecEnv σ) (clusterName : String) (roles : GoString) :
    σ → (Exec × Option String) × σ := fun w =>
  let named : Except String String × σ :=
    if clusterName = "" then env.GetDefaultClusterName w else (.ok clusterName, w)
  match named with
  | (.error err, w) => ((Exec.zero, some err), w)
  | (.ok clusterName, w) =>
    let clusterFile := env.GetClusterWorkClusterfile clusterName
    match env.GetClusterFromFile clusterFile w with
    | (.error err, w) => ((Exec.zero, some err), w)
    | (.ok cluster, w) =>
      if roles = [] then
        let ipList := cluster.GetMasterIPList ++ cluster.GetNodeIPList
        (({ cluster := some cluster, ipList := ipList }, none), w)
      else
        let roles := Split roles comma
        let ipList := appendIPSByRoles cluster roles []
        if ipList.length = 0 then
          ((Exec.zero, some "failed to get ipList, please check your roles label"), w)
        else
          (({ cluster := some cluster, ipList := ipList }, none), w)

/-- The task `eg.Go(func() error { ... })` that `RunCmd` starts for `ip`. -/
def Exec.runCmdTask {σ : Type} (env : ExecEnv σ) (e : Exec) (cmd : String) (ip : String) :
    Stage σ String := fun w =>
  match env.NewStdoutSSHClient ip e.cluster w with
  | (some sshErr, w) => (some sshErr, w)
  | (none, w) =>
    match env.CmdAsync ip cmd w with
    | (some err, w) => (some err, w)
    | (none, w) => (none, w)

/-- The goroutine `eg.Go(func() error { ... })` that `RunCmd` starts for `ip`,
statement by statement: the two calls are two atomic steps. -/
def Exec.runCmdTaskSteps {σ : Type} (env : ExecEnv σ) (e : Exec) (cmd : String) (ip : String) :
    Routine σ (Option String) := do
  match ← Routine.atomic (env.NewStdoutSSHClient ip e.cluster) with
  | some sshErr => return some sshErr
  | none =>
    match ← Routine.atomic (env.CmdAsync ip cmd) with
    | some err => return some err
    | none => return none

/-- `func (e *Exec) RunCmd(cmd string) error` -/
def Exec.RunCmd {σ : Type} (env : ExecEnv σ) (e : Exec) (cmd : String) : Stage σ String :=
  fun w =>
    match runGroup env.schedule (e.ipList.map (Exec.runCmdTaskSteps env e cmd)) w with
    | (some err, w) => (some ("failed to sealer exec command, err: " ++ err), w)
    | (none, w) => (none, w)

/-- The environment `env` with the two SSH calls recorded in a journal. -/
def ExecEnv.traced {σ : Type} (env : ExecEnv σ) :
    ExecEnv (σ × List (ShellCall × Option String)) :=
  { GetDefaultClusterName := fun w =>
      ((env.GetDefaultClusterName w.1).1, ((env.GetDefaultClusterName w.1).2, w.2))
    GetClusterWorkClusterfile := env.GetClusterWorkClusterfile
    GetClusterFromFile := fun clusterFile w =>
      ((env.GetClusterFromFile clusterFile w.1).1,
        ((env.GetClusterFromFile clusterFile w.1).2, w.2))
    NewStdoutSSHClient := fun ip cluster =>
      recorded (.newClient ip) (env.NewStdoutSSHClient ip cluster)
    CmdAsync := fun ip cmd => recorded (.cmdAsync ip cmd) (env.CmdAsync ip cmd)
    schedule := env.schedule }

/-- A sample descriptor: one master, two nodes, and a third group with the
role `db`. -/
def sampleExecCluster : ExecCluster where
  GetMasterIPList := ["10.0.0.1"]
  GetNodeIPList := ["10.0.0.2", "10.0.0.3"]
  GetIPSByRole := fun role =>
    if role = ascii "master" then ["10.0.0.1"]
    else if role = ascii "node" then ["10.0.0.2", "10.0.0.3"]
    else if role = ascii "db" then ["10.0.0.9"]
    else []

/-- A sample environment over a counter state: the default cluster is
`my-cluster`, every cluster file loads `sampleExecCluster`, SSH always works. -/
def sampleExecEnv : ExecEnv Nat where
  GetDefaultClusterName := fun w => (.ok "my-cluster", w + 1)
  GetClusterWorkClusterfile := fun name => "/root/.sealer/" ++ name ++ "/Clusterfile"
  GetClusterFromFile := fun _ w => (.ok sampleExecCluster, w + 1)
  NewStdoutSSHClient := fun _ _ w => (none, w + 1)
  CmdAsync := fun _ _ w => (none, w + 1)
  schedule := []

/-! ## Observation of node join and delete -/

/-- The runtime `k2` is `k` up to the two fields that the join goroutines
write, API-server endpoint and cgroup driver. -/
def KubeadmRuntime.SameButJoinFields {κ : Type} (k k2 : KubeadmRuntime κ) : Prop :=
  ∃ endpoint cGroupDriver,
    k2 = { k with APIServerEndpoint := endpoint, CgroupDriver := cGroupDriver }

/-- The list `cmds` is the seven join commands of `joinCommands`, built from `k`
up to API-server endpoint and cgroup driver, for some rendered join
configuration. -/
def KubeadmRuntime.IsJoinCommands {κ σ : Type} (env : RuntimeEnv κ σ) (k : KubeadmRuntime κ)
    (addRegistryHostsAndLogin ipvsCmd : String) (cmds : List String) : Prop :=
  ∃ joinConfig endpoint cGroupDriver,
    cmds = KubeadmRuntime.joinCommands env
      { k with APIServerEndpoint := endpoint, CgroupDriver := cGroupDriver }
      addRegistryHostsAndLogin joinConfig ipvsCmd

/-- What the join goroutines of `nodes` do to the shared state, whatever their
interleaving: the runtime changes in API-server endpoint and cgroup driver
only, the journal only grows, and every command sequence added to it goes to
a target node and consists of the seven join commands. -/
def KubeadmRuntime.JoinRely {κ σ : Type} (env : RuntimeEnv κ σ) (nodes : List String)
    (addRegistryHostsAndLogin ipvsCmd : String)
    (s s2 : KubeadmRuntime κ × (σ × RuntimeJournal)) : Prop :=
  KubeadmRuntime.SameButJoinFields s.1 s2.1 ∧
  ∃ tr : RuntimeJournal, s2.2.2 = s.2.2 ++ tr ∧
    ∀ host cmds r, (RuntimeCall.cmdAsync host cmds, r) ∈ tr →
      host ∈ nodes ∧ KubeadmRuntime.IsJoinCommands env s.1 addRegistryHostsAndLogin ipvsCmd cmds

/-- The join goroutine of `node` has run to its end with result `r`, as the
journal `j` shows: it asked for the SSH client of the node, and then either
it handed the seven join commands to `CmdAsync` on the node and `r` is what
that call returned (wrapped when it is an error), or one of its own earlier
calls failed (route check, cgroup-driver probe, rendering, SSH client) and
`r` is that error, wrapped. -/
def KubeadmRuntime.JoinTaskOutcome {κ σ : Type} (env : RuntimeEnv κ σ) (k : KubeadmRuntime κ)
    (addRegistryHostsAndLogin ipvsCmd node : String) (r : Option String)
    (j : RuntimeJournal) : Prop :=
  (∃ r0, (RuntimeCall.getHostSSHClient node, r0) ∈ j) ∧
  ((∃ cmds res, (RuntimeCall.cmdAsync node cmds, res) ∈ j ∧
      KubeadmRuntime.IsJoinCommands env k addRegistryHostsAndLogin ipvsCmd cmds ∧
      r = res.map (fun err => "failed to join node " ++ node ++ " " ++ err)) ∨
    (∃ e, ((RuntimeCall.getHostSSHClient node, some e) ∈ j ∨
        (RuntimeCall.cmdToString node (RemoteCheckRoute node), some e) ∈ j ∨
        (RuntimeCall.cmd node (RemoteAddRoute k.VIP node), some e) ∈ j) ∧
      r = some ("failed to check multi network: " ++ e)) ∨
    (∃ e, ((RuntimeCall.getCgroupDriverFromShell node, some e) ∈ j ∨
        (∃ k2, env.MarshalYamlConfigs k2 = .error e) ∨
        (RuntimeCall.getHostSSHClient node, some e) ∈ j) ∧
      r = some ("failed to join node " ++ node ++ " " ++ e)))

/-- The commands handed to `ssh.CmdToString`, with their host, in journal order. -/
def cmdToStringCalls : RuntimeJournal → List (String × String)
  | [] => []
  | (.cmdToString host cmd, _) :: rest => (host, cmd) :: cmdToStringCalls rest
  | _ :: rest => cmdToStringCalls rest

/-- The commands handed to `ssh.Cmd`, with their host, in journal order. -/
def cmdCalls : RuntimeJournal → List (String × String)
  | [] => []
  | (.cmd host cmd, _) :: rest => (host, cmd) :: cmdCalls rest
  | _ :: rest => cmdCalls rest

/-- The sample environment with faults: SSH client creation fails for the hosts
in `noSSH`, `CmdAsync` fails on the hosts in `cmdAsyncFails`, `Cmd` fails on
the hosts in `cmdFails`; the route check prints `routeResult`.  Host names come
back without surrounding blanks, so `TrimSpace` has nothing to trim. -/
def faultyRuntimeEnv (routeResult : String) (noSSH cmdAsyncFails cmdFails : List String) :
    RuntimeEnv Unit Nat :=
  { sampleRuntimeEnv routeResult "" "" with
    getHostSSHClient := fun _ host w =>
      (if noSSH.contains host then some ("dial " ++ host) else none, w + 1)
    CmdAsync := fun host _ w =>
      (if cmdAsyncFails.contains host then some ("exit 1 on " ++ host) else none, w + 1)
    Cmd := fun host _ w =>
      (if cmdFails.contains host then .error ("exit 2 on " ++ host) else .ok "", w + 1)
    isHostName := fun _ _ host w => (.ok ("node-" ++ host), w + 1)
    TrimSpace := fun name => name }

/-- The environment `env` under the schedule `sched` of the goroutines. -/
def RuntimeEnv.scheduled {κ σ : Type} (env : RuntimeEnv κ σ) (sched : List Nat) :
    RuntimeEnv κ σ :=
  { env with schedule := sched }

/-- The sample environment in which the cgroup-driver probe reports `cgroupfs`
on `10.0.0.3` and `systemd` on every other host, under the schedule `sched`. -/
def mixedDriverEnv (sched : List Nat) : RuntimeEnv Unit Nat :=
  { sampleRuntimeEnv "OK" "" "" with
    getCgroupDriverFromShell := fun _ nodeIP w =>
      (.ok (if nodeIP = "10.0.0.3" then "cgroupfs" else "systemd"), w + 1)
    schedule := sched }

/-- The value of the variable `remoteCleanCmds` of `deleteNode` at the moment it
is handed to `ssh.CmdAsync`, for the result `address` of
`utils.GetLocalHostAddresses()`. -/
def KubeadmRuntime.remoteCleanCmds {κ σ : Type} (env : RuntimeEnv κ σ) (k : KubeadmRuntime κ)
    (node : String) (address : Except String (List String)) : List String :=
  let remoteCleanCmds :=
    [env.RemoteCleanMasterOrNode k.Vlog,
      env.RemoteRemoveAPIServerEtcHost (env.getRegistryHost k.getRootfs k.GetMaster0IP),
      env.RemoteRemoveAPIServerEtcHost k.getAPIServerDomain]
  match address with
  | .error _ => remoteCleanCmds ++ [env.RemoveKubeConfig]
  | .ok address =>
    if !env.IsLocalIP node address then remoteCleanCmds ++ [env.RemoveKubeConfig]
    else
      let apiServerHost := env.getAPIServerHost k.GetMaster0IP k.getAPIServerDomain
      remoteCleanCmds ++ [env.RemoteAddEtcHosts apiServerHost apiServerHost]

/-- The calls of a delete task that runs to its end while a master remains, in
call order; `cmds` is the cleanup sequence and `hostname` what `isHostName`
returned. -/
def deleteTaskCalls {κ σ : Type} (env : RuntimeEnv κ σ) (k : KubeadmRuntime κ) (node : String)
    (cmds : List String) (hostname : String) : List RuntimeCall :=
  [.getHostSSHClient node,
   .getLocalHostAddresses,
   .cmdAsync node cmds,
   .isHostName k.GetMaster0IP node,
   .getHostSSHClient k.GetMaster0IP,
   .cmdAsync k.GetMaster0IP [env.KubeDeleteNode (env.TrimSpace hostname)],
   .getHostSSHClient node,
   .cmd node (RemoteDelRoute k.getVIP node)]

end Sealer

/-! # Theorems

Everything above this line is the embedding (definitions only); everything
below is proved about it. -/

namespace Sealer

/-! ## The pipeline loop -/

section Pipeline

variable {σ ε : Type}

/-- Journal of a pipeline run whose stages are numbered from `k`, appended to an
initial journal `tr0`; the instrumented run returns what the plain run returns. -/
theorem runPipeLine_instrumentFrom (fs : List (Stage σ ε)) :
    ∀ (k : Nat) (w : σ) (tr0 : List (StageRecord ε)),
      ∃ tr : List (StageRecord ε),
        runPipeLine (instrumentFrom k fs) (w, tr0)
            = ((runPipeLine fs w).1, ((runPipeLine fs w).2, tr0 ++ tr)) ∧
        tr.map Prod.fst = List.range' k tr.length ∧
        tr.length ≤ fs.length ∧
        (∀ j e, (j, some e) ∈ tr → (runPipeLine fs w).1 = some e ∧ k + tr.length = j + 1) ∧
        ((∀ j e, (j, some e) ∉ tr) → tr.length = fs.length ∧ (runPipeLine fs w).1 = none) := by
  induction fs with
  | nil =>
    intro k w tr0
    exact ⟨[], by simp [instrumentFrom, runPipeLine]⟩
  | cons f fs ih =>
    intro k w tr0
    rcases hf : f w with ⟨r, w'⟩
    cases r with
    | some err =>
      refine ⟨[(k, some err)], ?_, by simp [List.range'], by simp, ?_, ?_⟩
      · simp [instrumentFrom, runPipeLine, instrument, hf]
      · intro j e hmem
        simp only [List.mem_singleton, Prod.mk.injEq, Option.some.injEq] at hmem
        obtain ⟨rfl, rfl⟩ := hmem
        simp [runPipeLine, hf]
      · intro hno
        exact absurd (List.mem_singleton.mpr rfl) (hno k err)
    | none =>
      obtain ⟨tr, hrun, hidx, hlen, hfail, hok⟩ := ih (k + 1) w' (tr0 ++ [(k, none)])
      refine ⟨(k, none) :: tr, ?_, ?_, ?_, ?_, ?_⟩
      · simp [instrumentFrom, runPipeLine, instrument, hf, hrun]
      · simp [List.range', hidx]
      · simpa using hlen
      · intro j e hmem
        simp only [List.mem_cons, Prod.mk.injEq, reduceCtorEq, and_false, false_or] at hmem
        obtain ⟨h1, h2⟩ := hfail j e hmem
        refine ⟨by simpa [runPipeLine, hf] using h1, ?_⟩
        simp only [List.length_cons]
        omega
      · intro hno
        have hno' : ∀ j e, (j, some e) ∉ tr := fun j e hmem =>
          hno j e (List.mem_cons_of_mem _ hmem)
        obtain ⟨h1, h2⟩ := hok hno'
        exact ⟨by simp [h1], by simpa [runPipeLine, hf] using h2⟩

/-- Every pipeline is fail-fast: the instrumented run returns the same error and
state as the plain run, and its journal satisfies `FailFast`. -/
theorem observe_failFast (fs : List (Stage σ ε)) (w : σ) :
    (observe fs w).1 = (runPipeLine fs w).1 ∧
    (observe fs w).2.1 = (runPipeLine fs w).2 ∧
    FailFast fs.length (runPipeLine fs w).1 (observe fs w).2.2 := by
  obtain ⟨tr, hrun, hidx, hlen, hfail, hok⟩ := runPipeLine_instrumentFrom fs 0 w []
  simp only [List.nil_append] at hrun
  simp only [observe, hrun, true_and]
  refine ⟨by simpa [List.range_eq_range'] using hidx, hlen, ?_, hok⟩
  intro j e hmem
  obtain ⟨h1, h2⟩ := hfail j e hmem
  exact ⟨h1, by omega⟩

end Pipeline

end Sealer
namespace Sealer

section Execute

variable {σ ε R F : Type}

/-- When the step before the loop fails (`initPlugin`), `InstallProcessor.Execute`
returns its error and runs no stage. -/
theorem InstallProcessor.Execute_of_initPlugin_error (i : InstallProcessor σ ε) (w w1 : σ)
    (err : ε) (h : i.initPlugin w = (some err, w1)) : i.Execute w = (some err, w1) := by
  simp [InstallProcessor.Execute, h]

/-- Once `initPlugin` has succeeded, `InstallProcessor.Execute` is the loop over
the five stages of `GetPipeLine`. -/
theorem InstallProcessor.Execute_eq_loop (i : InstallProcessor σ ε) (w w1 : σ)
    (h : i.initPlugin w = (none, w1)) : i.Execute w = runPipeLine i.GetPipeLine.1 w1 := by
  simp [InstallProcessor.Execute, h, InstallProcessor.GetPipeLine]

/-- Once the descriptor has been persisted, `GenerateProcessor.Execute` is the
loop over the stages of `GetPipeLine`. -/
theorem GenerateProcessor.Execute_eq_stage_loop (g : GenerateProcessor σ ε R F) (w w1 : σ)
    (h : g.MarshalYamlToFile w = (none, w1)) : g.Execute w = runPipeLine g.GetPipeLine.1 w1 := by
  simp [GenerateProcessor.Execute, h, GenerateProcessor.GetPipeLine]

/-- C1. For the pipeline run by `InstallProcessor.Execute` and the one run by
`GenerateProcessor.Execute` (that is, once the step preceding the loop has
succeeded and left state `wi`, resp. `wg`): `Execute` returns the error and
the state of the run observed with instrumented stages, and the journal of
that run is fail-fast: the invoked stages are `0..m-1` in list order, each
once; a stage returning a non-nil error is the last one invoked and `Execute`
returns exactly its error; if no stage fails all stages are invoked and
`Execute` returns nil. -/
theorem C1_execute_fail_fast (i : InstallProcessor σ ε) (g : GenerateProcessor σ ε R F)
    (w wi w' wg : σ)
    (hi : i.initPlugin w = (none, wi)) (hg : g.MarshalYamlToFile w' = (none, wg)) :
    (i.Execute w = ((observe i.GetPipeLine.1 wi).1, (observe i.GetPipeLine.1 wi).2.1) ∧
      FailFast i.GetPipeLine.1.length (i.Execute w).1 (observe i.GetPipeLine.1 wi).2.2) ∧
    (g.Execute w' = ((observe g.GetPipeLine.1 wg).1, (observe g.GetPipeLine.1 wg).2.1) ∧
      FailFast g.GetPipeLine.1.length (g.Execute w').1 (observe g.GetPipeLine.1 wg).2.2) := by
  have h1 := observe_failFast i.GetPipeLine.1 wi
  have h2 := observe_failFast g.GetPipeLine.1 wg
  rw [InstallProcessor.Execute_eq_loop i w wi hi,
    GenerateProcessor.Execute_eq_stage_loop g w' wg hg]
  exact ⟨⟨by rw [h1.1, h1.2.1], h1.2.2⟩, ⟨by rw [h2.1, h2.2.1], h2.2.2⟩⟩

/-- C1 at a concrete input: an install run whose installer stage (index 3)
fails with `"boom"` and a generate run whose image pull (stage index 1) fails
with `"no image"`. -/
theorem C1_execute_fail_fast_witness :
    (((sampleInstall (some "boom")).Execute 0 = (some "boom", 6) ∧
      (observe (sampleInstall (some "boom")).GetPipeLine.1 1).2.2
        = [(0, none), (1, none), (2, none), (3, some "boom")]) ∧
     ((sampleGenerate (some "no image")).Execute 0 = (some "no image", 4) ∧
      (observe (sampleGenerate (some "no image")).GetPipeLine.1 1).2.2
        = [(0, none), (1, some "no image")])) ∧
    ((sampleInstall (some "boom")).Execute 0
        = ((observe (sampleInstall (some "boom")).GetPipeLine.1 1).1,
           (observe (sampleInstall (some "boom")).GetPipeLine.1 1).2.1) ∧
      FailFast (sampleInstall (some "boom")).GetPipeLine.1.length
        ((sampleInstall (some "boom")).Execute 0).1
        (observe (sampleInstall (some "boom")).GetPipeLine.1 1).2.2) ∧
    ((sampleGenerate (some "no image")).Execute 0
        = ((observe (sampleGenerate (some "no image")).GetPipeLine.1 1).1,
           (observe (sampleGenerate (some "no image")).GetPipeLine.1 1).2.1) ∧
      FailFast (sampleGenerate (some "no image")).GetPipeLine.1.length
        ((sampleGenerate (some "no image")).Execute 0).1
        (observe (sampleGenerate (some "no image")).GetPipeLine.1 1).2.2) :=
  ⟨⟨⟨by decide, by decide⟩, ⟨by decide, by decide⟩⟩,
    C1_execute_fail_fast (sampleInstall (some "boom")) (sampleGenerate (some "no image"))
      0 1 0 1 rfl rfl⟩

end Execute

end Sealer

namespace Sealer

section Install

variable {σ ε : Type}

/-- C2. `InstallProcessor.GetPipeLine` returns a nil error and exactly five
stages, in this order: `RunConfig`, `MountRootfs`, the PreGuest plugin stage,
`Install`, the PostInstall plugin stage.  Observed through the call journal:
`RunConfig` only dumps the configs, `MountRootfs` only mounts the root file
system onto the master IPs followed by the node IPs (with `initFlag = false`),
`Install` only applies the guest installer, the PostInstall stage only runs the
PostInstall plugins, and the PreGuest stage ends, when the plugin load
succeeds, by running the PreGuest plugins. -/
theorem C2_install_pipeline_shape (i : InstallProcessor σ ε) (w : σ) :
    i.GetPipeLine.2 = none ∧
    i.GetPipeLine.1.length = 5 ∧
    i.GetPipeLine.1 =
      [i.RunConfig, i.MountRootfs, i.GetPhasePluginFunc PhasePreGuest, i.Install,
        i.GetPhasePluginFunc PhasePostInstall] ∧
    (i.traced.RunConfig (w, [])).2.2 = [InstallCall.configDump] ∧
    (i.traced.MountRootfs (w, [])).2.2
      = [InstallCall.mountRootfs (i.GetMasterIPList w ++ i.GetNodeIPList w) false] ∧
    ((i.Plugins_Load w).1 = none →
      (i.traced.GetPhasePluginFunc PhasePreGuest (w, [])).2.2
        = [InstallCall.pluginsLoad, InstallCall.pluginsRun PhasePreGuest]) ∧
    (i.traced.Install (w, [])).2.2 = [InstallCall.guestApply] ∧
    (i.traced.GetPhasePluginFunc PhasePostInstall (w, [])).2.2
      = [InstallCall.pluginsRun PhasePostInstall] := by
  refine ⟨rfl, rfl, rfl, rfl, rfl, ?_, rfl, ?_⟩
  · intro hload
    rcases hl : i.Plugins_Load w with ⟨r, w1⟩
    rw [hl] at hload
    simp only at hload
    subst hload
    simp [InstallProcessor.GetPhasePluginFunc, InstallProcessor.traced, journaled, hl]
  · have hne : PhasePostInstall ≠ PhasePreGuest := by decide
    simp [InstallProcessor.GetPhasePluginFunc, InstallProcessor.traced, journaled, hne]

/-- C2 on the sample processor: the five stages, run in order after
`initPlugin`, make exactly these collaborator calls. -/
theorem C2_install_pipeline_shape_witness :
    ((sampleInstall none).traced.Execute (0, [])).2.2 =
      [InstallCall.pluginsDump, InstallCall.configDump,
        InstallCall.mountRootfs ["10.0.0.1", "10.0.0.2", "10.0.0.3"] false,
        InstallCall.pluginsLoad, InstallCall.pluginsRun PhasePreGuest,
        InstallCall.guestApply, InstallCall.pluginsRun PhasePostInstall] ∧
    (sampleInstall none).GetPipeLine.1.length = 5 :=
  ⟨by decide, (C2_install_pipeline_shape (sampleInstall none) 0).2.1⟩

end Install

end Sealer

namespace Sealer

section Shell

variable {σ : Type}

theorem contacted_append (l1 l2 : List (ShellCall × Option String)) :
    contacted (l1 ++ l2) = contacted l1 ++ contacted l2 := by
  induction l1 with
  | nil => rfl
  | cons a l ih =>
    rcases a with ⟨c, r⟩
    cases c <;> simp [contacted, ih]

theorem commanded_append (l1 l2 : List (ShellCall × Option String)) :
    commanded (l1 ++ l2) = commanded l1 ++ commanded l2 := by
  induction l1 with
  | nil => rfl
  | cons a l ih =>
    rcases a with ⟨c, r⟩
    cases c <;> simp [commanded, ih]

theorem contacted_flatMap_hostOk (wrap : String → String) (hosts : List String) :
    contacted (hosts.flatMap (hostOk wrap)) = hosts := by
  induction hosts with
  | nil => rfl
  | cons ip ips ih => rw [List.flatMap_cons, contacted_append, ih]; rfl

theorem commanded_flatMap_hostOk (wrap : String → String) (hosts : List String) :
    commanded (hosts.flatMap (hostOk wrap)) = hosts := by
  induction hosts with
  | nil => rfl
  | cons ip ips ih => rw [List.flatMap_cons, commanded_append, ih]; rfl

theorem flatMap_hostOk_all_ok (wrap : String → String) (hosts : List String) :
    ∀ rec ∈ hosts.flatMap (hostOk wrap), rec.2 = none := by
  intro rec hrec
  simp only [List.mem_flatMap, hostOk, List.mem_cons, List.mem_singleton] at hrec
  obtain ⟨ip, -, h | h | h⟩ := hrec
  · rw [h]
  · rw [h]
  · exact absurd h (List.not_mem_nil _)

/-- The host loop of `Sheller.Run`, journaled: it returns what the plain loop
returns, and the records it appends have the shape `RanOnLeadingHosts`. -/
theorem Sheller.runOnHosts_traced (env : ShellEnv σ) (context : Context) (cmd : String)
    (hosts : List String) :
    ∀ (w : σ) (tr0 : List (ShellCall × Option String)),
      ∃ tr, Sheller.runOnHosts env.traced context cmd hosts (w, tr0)
          = ((Sheller.runOnHosts env context cmd hosts w).1,
             ((Sheller.runOnHosts env context cmd hosts w).2, tr0 ++ tr)) ∧
        RanOnLeadingHosts (fun ip => env.WrapperShell context.Cluster ip cmd) hosts
          (Sheller.runOnHosts env context cmd hosts w).1 tr := by
  induction hosts with
  | nil =>
    intro w tr0
    exact ⟨[], by simp [Sheller.runOnHosts], 0, [], by simp [Sheller.runOnHosts]⟩
  | cons ip ips ih =>
    intro w tr0
    rcases h1 : env.NewStdoutSSHClient ip w with ⟨r1, w1⟩
    cases r1 with
    | some e =>
      refine ⟨[(.newClient ip, some e)], ?_, 0, [(.newClient ip, some e)], ?_⟩
      · simp [Sheller.runOnHosts, ShellEnv.traced, recorded, h1]
      · simp [Sheller.runOnHosts, h1]
    | none =>
      rcases h2 : env.CmdAsync ip (env.WrapperShell context.Cluster ip cmd) w1 with ⟨r2, w2⟩
      cases r2 with
      | some e =>
        refine ⟨[(.newClient ip, none),
          (.cmdAsync ip (env.WrapperShell context.Cluster ip cmd), some e)], ?_, 0,
          [(.newClient ip, none),
            (.cmdAsync ip (env.WrapperShell context.Cluster ip cmd), some e)], ?_⟩
        · simp [Sheller.runOnHosts, ShellEnv.traced, recorded, h1, h2]
        · simp [Sheller.runOnHosts, h1, h2]
      | none =>
        obtain ⟨tr, hrun, k, tail, hk, hshape, hcases⟩ :=
          ih w2 (tr0 ++ hostOk (fun ip => env.WrapperShell context.Cluster ip cmd) ip)
        refine ⟨hostOk (fun ip => env.WrapperShell context.Cluster ip cmd) ip ++ tr, ?_,
          k + 1, tail, by simpa using hk, ?_, ?_⟩
        · have hrun' := hrun
          simp only [hostOk, List.append_assoc] at hrun'
          simp [Sheller.runOnHosts, ShellEnv.traced, recorded, h1, h2, hostOk]
          simpa [ShellEnv.traced, recorded, hostOk] using hrun'
        · simp [hshape, List.append_assoc]
        · simpa [Sheller.runOnHosts, h1, h2] using hcases

/-- What the shape `RanOnLeadingHosts` says about the hosts reached and the result. -/
theorem RanOnLeadingHosts.facts {wrap : String → String} {hosts : List String} {r : Option String}
    {tr : List (ShellCall × Option String)} (h : RanOnLeadingHosts wrap hosts r tr) :
    contacted tr <+: hosts ∧ commanded tr <+: contacted tr ∧
    (r = none ↔ ∀ rec ∈ tr, rec.2 = none) ∧
    (r = none → contacted tr = hosts ∧ commanded tr = hosts) := by
  obtain ⟨k, tail, hk, rfl, hcases⟩ := h
  rcases hcases with ⟨rfl, rfl, rfl⟩ | ⟨ip, e, hip, rfl, rfl⟩ | ⟨ip, e, hip, rfl, rfl⟩
  · simp only [List.take_length, List.append_nil, contacted_flatMap_hostOk,
      commanded_flatMap_hostOk, true_iff, true_implies, and_self, and_true]
    exact ⟨List.prefix_refl _, List.prefix_refl _, flatMap_hostOk_all_ok wrap hosts⟩
  · have htake : hosts.take (k + 1) = hosts.take k ++ [ip] := by
      rw [List.take_succ, hip]; rfl
    refine ⟨?_, ?_, ?_, by simp⟩
    · simp only [contacted_append, contacted_flatMap_hostOk, contacted]
      rw [← htake]; exact List.take_prefix _ _
    · simp only [contacted_append, commanded_append, contacted_flatMap_hostOk,
        commanded_flatMap_hostOk, contacted, commanded, List.append_nil]
      exact List.prefix_append _ _
    · simp only [reduceCtorEq, false_iff, not_forall]
      exact ⟨(.newClient ip, some e), by simp, by simp⟩
  · have htake : hosts.take (k + 1) = hosts.take k ++ [ip] := by
      rw [List.take_succ, hip]; rfl
    refine ⟨?_, ?_, ?_, by simp⟩
    · simp only [contacted_append, contacted_flatMap_hostOk, contacted]
      rw [← htake]; exact List.take_prefix _ _
    · simp only [contacted_append, commanded_append, contacted_flatMap_hostOk,
        commanded_flatMap_hostOk, contacted, commanded]
      exact List.prefix_refl _
    · simp only [reduceCtorEq, false_iff, not_forall]
      exact ⟨(.cmdAsync ip (wrap ip), some e), by simp, by simp⟩

/-- C3. If the plugin's declared action differs from the phase, or its type is
not the shell plugin type, `Sheller.Run` returns nil and makes no remote call:
the state is untouched and the journal of SSH client creations, commands and
selector resolutions is left as it was. -/
theorem C3_mismatch_no_remote_call (env : ShellEnv σ) (context : Context) (phase : Phase)
    (w : σ) (tr : List (ShellCall × Option String))
    (h : phase ≠ context.Plugin.Action ∨ context.Plugin.SpecType ≠ ShellPlugin) :
    Sheller.Run env.traced context phase (w, tr) = (none, (w, tr)) ∧
    Sheller.Run env context phase w = (none, w) := by
  simp [Sheller.Run, h]

/-- C3 at concrete inputs: a shell plugin declared for `PostInstall` dispatched
at `PreGuest`, and a non-shell plugin dispatched at its own phase. -/
theorem C3_mismatch_no_remote_call_witness :
    Sheller.Run (sampleShellEnv [] []).traced (sampleContext "SHELL" "PostInstall" "")
        PhasePreGuest (0, []) = (none, (0, [])) ∧
    Sheller.Run (sampleShellEnv [] []).traced (sampleContext "ETCD" "PreGuest" "")
        PhasePreGuest (0, []) = (none, (0, [])) :=
  ⟨(C3_mismatch_no_remote_call (sampleShellEnv [] []) (sampleContext "SHELL" "PostInstall" "")
      PhasePreGuest 0 [] (Or.inl (by decide))).1,
   (C3_mismatch_no_remote_call (sampleShellEnv [] []) (sampleContext "ETCD" "PreGuest" "")
      PhasePreGuest 0 [] (Or.inr (by decide))).1⟩

end Shell

end Sealer

namespace Sealer

section ShellHosts

variable {σ : Type}

/-- C4. For a matching shell plugin (action equals the phase, type is the shell
type) without an "on" selector, with `hosts` the master IPs followed by the
node IPs: the journaled run returns what the plain run returns, and its
journal has the shape `RanOnLeadingHosts`: success on the first `k` hosts in list
order, then either the end of the list (nil is returned) or the first failing
host, whose SSH client creation or command failed, and nothing after it.
Hence the hosts contacted form a prefix of `hosts`, the hosts a command was
started on are the contacted ones up to the failing one, `Run` returns nil
iff no call failed, and then every host was contacted and commanded. -/
theorem C4_no_selector_host_order (env : ShellEnv σ) (context : Context) (phase : Phase)
    (w : σ) (hact : phase = context.Plugin.Action)
    (htype : context.Plugin.SpecType = ShellPlugin) (hon : context.Plugin.On = "") :
    (Sheller.Run env.traced context phase (w, [])).1 = (Sheller.Run env context phase w).1 ∧
    (Sheller.Run env.traced context phase (w, [])).2.1 = (Sheller.Run env context phase w).2 ∧
    RanOnLeadingHosts (fun ip => env.WrapperShell context.Cluster ip (Sheller.pluginCmd env context phase))
      (context.Cluster.GetMasterIPList ++ context.Cluster.GetNodeIPList)
      (Sheller.Run env context phase w).1
      (Sheller.Run env.traced context phase (w, [])).2.2 ∧
    contacted (Sheller.Run env.traced context phase (w, [])).2.2
      <+: context.Cluster.GetMasterIPList ++ context.Cluster.GetNodeIPList ∧
    commanded (Sheller.Run env.traced context phase (w, [])).2.2
      <+: contacted (Sheller.Run env.traced context phase (w, [])).2.2 ∧
    ((Sheller.Run env context phase w).1 = none ↔
      ∀ rec ∈ (Sheller.Run env.traced context phase (w, [])).2.2, rec.2 = none) ∧
    ((Sheller.Run env context phase w).1 = none →
      contacted (Sheller.Run env.traced context phase (w, [])).2.2
        = context.Cluster.GetMasterIPList ++ context.Cluster.GetNodeIPList ∧
      commanded (Sheller.Run env.traced context phase (w, [])).2.2
        = context.Cluster.GetMasterIPList ++ context.Cluster.GetNodeIPList) := by
  obtain ⟨tr, hrun, hshape⟩ := Sheller.runOnHosts_traced env context
    (Sheller.pluginCmd env context phase)
    (context.Cluster.GetMasterIPList ++ context.Cluster.GetNodeIPList) w []
  have hplain : Sheller.Run env context phase w
      = Sheller.runOnHosts env context (Sheller.pluginCmd env context phase)
          (context.Cluster.GetMasterIPList ++ context.Cluster.GetNodeIPList) w := by
    simp [Sheller.Run, hact, htype, hon]
  have htraced : Sheller.Run env.traced context phase (w, [])
      = Sheller.runOnHosts env.traced context (Sheller.pluginCmd env context phase)
          (context.Cluster.GetMasterIPList ++ context.Cluster.GetNodeIPList) (w, []) := by
    simp [Sheller.Run, hact, htype, hon, Sheller.pluginCmd, ShellEnv.traced]
  rw [htraced, hplain, hrun]
  simp only [List.nil_append]
  obtain ⟨f1, f2, f3, f4⟩ := hshape.facts
  exact ⟨trivial, trivial, hshape, f1, f2, f3, f4⟩

/-- C4 at a concrete input: hosts `10.0.0.1, 10.0.0.2, 10.0.0.3`, the command
fails on `10.0.0.2`.  The plugin runs on `.1`, fails on `.2`, never reaches `.3`. -/
theorem C4_no_selector_host_order_witness :
    Sheller.Run (sampleShellEnv [] ["10.0.0.2"]).traced (sampleContext "SHELL" "PreGuest" "")
        PhasePreGuest (0, [])
      = (some "failed to run shell cmd,  exit 1 on 10.0.0.2",
         (4, [(ShellCall.newClient "10.0.0.1", none),
              (ShellCall.cmdAsync "10.0.0.1"
                "cd /var/lib/sealer/data/my-cluster/rootfs && echo hi", none),
              (ShellCall.newClient "10.0.0.2", none),
              (ShellCall.cmdAsync "10.0.0.2"
                "cd /var/lib/sealer/data/my-cluster/rootfs && echo hi",
                some "exit 1 on 10.0.0.2")])) ∧
    contacted (Sheller.Run (sampleShellEnv [] ["10.0.0.2"]).traced
        (sampleContext "SHELL" "PreGuest" "") PhasePreGuest (0, [])).2.2
      <+: ["10.0.0.1", "10.0.0.2", "10.0.0.3"] :=
  ⟨by decide,
   (C4_no_selector_host_order (sampleShellEnv [] ["10.0.0.2"])
      (sampleContext "SHELL" "PreGuest" "") PhasePreGuest 0 (by decide) (by decide)
      (by decide)).2.2.2.1⟩

end ShellHosts

end Sealer

namespace Sealer

section PluginStage

variable {σ ε : Type}

/-- Call journal of a fully successful traced install run. -/
theorem InstallProcessor.traced_Execute_journal (i : InstallProcessor σ ε) (w : σ)
    (hok : (i.traced.Execute (w, [])).1 = none) :
    ∃ hosts : List String,
      (i.traced.Execute (w, [])).2.2 =
        [InstallCall.pluginsDump, InstallCall.configDump, InstallCall.mountRootfs hosts false,
          InstallCall.pluginsLoad, InstallCall.pluginsRun PhasePreGuest,
          InstallCall.guestApply, InstallCall.pluginsRun PhasePostInstall] := by
  have hne : PhasePostInstall ≠ PhasePreGuest := by decide
  rcases h0 : i.Plugins_Dump w with ⟨r0, w0⟩
  rcases h1 : i.Config_Dump w0 with ⟨r1, w1⟩
  rcases h2 : i.fileSystem_MountRootfs (i.GetMasterIPList w1 ++ i.GetNodeIPList w1) false w1
    with ⟨r2, w2⟩
  rcases h3 : i.Plugins_Load w2 with ⟨r3, w3⟩
  rcases h4 : i.Plugins_Run PhasePreGuest w3 with ⟨r4, w4⟩
  rcases h5 : i.Guest_Apply w4 with ⟨r5, w5⟩
  rcases h6 : i.Plugins_Run PhasePostInstall w5 with ⟨r6, w6⟩
  refine ⟨i.GetMasterIPList w1 ++ i.GetNodeIPList w1, ?_⟩
  revert hok
  cases r0 <;> cases r1 <;> cases r2 <;> cases r3 <;> cases r4 <;> cases r5 <;> cases r6 <;>
    simp [InstallProcessor.Execute, InstallProcessor.initPlugin, InstallProcessor.GetPipeLine,
      InstallProcessor.RunConfig, InstallProcessor.MountRootfs, InstallProcessor.Install,
      InstallProcessor.GetPhasePluginFunc, InstallProcessor.traced, journaled, runPipeLine,
      h0, h1, h2, h3, h4, h5, h6, hne]

/-- C5. The stage `GetPhasePluginFunc phase`, observed through the call
journal: for `phase = PreGuest` it calls `Plugins.Load` once, first, and then
`Plugins.Run` only if the load succeeded (a failed load is returned as is);
for any other phase it calls `Plugins.Run` only.  Hence a fully successful
install run makes exactly one `Load` call, placed before the first
`Plugins.Run`. -/
theorem C5_load_once_at_preguest (i : InstallProcessor σ ε) (phase : Phase) (w : σ) :
    (i.traced.GetPhasePluginFunc phase (w, [])).2.2 =
      (if phase = PhasePreGuest then
        (if (i.Plugins_Load w).1.isNone then
          [InstallCall.pluginsLoad, InstallCall.pluginsRun phase]
        else [InstallCall.pluginsLoad])
      else [InstallCall.pluginsRun phase]) ∧
    (i.traced.GetPhasePluginFunc phase (w, [])).1 = (i.GetPhasePluginFunc phase w).1 ∧
    (phase = PhasePreGuest → ∀ err, (i.Plugins_Load w).1 = some err →
      i.GetPhasePluginFunc phase w = (some err, (i.Plugins_Load w).2)) ∧
    ((i.traced.Execute (w, [])).1 = none →
      (i.traced.Execute (w, [])).2.2.count InstallCall.pluginsLoad = 1 ∧
      ∃ hosts : List String,
        (i.traced.Execute (w, [])).2.2 =
          [InstallCall.pluginsDump, InstallCall.configDump, InstallCall.mountRootfs hosts false,
            InstallCall.pluginsLoad, InstallCall.pluginsRun PhasePreGuest,
            InstallCall.guestApply, InstallCall.pluginsRun PhasePostInstall]) := by
  refine ⟨?_, ?_, ?_, ?_⟩
  · rcases hl : i.Plugins_Load w with ⟨r, w1⟩
    by_cases hp : phase = PhasePreGuest
    · cases r <;>
        simp [InstallProcessor.GetPhasePluginFunc, InstallProcessor.traced, journaled, hl, hp]
    · simp [InstallProcessor.GetPhasePluginFunc, InstallProcessor.traced, journaled, hp]
  · rcases hl : i.Plugins_Load w with ⟨r, w1⟩
    by_cases hp : phase = PhasePreGuest
    · cases r <;>
        simp [InstallProcessor.GetPhasePluginFunc, InstallProcessor.traced, journaled, hl, hp]
    · simp [InstallProcessor.GetPhasePluginFunc, InstallProcessor.traced, journaled, hp]
  · intro hp err hl
    rcases hl' : i.Plugins_Load w with ⟨r, w1⟩
    rw [hl'] at hl
    simp only at hl
    subst hl
    simp [InstallProcessor.GetPhasePluginFunc, hl', hp]
  · intro hok
    obtain ⟨hosts, hj⟩ := InstallProcessor.traced_Execute_journal i w hok
    refine ⟨?_, hosts, hj⟩
    rw [hj]
    simp [List.count_cons]

/-- C5 on the sample processor whose plugin load fails: the PreGuest stage makes
the single call `Load` and returns its error; the PostInstall stage never
calls `Load`. -/
theorem C5_load_once_at_preguest_witness :
    ((({ sampleInstall none with Plugins_Load := fun w => (some "bad plugin", w) } :
          InstallProcessor Nat String).traced.GetPhasePluginFunc PhasePreGuest (0, [])
        = (some "bad plugin", (0, [InstallCall.pluginsLoad]))) ∧
     ((sampleInstall none).traced.GetPhasePluginFunc PhasePostInstall (0, [])).2.2
        = [InstallCall.pluginsRun PhasePostInstall]) ∧
    ((sampleInstall none).traced.Execute (0, [])).2.2.count InstallCall.pluginsLoad = 1 :=
  ⟨⟨by decide, by decide⟩,
    ((C5_load_once_at_preguest (sampleInstall none) PhasePreGuest 0).2.2.2 (by decide)).1⟩

end PluginStage

end Sealer

namespace Sealer

section Chain

/-- A piece without the separator is the only piece of its split. -/
theorem Split_of_not_mem (t : GoString) (sep : Byte) (h : sep ∉ t) : Split t sep = [t] := by
  induction t with
  | nil => rfl
  | cons b t ih =>
    have hb : b ≠ sep := fun hb => h (by simp [hb])
    have ht : sep ∉ t := fun ht => h (List.mem_cons_of_mem _ ht)
    simp [Split, hb, ih ht]

/-- Splitting `t ++ sep :: rest` peels off the separator-free piece `t`. -/
theorem Split_append_sep (t rest : GoString) (sep : Byte) (h : sep ∉ t) :
    Split (t ++ sep :: rest) sep = t :: Split rest sep := by
  induction t with
  | nil => simp [Split]
  | cons b t ih =>
    have hb : b ≠ sep := fun hb => h (by simp [hb])
    have ht : sep ∉ t := fun ht => h (List.mem_cons_of_mem _ ht)
    simp [Split, hb, ih ht]

/-- `Split` undoes `Join` on a non-empty list of separator-free pieces. -/
theorem Split_Join (sep : Byte) (toks : List GoString) (hne : toks ≠ [])
    (hfree : ∀ t ∈ toks, sep ∉ t) : Split (Join toks sep) sep = toks := by
  induction toks with
  | nil => exact absurd rfl hne
  | cons t ts ih =>
    cases ts with
    | nil => simpa [Join] using Split_of_not_mem t sep (hfree t (by simp))
    | cons t' ts' =>
      have h1 : sep ∉ t := hfree t (by simp)
      have h2 := ih (by simp) (fun u hu => hfree u (List.mem_cons_of_mem _ hu))
      simp only [Join]
      rw [Split_append_sep t _ sep h1, h2]

/-- No piece of a split contains the separator. -/
theorem Split_sep_free (s : GoString) (sep : Byte) : ∀ t ∈ Split s sep, sep ∉ t := by
  induction s with
  | nil => simp [Split]
  | cons b s ih =>
    by_cases hb : b = sep
    · intro t ht
      simp only [Split, hb, if_true, List.mem_cons] at ht
      rcases ht with rfl | ht
      · simp
      · exact ih t ht
    · intro t ht
      simp only [Split, hb, if_false] at ht
      rcases hs : Split s sep with _ | ⟨u, us⟩
      · rw [hs] at ht
        simp only [List.mem_singleton] at ht
        subst ht
        simpa using fun h => hb h.symm
      · rw [hs] at ht ih
        simp only [List.mem_cons] at ht
        rcases ht with rfl | ht
        · have hu := ih u (by simp)
          simp only [List.mem_cons, not_or]
          exact ⟨fun h => hb h.symm, hu⟩
        · exact ih t (by simp [ht])

variable {Value : Type}

/-- The table holds exactly the three processors. -/
theorem pmap_get (y : YamlLib Value) (pname : GoString) :
    GoMap.get pname (pmap y) =
      if pname = valueProcessorName then some valueProcessor.Process
      else if pname = toJSONProcessorName then some (toJSONProcessor.Process y)
      else if pname = toBase64ProcessorName then some (toBase64Processor.Process y)
      else none := by
  have h1 : toJSONProcessorName ≠ valueProcessorName := by decide
  have h2 : toBase64ProcessorName ≠ valueProcessorName := by decide
  have h3 : toBase64ProcessorName ≠ toJSONProcessorName := by decide
  simp [pmap, GoMap.set, GoMap.get, h1, h2, h3]

/-- A name outside the table, or the empty name, is skipped by the loop. -/
theorem runProcessors_filter (y : YamlLib Value) (toks : List GoString) (config : Config) :
    runProcessors (pmap y) toks config
      = runProcessors (pmap y) (toks.filter isProcessorName) config := by
  induction toks generalizing config with
  | nil => rfl
  | cons pname rest ih =>
    by_cases hk : isProcessorName pname = true
    · have hne : pname ≠ [] := by
        simp only [isProcessorName, decide_eq_true_eq] at hk
        exact hk.1
      rw [List.filter_cons_of_pos hk]
      simp only [runProcessors, hne, if_false]
      cases GoMap.get pname (pmap y) with
      | none => exact ih config
      | some p =>
        dsimp only
        rcases p config with ⟨r, c'⟩
        cases r with
        | none => exact ih c'
        | some e => rfl
    · rw [List.filter_cons_of_neg hk]
      by_cases hne : pname = []
      · simp only [runProcessors, hne, if_true]
        exact ih config
      · have hget : GoMap.get pname (pmap y) = none := by
          rw [pmap_get]
          simp only [isProcessorName, decide_eq_true_eq, not_and, not_or] at hk
          obtain ⟨h1, h2, h3⟩ := hk hne
          simp [h1, h2, h3]
        simp only [runProcessors, hne, if_false, hget]
        exact ih config

/-- No processor of the table reads or writes `Spec.Process`. -/
theorem pmap_withProcess (y : YamlLib Value) (pname : GoString) (p : PreProcessor)
    (hp : GoMap.get pname (pmap y) = some p) (config : Config) (s : GoString) :
    p (config.withProcess s) = ((p config).1, (p config).2.withProcess s) := by
  rw [pmap_get] at hp
  have hnv : notValue (config.withProcess s) = notValue config := rfl
  split at hp
  · cases hp; rfl
  · split at hp
    · cases hp
      simp only [toJSONProcessor.Process, hnv]
      split
      · simp only [Config.withProcess]
        cases y.YAMLToJSON config.Spec.Data <;> rfl
      · simp only [Config.withProcess]
        cases y.UnmarshalAny config.Spec.Data with
        | error e => rfl
        | ok m =>
          simp only
          cases toJSONLoop y m m with
          | error e => rfl
          | ok m' =>
            simp only
            cases y.Marshal2 m' <;> rfl
    · split at hp
      · cases hp
        simp only [toBase64Processor.Process, hnv]
        split
        · rfl
        · simp only [Config.withProcess]
          cases y.UnmarshalString config.Spec.Data with
          | error e => rfl
          | ok m =>
            simp only
            cases y.MarshalStringMap (toBase64Loop m m) <;> rfl
      · cases hp

/-- The loop does not depend on `Spec.Process` of the config it works on. -/
theorem runProcessors_withProcess (y : YamlLib Value) (toks : List GoString) (config : Config)
    (s : GoString) :
    runProcessors (pmap y) toks (config.withProcess s)
      = ((runProcessors (pmap y) toks config).1,
         (runProcessors (pmap y) toks config).2.withProcess s) := by
  induction toks generalizing config with
  | nil => rfl
  | cons pname rest ih =>
    by_cases hne : pname = []
    · simp only [runProcessors, hne, if_true]
      exact ih config
    · simp only [runProcessors, hne, if_false]
      cases hget : GoMap.get pname (pmap y) with
      | none => exact ih config
      | some p =>
        simp only
        rw [pmap_withProcess y pname p hget config s]
        rcases p config with ⟨r, c'⟩
        cases r with
        | none => exact ih c'
        | some e => rfl

/-- Running the chain `cleanSpec s` is running the kept tokens of `s`. -/
theorem runProcessors_cleanSpec (y : YamlLib Value) (s : GoString) (config : Config) :
    runProcessors (pmap y) (Split (cleanSpec s) pipe) config
      = runProcessors (pmap y) ((Split s pipe).filter isProcessorName) config := by
  by_cases hne : (Split s pipe).filter isProcessorName = []
  · simp [cleanSpec, hne, Join, Split, runProcessors]
  · rw [cleanSpec, Split_Join pipe _ hne]
    intro t ht
    exact Split_sep_free s pipe t (List.mem_of_mem_filter ht)

end Chain

end Sealer

namespace Sealer

section ChainClaim

variable {Value : Type}

/-- C6. Running the chain with spec `s` and running it with `cleanSpec s` (`s`
with every empty token and every token other than `value`, `toJson`,
`toBase64` deleted) return the same error and leave the same payload and the
same labels.  In particular `"value|bogus|toJson"` is cleaned to
`"value|toJson"`, and a spec none of whose tokens is a processor name returns
nil and leaves the document untouched, so an unknown name is never an error. -/
theorem C6_unknown_names_skipped (y : YamlLib Value) (config : Config) (s : GoString) :
    (NewProcessorsAndRun y (config.withProcess s)).1
      = (NewProcessorsAndRun y (config.withProcess (cleanSpec s))).1 ∧
    (NewProcessorsAndRun y (config.withProcess s)).2.Spec.Data
      = (NewProcessorsAndRun y (config.withProcess (cleanSpec s))).2.Spec.Data ∧
    (NewProcessorsAndRun y (config.withProcess s)).2.Labels
      = (NewProcessorsAndRun y (config.withProcess (cleanSpec s))).2.Labels ∧
    cleanSpec (ascii "value|bogus|toJson") = ascii "value|toJson" ∧
    ((∀ t ∈ Split s pipe, isProcessorName t = false) →
      NewProcessorsAndRun y (config.withProcess s) = (none, config.withProcess s)) := by
  have hl : NewProcessorsAndRun y (config.withProcess s)
      = ((runProcessors (pmap y) ((Split s pipe).filter isProcessorName) config).1,
         (runProcessors (pmap y) ((Split s pipe).filter isProcessorName) config).2.withProcess
           s) := by
    show runProcessors (pmap y) (Split s pipe) (config.withProcess s) = _
    rw [runProcessors_withProcess, runProcessors_filter]
  have hr : NewProcessorsAndRun y (config.withProcess (cleanSpec s))
      = ((runProcessors (pmap y) ((Split s pipe).filter isProcessorName) config).1,
         (runProcessors (pmap y) ((Split s pipe).filter isProcessorName) config).2.withProcess
           (cleanSpec s)) := by
    show runProcessors (pmap y) (Split (cleanSpec s) pipe) (config.withProcess (cleanSpec s)) = _
    rw [runProcessors_withProcess, runProcessors_cleanSpec]
  refine ⟨by rw [hl, hr], by rw [hl, hr]; rfl, by rw [hl, hr]; rfl, by decide, ?_⟩
  intro hall
  have hnil : (Split s pipe).filter isProcessorName = [] := by
    rw [List.filter_eq_nil_iff]
    intro t ht
    simp [hall t ht]
  rw [hl, hnil]
  rfl

/-- C6 at a concrete input: the chains `value|bogus|toBase64` and
`value|toBase64` give the same result on a sample document, and the chain
`bogus` alone changes nothing. -/
theorem C6_unknown_names_skipped_witness :
    NewProcessorsAndRun sampleYaml (sampleConfig "value|bogus|toBase64" "hello")
      = (none, { Labels := [(trueLabelKey, trueLabelValue)],
                 Spec := { Process := ascii "value|bogus|toBase64",
                           Data := ascii "user=aGVsbG8=;pass=czNjcmV0;" } }) ∧
    (NewProcessorsAndRun sampleYaml (sampleConfig "value|toBase64" "hello")).2.Spec.Data
      = ascii "user=aGVsbG8=;pass=czNjcmV0;" ∧
    NewProcessorsAndRun sampleYaml ((sampleConfig "" "hello").withProcess (ascii "bogus"))
      = (none, (sampleConfig "" "hello").withProcess (ascii "bogus")) :=
  ⟨by decide, by decide,
    (C6_unknown_names_skipped sampleYaml (sampleConfig "" "hello") (ascii "bogus")).2.2.2.2
      (by decide)⟩

end ChainClaim

end Sealer

namespace Sealer

section ValueProcessor

/-- C7, as stated, fails: the `value` processor does not keep the labels a
document carried.  On the sample document, which carries the label
`app = nginx`, the label is gone after the call. -/
theorem C7_value_drops_labels_counterexample :
    GoMap.get (ascii "app") (sampleConfig "value" "a: b").Labels = some (ascii "nginx") ∧
    ascii "app" ≠ trueLabelKey ∧
    GoMap.get (ascii "app") (valueProcessor.Process (sampleConfig "value" "a: b")).2.Labels
      = none := by
  decide

/-- C7, amended.  For every config document the `value` processor returns nil
and replaces the label set by the fresh map `{preprocess.value: "true"}`: the
sentinel label reads `"true"`, every other key is absent afterwards whatever
the document carried before, and `Spec` (payload and processor chain) is
unchanged. -/
theorem C7_value_resets_labels (config : Config) :
    (valueProcessor.Process config).1 = none ∧
    (valueProcessor.Process config).2.Labels = [(trueLabelKey, trueLabelValue)] ∧
    GoMap.get trueLabelKey (valueProcessor.Process config).2.Labels = some trueLabelValue ∧
    (∀ k, k ≠ trueLabelKey → GoMap.get k (valueProcessor.Process config).2.Labels = none) ∧
    (valueProcessor.Process config).2.Spec = config.Spec ∧
    (valueProcessor.Process config).2.Spec.Data = config.Spec.Data ∧
    (valueProcessor.Process config).2.Spec.Process = config.Spec.Process := by
  refine ⟨rfl, rfl, ?_, ?_, rfl, rfl, rfl⟩
  · simp [valueProcessor.Process, GoMap.set, GoMap.get]
  · intro k hk
    simp [valueProcessor.Process, GoMap.set, GoMap.get, hk]

end ValueProcessor

end Sealer

namespace Sealer

section Base64

theorem decodeChar_encodeChar_fin :
    ∀ n : Fin 64, decodeChar (encodeChar n.val) = some n.val := by decide

theorem encodeChar_plain_fin :
    ∀ n : Fin 64, encodeChar n.val ≠ StdPadding ∧ encodeChar n.val ≠ 10 ∧
      encodeChar n.val ≠ 13 := by decide

/-- Decoding the character of a 6-bit value gives the value back. -/
theorem decodeChar_encodeChar (n : Nat) (h : n < 64) : decodeChar (encodeChar n) = some n :=
  decodeChar_encodeChar_fin ⟨n, h⟩

/-- A character of the alphabet is neither the padding nor a line break. -/
theorem encodeChar_plain (n : Nat) (h : n < 64) :
    encodeChar n ≠ StdPadding ∧ encodeChar n ≠ 10 ∧ encodeChar n ≠ 13 :=
  encodeChar_plain_fin ⟨n, h⟩

theorem byte_of_val (a : Byte) (n : Nat) (h : n % 256 = a.val) : byte n = a :=
  Fin.ext h

/-- The encoder never emits a line break, so `DecodeString` drops nothing. -/
theorem EncodeToString_filter (d : GoString) :
    (EncodeToString d).filter (fun c => c ≠ 10 ∧ c ≠ 13) = EncodeToString d := by
  rw [List.filter_eq_self]
  induction d using EncodeToString.induct with
  | case1 => simp [EncodeToString]
  | case2 a =>
    intro c hc
    simp only [EncodeToString, List.mem_cons, List.mem_singleton] at hc
    have h0 := encodeChar_plain (a.val * 65536 / 262144 % 64) (Nat.mod_lt _ (by decide))
    have h1 := encodeChar_plain (a.val * 65536 / 4096 % 64) (Nat.mod_lt _ (by decide))
    have hp : StdPadding ≠ 10 ∧ StdPadding ≠ 13 := by decide
    rcases hc with rfl | rfl | rfl | rfl | hc
    · simp [h0.2.1, h0.2.2]
    · simp [h1.2.1, h1.2.2]
    · simp [hp.1, hp.2]
    · simp [hp.1, hp.2]
    · exact absurd hc (List.not_mem_nil _)
  | case3 a b =>
    intro c hc
    simp only [EncodeToString, List.mem_cons, List.mem_singleton] at hc
    have h0 := encodeChar_plain ((a.val * 65536 + b.val * 256) / 262144 % 64)
      (Nat.mod_lt _ (by decide))
    have h1 := encodeChar_plain ((a.val * 65536 + b.val * 256) / 4096 % 64)
      (Nat.mod_lt _ (by decide))
    have h2 := encodeChar_plain ((a.val * 65536 + b.val * 256) / 64 % 64)
      (Nat.mod_lt _ (by decide))
    have hp : StdPadding ≠ 10 ∧ StdPadding ≠ 13 := by decide
    rcases hc with rfl | rfl | rfl | rfl | hc
    · simp [h0.2.1, h0.2.2]
    · simp [h1.2.1, h1.2.2]
    · simp [h2.2.1, h2.2.2]
    · simp [hp.1, hp.2]
    · exact absurd hc (List.not_mem_nil _)
  | case4 a b c rest ih =>
    intro x hx
    simp only [EncodeToString, List.mem_cons] at hx
    have h0 := encodeChar_plain ((a.val * 65536 + b.val * 256 + c.val) / 262144 % 64)
      (Nat.mod_lt _ (by decide))
    have h1 := encodeChar_plain ((a.val * 65536 + b.val * 256 + c.val) / 4096 % 64)
      (Nat.mod_lt _ (by decide))
    have h2 := encodeChar_plain ((a.val * 65536 + b.val * 256 + c.val) / 64 % 64)
      (Nat.mod_lt _ (by decide))
    have h3 := encodeChar_plain ((a.val * 65536 + b.val * 256 + c.val) % 64)
      (Nat.mod_lt _ (by decide))
    rcases hx with rfl | rfl | rfl | rfl | hx
    · simp [h0.2.1, h0.2.2]
    · simp [h1.2.1, h1.2.2]
    · simp [h2.2.1, h2.2.2]
    · simp [h3.2.1, h3.2.2]
    · exact ih x hx

/-- Group-wise decoding inverts the encoder. -/
theorem decodeQuanta_EncodeToString (d : GoString) :
    decodeQuanta (EncodeToString d) = some d := by
  induction d using EncodeToString.induct with
  | case1 => rfl
  | case2 a =>
    have ha := a.isLt
    have e0 := decodeChar_encodeChar (a.val * 65536 / 262144 % 64) (Nat.mod_lt _ (by decide))
    have e1 := decodeChar_encodeChar (a.val * 65536 / 4096 % 64) (Nat.mod_lt _ (by decide))
    simp only [EncodeToString, decodeQuanta, true_and, if_true, e0, e1]
    congr 2
    exact byte_of_val a _ (by omega)
  | case3 a b =>
    have ha := a.isLt
    have hb := b.isLt
    have e0 := decodeChar_encodeChar ((a.val * 65536 + b.val * 256) / 262144 % 64)
      (Nat.mod_lt _ (by decide))
    have e1 := decodeChar_encodeChar ((a.val * 65536 + b.val * 256) / 4096 % 64)
      (Nat.mod_lt _ (by decide))
    have e2 := decodeChar_encodeChar ((a.val * 65536 + b.val * 256) / 64 % 64)
      (Nat.mod_lt _ (by decide))
    have p2 := (encodeChar_plain ((a.val * 65536 + b.val * 256) / 64 % 64)
      (Nat.mod_lt _ (by decide))).1
    simp only [EncodeToString, decodeQuanta, true_and, if_true, p2, if_false, e0, e1, e2]
    congr 2
    · exact byte_of_val a _ (by omega)
    · congr 1
      exact byte_of_val b _ (by omega)
  | case4 a b c rest ih =>
    have ha := a.isLt
    have hb := b.isLt
    have hc := c.isLt
    have e0 := decodeChar_encodeChar ((a.val * 65536 + b.val * 256 + c.val) / 262144 % 64)
      (Nat.mod_lt _ (by decide))
    have e1 := decodeChar_encodeChar ((a.val * 65536 + b.val * 256 + c.val) / 4096 % 64)
      (Nat.mod_lt _ (by decide))
    have e2 := decodeChar_encodeChar ((a.val * 65536 + b.val * 256 + c.val) / 64 % 64)
      (Nat.mod_lt _ (by decide))
    have e3 := decodeChar_encodeChar ((a.val * 65536 + b.val * 256 + c.val) % 64)
      (Nat.mod_lt _ (by decide))
    have p3 := (encodeChar_plain ((a.val * 65536 + b.val * 256 + c.val) % 64)
      (Nat.mod_lt _ (by decide))).1
    simp only [EncodeToString, decodeQuanta, p3, and_false, if_false, e0, e1, e2, e3, ih]
    congr 2
    · exact byte_of_val a _ (by omega)
    · congr 1
      · exact byte_of_val b _ (by omega)
      · congr 1
        exact byte_of_val c _ (by omega)

/-- `DecodeString` inverts `EncodeToString` on every byte string. -/
theorem DecodeString_EncodeToString (d : GoString) :
    DecodeString (EncodeToString d) = some d := by
  rw [DecodeString, EncodeToString_filter, decodeQuanta_EncodeToString]

end Base64

end Sealer

namespace Sealer

section ToBase64

variable {Value : Type}

/-- The label test of the processors, in terms of the lookup. -/
theorem notValue_eq_true_iff (config : Config) :
    notValue config = true ↔ GoMap.get trueLabelKey config.Labels ≠ some trueLabelValue := by
  unfold notValue
  cases GoMap.get trueLabelKey config.Labels with
  | none => simp
  | some v => simp

/-- C8. For a document whose labels do not carry `preprocess.value = "true"`
(absent, or another value) and any payload bytes, `toBase64` returns nil,
leaves the labels as they were, and `DecodeString` of the new payload is the
old payload. -/
theorem C8_toBase64_opaque_roundtrip (y : YamlLib Value) (config : Config)
    (h : GoMap.get trueLabelKey config.Labels ≠ some trueLabelValue) :
    (toBase64Processor.Process y config).1 = none ∧
    (toBase64Processor.Process y config).2.Labels = config.Labels ∧
    (toBase64Processor.Process y config).2.Spec.Process = config.Spec.Process ∧
    (toBase64Processor.Process y config).2.Spec.Data = EncodeToString config.Spec.Data ∧
    DecodeString (toBase64Processor.Process y config).2.Spec.Data = some config.Spec.Data := by
  have hnv : notValue config = true := (notValue_eq_true_iff config).mpr h
  simp only [toBase64Processor.Process, hnv, if_true, true_and]
  exact DecodeString_EncodeToString _

/-- C8 at concrete inputs: the empty payload, and a payload of bytes that are
not UTF-8 (`0xff 0x00 0xc3`), in a document labelled `app = nginx`. -/
theorem C8_toBase64_opaque_roundtrip_witness :
    (toBase64Processor.Process sampleYaml
        { Labels := [(ascii "app", ascii "nginx")],
          Spec := { Process := ascii "toBase64", Data := [255, 0, 195] } }).2.Spec.Data
      = ascii "/wDD" ∧
    DecodeString (ascii "/wDD") = some [255, 0, 195] ∧
    DecodeString (toBase64Processor.Process sampleYaml (sampleConfig "toBase64" "")).2.Spec.Data
      = some [] :=
  ⟨by decide, by decide,
    (C8_toBase64_opaque_roundtrip sampleYaml (sampleConfig "toBase64" "") (by decide)).2.2.2.2⟩

end ToBase64

end Sealer

namespace Sealer

section ToBase64Map

variable {Value : Type}

/-- Assigning to a key that is not among the entries `pre` in front reaches the
first entry behind them. -/
theorem GoMap.set_append_of_not_mem {V : Type} (pre rest : GoMap V) (k : GoString) (v v' : V)
    (h : k ∉ GoMap.keys pre) :
    GoMap.set k v' (pre ++ (k, v) :: rest) = pre ++ (k, v') :: rest := by
  induction pre with
  | nil => simp [GoMap.set]
  | cons e pre ih =>
    rcases e with ⟨k0, v0⟩
    have hk : k ≠ k0 := fun hk => h (by simp [GoMap.keys, hk])
    have hpre : k ∉ GoMap.keys pre := fun hmem => h (by
      simp only [GoMap.keys, List.map_cons, List.mem_cons]
      exact Or.inr hmem)
    simp [GoMap.set, hk, ih hpre]

/-- The encoding loop, started behind the already encoded entries `pre`,
encodes the value of every remaining entry and keeps keys and order. -/
theorem toBase64Loop_append (es : GoMap GoString) :
    ∀ pre : GoMap GoString, (GoMap.keys (pre ++ es)).Nodup →
      toBase64Loop es (pre ++ es) = pre ++ es.map (fun e => (e.1, EncodeToString e.2)) := by
  induction es with
  | nil => intro pre _; simp [toBase64Loop]
  | cons e es ih =>
    intro pre hnd
    rcases e with ⟨k, v⟩
    have hk : k ∉ GoMap.keys pre := by
      simp only [GoMap.keys, List.map_append, List.map_cons] at hnd
      have := (List.nodup_append.mp hnd).2.2
      intro hmem
      exact this hmem (by simp)
    simp only [toBase64Loop, List.map_cons]
    rw [GoMap.set_append_of_not_mem pre es k v _ hk]
    have hnd' : (GoMap.keys ((pre ++ [(k, EncodeToString v)]) ++ es)).Nodup := by
      simpa [GoMap.keys] using hnd
    have := ih (pre ++ [(k, EncodeToString v)]) hnd'
    simpa [List.append_assoc] using this

/-- On a map (distinct keys) the encoding loop encodes every value in place. -/
theorem toBase64Loop_eq_map (m : GoMap GoString) (hnd : (GoMap.keys m).Nodup) :
    toBase64Loop m m = m.map (fun e => (e.1, EncodeToString e.2)) := by
  simpa using toBase64Loop_append m [] (by simpa using hnd)

/-- Lookup in a map whose values were transformed entry by entry. -/
theorem GoMap.get_map {V W : Type} (f : V → W) (m : GoMap V) (k : GoString) :
    GoMap.get k (m.map (fun e => (e.1, f e.2))) = (GoMap.get k m).map f := by
  induction m with
  | nil => rfl
  | cons e m ih =>
    rcases e with ⟨k0, v0⟩
    by_cases hk : k = k0
    · simp [GoMap.get, hk]
    · simp [GoMap.get, hk, ih]

/-- C9. For a document carrying `preprocess.value = "true"` whose payload the
YAML library parses as the string map `m` (distinct keys), provided the
library can serialize the map of the encoded values: `toBase64` returns nil,
and the new payload is the serialization of a map `m'` with the same keys as
`m`, in which the value under each key is the base64 text of the value `m`
has under that key alone, so that decoding `m'[k]` yields `m[k]`.  Labels are
unchanged. -/
theorem C9_toBase64_per_key_roundtrip (y : YamlLib Value) (config : Config)
    (m : GoMap GoString)
    (hlabel : GoMap.get trueLabelKey config.Labels = some trueLabelValue)
    (hparse : y.UnmarshalString config.Spec.Data = .ok m)
    (hkeys : (GoMap.keys m).Nodup)
    (hser : ∃ out, y.MarshalStringMap (m.map (fun e => (e.1, EncodeToString e.2))) = .ok out) :
    ∃ m' : GoMap GoString,
      (toBase64Processor.Process y config).1 = none ∧
      y.MarshalStringMap m' = .ok (toBase64Processor.Process y config).2.Spec.Data ∧
      (toBase64Processor.Process y config).2.Labels = config.Labels ∧
      GoMap.keys m' = GoMap.keys m ∧
      (∀ k, (GoMap.get k m').isSome = (GoMap.get k m).isSome) ∧
      (∀ k v, GoMap.get k m = some v →
        GoMap.get k m' = some (EncodeToString v) ∧
        (GoMap.get k m').bind DecodeString = some v) := by
  have hnv : notValue config = false := by
    cases hv : notValue config with
    | false => rfl
    | true => exact absurd hlabel ((notValue_eq_true_iff config).mp hv)
  obtain ⟨out, hout⟩ := hser
  refine ⟨m.map (fun e => (e.1, EncodeToString e.2)), ?_, ?_, ?_, ?_, ?_, ?_⟩
  · simp [toBase64Processor.Process, hnv, hparse, toBase64Loop_eq_map m hkeys, hout]
  · simp [toBase64Processor.Process, hnv, hparse, toBase64Loop_eq_map m hkeys, hout]
  · simp [toBase64Processor.Process, hnv, hparse, toBase64Loop_eq_map m hkeys, hout]
  · simp [GoMap.keys, List.map_map, Function.comp_def]
  · intro k
    rw [GoMap.get_map]
    simp
  · intro k v hv
    rw [GoMap.get_map, hv]
    exact ⟨rfl, DecodeString_EncodeToString v⟩

/-- C9 at a concrete input: the sample library parses the payload as the map
`{user: alice, pass: s3cret}`; both values are encoded, each on its own. -/
theorem C9_toBase64_per_key_roundtrip_witness :
    toBase64Processor.Process sampleYaml
        { Labels := [(trueLabelKey, trueLabelValue)],
          Spec := { Process := ascii "value|toBase64", Data := ascii "alice" } }
      = (none, { Labels := [(trueLabelKey, trueLabelValue)],
                 Spec := { Process := ascii "value|toBase64",
                           Data := ascii "user=YWxpY2U=;pass=czNjcmV0;" } }) ∧
    DecodeString (ascii "YWxpY2U=") = some (ascii "alice") ∧
    DecodeString (ascii "czNjcmV0") = some (ascii "s3cret") ∧
    ∃ m' : GoMap GoString,
      (toBase64Processor.Process sampleYaml
        { Labels := [(trueLabelKey, trueLabelValue)],
          Spec := { Process := ascii "value|toBase64", Data := ascii "alice" } }).1 = none ∧
      GoMap.keys m' = [ascii "user", ascii "pass"] :=
  ⟨by decide, by decide, by decide,
    (C9_toBase64_per_key_roundtrip sampleYaml
      { Labels := [(trueLabelKey, trueLabelValue)],
        Spec := { Process := ascii "value|toBase64", Data := ascii "alice" } }
      [(ascii "user", ascii "alice"), (ascii "pass", ascii "s3cret")]
      (by decide) rfl (by decide) ⟨_, rfl⟩).imp
      (fun _ h => ⟨h.1, h.2.2.2.1⟩)⟩

end ToBase64Map

end Sealer


namespace Sealer

/-! ## Goroutines -/

section RoutineFacts

variable {S S' α β γ : Type}

theorem Routine.pure_eq (a : α) : (pure a : Routine S α) = Routine.ret a := rfl

theorem Routine.bind_eq (p : Routine S α) (g : α → Routine S β) :
    (p >>= g) = p.bind g := rfl

theorem Routine.ret_bind (a : α) (g : α → Routine S β) : (Routine.ret a).bind g = g a := rfl

theorem Routine.act_bind (upd : S → S) (next : S → Routine S α) (g : α → Routine S β) :
    (Routine.act upd next).bind g = Routine.act upd (fun s => (next s).bind g) := rfl

theorem Routine.atomic_bind_eq (f : S → α × S) (g : α → Routine S β) :
    (Routine.atomic f).bind g = Routine.act (fun s => (f s).2) (fun s => g (f s).1) := rfl

theorem Routine.bind_assoc (p : Routine S α) (g : α → Routine S β) (h : β → Routine S γ) :
    (p.bind g).bind h = p.bind (fun a => (g a).bind h) := by
  induction p with
  | ret a => rfl
  | act upd next ih =>
    simp only [Routine.act_bind]
    congr 1
    funext s
    exact ih s

theorem Routine.run_ret (a : α) (s : S) : (Routine.ret a : Routine S α).run s = (a, s) := rfl

theorem Routine.run_act (upd : S → S) (next : S → Routine S α) (s : S) :
    (Routine.act upd next).run s = (next s).run (upd s) := rfl

theorem Routine.run_atomic (f : S → α × S) (s : S) : (Routine.atomic f).run s = f s := rfl

/-- Running a sequence is running its parts one after the other. -/
theorem Routine.run_bind (p : Routine S α) (g : α → Routine S β) (s : S) :
    (p.bind g).run s = (g (p.run s).1).run (p.run s).2 := by
  induction p generalizing s with
  | ret a => rfl
  | act upd next ih =>
    simp only [Routine.act_bind, Routine.run_act]
    exact ih s (upd s)

/-- A rely/guarantee judgement can be moved along the rely. -/
theorem Routine.Runs.shift {R : S → S → Prop} {Q : α → S → Prop}
    (htrans : ∀ a b c, R a b → R b c → R a c) {p : Routine S α} {s s2 : S}
    (h : Routine.Runs R Q p s) (h2 : R s s2) : Routine.Runs R Q p s2 := by
  cases p with
  | ret a =>
    intro s' hs'
    exact h s' (htrans _ _ _ h2 hs')
  | act upd next =>
    intro s' hs'
    exact h s' (htrans _ _ _ h2 hs')

/-- A weaker postcondition. -/
theorem Routine.Runs.conseq {R : S → S → Prop} {Q Q' : α → S → Prop}
    (hq : ∀ a s, Q a s → Q' a s) {p : Routine S α} :
    ∀ {s : S}, Routine.Runs R Q p s → Routine.Runs R Q' p s := by
  induction p with
  | ret a =>
    intro s h s' hs'
    exact hq _ _ (h s' hs')
  | act upd next ih =>
    intro s h s' hs'
    exact ⟨(h s' hs').1, ih s' (h s' hs').2⟩

/-- The rule for sequencing. -/
theorem Routine.Runs.bind_rule {R : S → S → Prop} {Q : β → S → Prop}
    (hrefl : ∀ a, R a a) {p : Routine S α} {g : α → Routine S β} :
    ∀ {s : S}, Routine.Runs R (fun a s' => Routine.Runs R Q (g a) s') p s →
      Routine.Runs R Q (p.bind g) s := by
  induction p with
  | ret a =>
    intro s h
    exact h s (hrefl s)
  | act upd next ih =>
    intro s h s' hs'
    exact ⟨(h s' hs').1, ih s' (h s' hs').2⟩

/-- The rule for one atomic statement followed by the rest. -/
theorem Routine.Runs.atomic_bind_rule {R : S → S → Prop} {Q : β → S → Prop}
    {f : S → α × S} {g : α → Routine S β} {s : S}
    (h : ∀ s', R s s' → R s' (f s').2 ∧ Routine.Runs R Q (g (f s').1) (f s').2) :
    Routine.Runs R Q ((Routine.atomic f).bind g) s := h

/-- The rule for a body that has returned. -/
theorem Routine.Runs.ret_rule {R : S → S → Prop} {Q : α → S → Prop} {a : α} {s : S}
    (h : ∀ s', R s s' → Q a s') : Routine.Runs R Q (Routine.ret a) s := h

/-- A body run to its end with nothing in between stays inside the rely and
ends in its postcondition. -/
theorem Routine.Runs.run_sound {R : S → S → Prop} {Q : α → S → Prop}
    (hrefl : ∀ a, R a a) (htrans : ∀ a b c, R a b → R b c → R a c) {p : Routine S α} :
    ∀ {s : S}, Routine.Runs R Q p s →
      R s (p.run s).2 ∧ ∀ s', R (p.run s).2 s' → Q (p.run s).1 s' := by
  induction p with
  | ret a =>
    intro s h
    exact ⟨hrefl s, h⟩
  | act upd next ih =>
    intro s h
    obtain ⟨h1, h2⟩ := h s (hrefl s)
    obtain ⟨h3, h4⟩ := ih s h2
    exact ⟨htrans _ _ _ h1 h3, h4⟩

/-- Simulation of a sequence from simulation of its parts. -/
theorem Routine.Sim.bind_sim {π : S' → S} {p : Routine S α} {g : α → Routine S β}
    {g' : α → Routine S' β} (hg : ∀ a, Routine.Sim π (g a) (g' a)) :
    ∀ {p' : Routine S' α}, Routine.Sim π p p' → Routine.Sim π (p.bind g) (p'.bind g') := by
  induction p with
  | ret a =>
    intro p' h
    cases p' with
    | ret b =>
      have hab : a = b := h
      subst hab
      exact hg a
    | act upd' next' => exact absurd h (by simp [Routine.Sim])
  | act upd next ih =>
    intro p' h
    cases p' with
    | ret b => exact absurd h (by simp [Routine.Sim])
    | act upd' next' =>
      intro s'
      exact ⟨(h s').1, ih (π s') (h s').2⟩

/-- Simulation of one atomic statement. -/
theorem Routine.Sim.atomic_sim {π : S' → S} {f : S → α × S} {f' : S' → α × S'}
    (h : ∀ s', (f' s').1 = (f (π s')).1 ∧ π (f' s').2 = (f (π s')).2) :
    Routine.Sim π (Routine.atomic f) (Routine.atomic f') := by
  intro s'
  refine ⟨(h s').2, ?_⟩
  show (f (π s')).1 = (f' s').1
  exact (h s').1.symm

theorem Routine.Sim.ret_sim {π : S' → S} (a : α) :
    Routine.Sim π (Routine.ret a : Routine S α) (Routine.ret a) := rfl

/-- Simulated bodies run to the same result and to related states. -/
theorem Routine.Sim.run_sim {π : S' → S} {p : Routine S α} :
    ∀ {p' : Routine S' α}, Routine.Sim π p p' → ∀ s' : S',
      (p'.run s').1 = (p.run (π s')).1 ∧ π (p'.run s').2 = (p.run (π s')).2 := by
  induction p with
  | ret a =>
    intro p' h s'
    cases p' with
    | ret b =>
      have hab : a = b := h
      subst hab
      exact ⟨rfl, rfl⟩
    | act upd' next' => exact absurd h (by simp [Routine.Sim])
  | act upd next ih =>
    intro p' h s'
    cases p' with
    | ret b => exact absurd h (by simp [Routine.Sim])
    | act upd' next' =>
      simp only [Routine.run_act]
      have := ih (π s') (h s').2 (upd' s')
      rw [(h s').1] at this
      exact this

end RoutineFacts

end Sealer

namespace Sealer

/-! ## The error of a group -/

section FirstError

variable {ε : Type}

theorem firstError_append_single (l : List (StageRecord ε)) (i : Nat) (r : Option ε) :
    firstError (l ++ [(i, r)]) = Group.errOnce (firstError l) r := by
  induction l with
  | nil => cases r <;> rfl
  | cons a l ih =>
    obtain ⟨j, x⟩ := a
    cases x with
    | none => simpa [firstError] using ih
    | some e => simp [firstError, Group.errOnce]

theorem firstError_eq_none_iff (l : List (StageRecord ε)) :
    firstError l = none ↔ ∀ rec ∈ l, rec.2 = none := by
  induction l with
  | nil => simp [firstError]
  | cons a l ih =>
    obtain ⟨j, x⟩ := a
    cases x with
    | none => simp [firstError, ih]
    | some e => simp [firstError]

/-- The error of a group is the first non-nil result in the order of return. -/
theorem firstError_eq_some (l : List (StageRecord ε)) (e : ε) (h : firstError l = some e) :
    ∃ pre j post, l = pre ++ (j, some e) :: post ∧ ∀ rec ∈ pre, rec.2 = none := by
  induction l with
  | nil => simp [firstError] at h
  | cons a l ih =>
    obtain ⟨j, x⟩ := a
    cases x with
    | none =>
      obtain ⟨pre, j', post, hl, hpre⟩ := ih (by simpa [firstError] using h)
      refine ⟨(j, none) :: pre, j', post, by simp [hl], ?_⟩
      intro rec hrec
      rcases List.mem_cons.mp hrec with rfl | hrec
      · rfl
      · exact hpre rec hrec
    | some e' =>
      have : e' = e := by simpa [firstError] using h
      subst this
      exact ⟨[], j, l, rfl, by simp⟩

end FirstError

end Sealer

namespace Sealer

/-! ## Bookkeeping of a group -/

section Slots

variable {α : Type}

theorem getD_set_self (l : List α) (i : Nat) (a d : α) (h : i < l.length) :
    (l.set i a).getD i d = a := by
  simp [List.getD_eq_getElem?_getD, List.getElem?_set, h]

theorem getD_set_ne (l : List α) (i j : Nat) (a d : α) (h : i ≠ j) :
    (l.set i a).getD j d = l.getD j d := by
  simp [List.getD_eq_getElem?_getD, List.getElem?_set, h]

theorem lt_length_of_getD_ne (l : List α) (i : Nat) (d : α) (h : l.getD i d ≠ d) :
    i < l.length := by
  by_contra hlt
  exact h (List.getD_eq_default _ _ (Nat.le_of_not_lt hlt))

end Slots

end Sealer

namespace Sealer

section GroupBook

variable {S ε : Type}

theorem Group.step_through (g : Group S ε) (i : Nat) (h : g.routines.getD i none = none) :
    g.step i = g := by
  simp only [Group.step, h]

theorem Group.step_ret (g : Group S ε) (i : Nat) (r : Option ε)
    (h : g.routines.getD i none = some (Routine.ret r)) :
    g.step i =
      { routines := g.routines.set i none, err := Group.errOnce g.err r, shared := g.shared,
        returned := g.returned ++ [(i, r)] } := by
  simp only [Group.step, h]

theorem Group.step_act (g : Group S ε) (i : Nat) (upd : S → S)
    (next : S → Routine S (Option ε))
    (h : g.routines.getD i none = some (Routine.act upd next)) :
    g.step i =
      { routines := g.routines.set i (some (next g.shared)), err := g.err,
        shared := upd g.shared, returned := g.returned } := by
  simp only [Group.step, h]

theorem Group.start_book (tasks : List (Routine S (Option ε))) (s : S) :
    Group.Book tasks.length (Group.start tasks s) := by
  refine ⟨by simp [Group.start], ?_, by simp [Group.start], by simp [Group.start], rfl⟩
  intro j hj
  simp [Group.start, List.getD_eq_getElem?_getD, hj]

/-- A move of the scheduler keeps the books of the group. -/
theorem Group.step_book (n : Nat) (g : Group S ε) (i : Nat) (h : Group.Book n g) :
    Group.Book n (g.step i) := by
  obtain ⟨hlen, hthrough, hnodup, hlt, herr⟩ := h
  cases hslot : g.routines.getD i none with
  | none =>
    rw [Group.step_through g i hslot]
    exact ⟨hlen, hthrough, hnodup, hlt, herr⟩
  | some p =>
    have hi : i < g.routines.length :=
      lt_length_of_getD_ne _ _ none (by rw [hslot]; simp)
    have hin : i < n := hlen ▸ hi
    have hnot : i ∉ g.returned.map Prod.fst := by
      intro hmem
      have := (hthrough i hin).mpr hmem
      rw [hslot] at this
      exact absurd this (by simp)
    cases p with
    | ret r =>
      rw [Group.step_ret g i r hslot]
      refine ⟨by simp [hlen], ?_, ?_, ?_, ?_⟩
      · intro j hj
        by_cases hij : i = j
        · subst hij
          rw [getD_set_self _ _ _ _ hi]
          simp
        · have hji : ¬ j = i := fun h => hij h.symm
          simp only [getD_set_ne _ _ _ _ _ hij, List.map_append, List.map_cons, List.map_nil,
            List.mem_append, List.mem_singleton, hji, or_false]
          exact hthrough j hj
      · simp only [List.map_append, List.map_cons, List.map_nil]
        rw [List.nodup_append]
        refine ⟨hnodup, by simp, ?_⟩
        intro a ha hb
        simp only [List.mem_singleton] at hb
        subst hb
        exact hnot ha
      · intro j hj
        simp only [List.map_append, List.map_cons, List.map_nil, List.mem_append,
          List.mem_singleton] at hj
        rcases hj with hj | rfl
        · exact hlt j hj
        · exact hin
      · simp only [firstError_append_single, herr]
    | act upd next =>
      rw [Group.step_act g i upd next hslot]
      refine ⟨by simp [hlen], ?_, hnodup, hlt, herr⟩
      intro j hj
      by_cases hij : i = j
      · subst hij
        rw [getD_set_self _ _ _ _ hi]
        simp [hnot]
      · simp only [getD_set_ne _ _ _ _ _ hij]
        exact hthrough j hj

theorem Group.foldl_step_book (n : Nat) (sched : List Nat) :
    ∀ g : Group S ε, Group.Book n g → Group.Book n (sched.foldl Group.step g) := by
  induction sched with
  | nil => intro g h; exact h
  | cons i sched ih =>
    intro g h
    exact ih _ (Group.step_book n g i h)

/-- What `Group.drain` adds: one result for every goroutine that was not
through, in list order, and the error stays the first one recorded. -/
theorem Group.drain_book (rest : List (Option (Routine S (Option ε)))) :
    ∀ (i : Nat) (out : Option ε × S × List (StageRecord ε)),
      ∃ tr : List (StageRecord ε),
        (Group.drain i rest out).2.2 = out.2.2 ++ tr ∧
        (∀ j, j ∈ tr.map Prod.fst ↔
          ∃ k, k < rest.length ∧ j = i + k ∧ rest.getD k none ≠ none) ∧
        (tr.map Prod.fst).Nodup ∧
        (out.1 = firstError out.2.2 →
          (Group.drain i rest out).1 = firstError (Group.drain i rest out).2.2) := by
  induction rest with
  | nil =>
    intro i out
    exact ⟨[], by simp [Group.drain], by simp, by simp, by simp [Group.drain]⟩
  | cons a rest ih =>
    intro i out
    cases a with
    | none =>
      obtain ⟨tr, h1, h2, h3, h4⟩ := ih (i + 1) out
      refine ⟨tr, by simpa [Group.drain] using h1, ?_, h3, by simpa [Group.drain] using h4⟩
      intro j
      rw [h2 j]
      constructor
      · rintro ⟨k, hk, hj, hne⟩
        exact ⟨k + 1, by simpa using hk, by omega, by simpa using hne⟩
      · rintro ⟨k, hk, hj, hne⟩
        cases k with
        | zero => simp at hne
        | succ k => exact ⟨k, by simpa using hk, by omega, by simpa using hne⟩
    | some p =>
      obtain ⟨tr, h1, h2, h3, h4⟩ := ih (i + 1)
        (Group.errOnce out.1 (p.run out.2.1).1, (p.run out.2.1).2,
          out.2.2 ++ [(i, (p.run out.2.1).1)])
      refine ⟨(i, (p.run out.2.1).1) :: tr, ?_, ?_, ?_, ?_⟩
      · simp only [Group.drain, h1]
        simp
      · intro j
        simp only [List.map_cons, List.mem_cons, h2 j]
        constructor
        · rintro (rfl | ⟨k, hk, hj, hne⟩)
          · exact ⟨0, by simp, by omega, by simp⟩
          · exact ⟨k + 1, by simpa using hk, by omega, by simpa using hne⟩
        · rintro ⟨k, hk, hj, hne⟩
          cases k with
          | zero => exact Or.inl (by omega)
          | succ k => exact Or.inr ⟨k, by simpa using hk, by omega, by simpa using hne⟩
      · simp only [List.map_cons, List.nodup_cons]
        refine ⟨?_, h3⟩
        intro hmem
        obtain ⟨k, -, hj, -⟩ := (h2 i).mp hmem
        omega
      · intro herr
        simp only [Group.drain]
        apply h4
        simp only [firstError_append_single, herr]

/-- The books of an `errgroup` under any schedule: every goroutine returns
exactly once (the indices of the results are a permutation of `0..n-1`), and
the error of the group is the first non-nil result in the order of return. -/
theorem observeGroup_book (sched : List Nat) (tasks : List (Routine S (Option ε))) (s : S) :
    ((observeGroup sched tasks s).2.2.map Prod.fst).Perm (List.range tasks.length) ∧
    (observeGroup sched tasks s).1 = firstError (observeGroup sched tasks s).2.2 := by
  obtain ⟨hlen, hthrough, hnodup, hlt, herr⟩ :=
    Group.foldl_step_book tasks.length sched _ (Group.start_book tasks s)
  obtain ⟨tr, h1, h2, h3, h4⟩ := Group.drain_book
    (sched.foldl Group.step (Group.start tasks s)).routines 0
    ((sched.foldl Group.step (Group.start tasks s)).err,
      (sched.foldl Group.step (Group.start tasks s)).shared,
      (sched.foldl Group.step (Group.start tasks s)).returned)
  refine ⟨?_, h4 herr⟩
  simp only [observeGroup, h1, List.map_append]
  rw [List.perm_ext_iff_of_nodup _ (List.nodup_range _)]
  · intro j
    simp only [List.mem_append, List.mem_range, h2 j, hlen, zero_add]
    constructor
    · rintro (hj | ⟨k, hk, rfl, -⟩)
      · exact hlt j hj
      · exact hk
    · intro hj
      by_cases hslot : (sched.foldl Group.step (Group.start tasks s)).routines.getD j none = none
      · exact Or.inl ((hthrough j hj).mp hslot)
      · exact Or.inr ⟨j, hj, rfl, hslot⟩
  · rw [List.nodup_append]
    refine ⟨hnodup, h3, ?_⟩
    intro a ha hb
    obtain ⟨k, hk, rfl, hne⟩ := (h2 a).mp hb
    simp only [zero_add] at ha hne
    rw [hlen] at hk
    exact hne ((hthrough k hk).mpr ha)

end GroupBook

end Sealer

namespace Sealer

/-! ## Rely/guarantee for a group -/

section GroupSound

variable {S ε : Type}

/-- A move of the scheduler keeps the rely/guarantee invariant of the group. -/
theorem Group.step_sound {R : S → S → Prop} {Q : Nat → Option ε → S → Prop}
    (hrefl : ∀ a, R a a) (htrans : ∀ a b c, R a b → R b c → R a c) (s0 : S)
    (g : Group S ε) (i : Nat) (h : Group.Sound R Q s0 g) : Group.Sound R Q s0 (g.step i) := by
  obtain ⟨hR, hrun, hdone⟩ := h
  cases hslot : g.routines.getD i none with
  | none =>
    rw [Group.step_through g i hslot]
    exact ⟨hR, hrun, hdone⟩
  | some p =>
    have hi : i < g.routines.length :=
      lt_length_of_getD_ne _ _ none (by rw [hslot]; simp)
    have hp := hrun i p hslot
    cases p with
    | ret r =>
      rw [Group.step_ret g i r hslot]
      refine ⟨hR, ?_, ?_⟩
      · intro j q hq
        by_cases hij : i = j
        · subst hij
          rw [getD_set_self _ _ _ _ hi] at hq
          exact absurd hq (by simp)
        · rw [getD_set_ne _ _ _ _ _ hij] at hq
          exact hrun j q hq
      · intro rec hrec s' hs'
        rcases List.mem_append.mp hrec with hrec | hrec
        · exact hdone rec hrec s' hs'
        · simp only [List.mem_singleton] at hrec
          subst hrec
          exact hp s' hs'
    | act upd next =>
      rw [Group.step_act g i upd next hslot]
      obtain ⟨hstep, hnext⟩ := hp g.shared (hrefl _)
      refine ⟨htrans _ _ _ hR hstep, ?_, ?_⟩
      · intro j q hq
        by_cases hij : i = j
        · subst hij
          rw [getD_set_self _ _ _ _ hi] at hq
          simp only [Option.some.injEq] at hq
          subst hq
          exact hnext
        · rw [getD_set_ne _ _ _ _ _ hij] at hq
          exact (hrun j q hq).shift htrans hstep
      · intro rec hrec s' hs'
        exact hdone rec hrec s' (htrans _ _ _ hstep hs')

theorem Group.foldl_step_sound {R : S → S → Prop} {Q : Nat → Option ε → S → Prop}
    (hrefl : ∀ a, R a a) (htrans : ∀ a b c, R a b → R b c → R a c) (s0 : S)
    (sched : List Nat) :
    ∀ g : Group S ε, Group.Sound R Q s0 g → Group.Sound R Q s0 (sched.foldl Group.step g) := by
  induction sched with
  | nil => intro g h; exact h
  | cons i sched ih =>
    intro g h
    exact ih _ (Group.step_sound hrefl htrans s0 g i h)

/-- Running the goroutines left to their end keeps the invariant. -/
theorem Group.drain_sound {R : S → S → Prop} {Q : Nat → Option ε → S → Prop}
    (hrefl : ∀ a, R a a) (htrans : ∀ a b c, R a b → R b c → R a c) (s0 : S)
    (rest : List (Option (Routine S (Option ε)))) :
    ∀ (i : Nat) (out : Option ε × S × List (StageRecord ε)),
      R s0 out.2.1 →
      (∀ k p, rest.getD k none = some p → Routine.Runs R (Q (i + k)) p out.2.1) →
      (∀ rec ∈ out.2.2, ∀ s', R out.2.1 s' → Q rec.1 rec.2 s') →
      R s0 (Group.drain i rest out).2.1 ∧
      ∀ rec ∈ (Group.drain i rest out).2.2,
        ∀ s', R (Group.drain i rest out).2.1 s' → Q rec.1 rec.2 s' := by
  induction rest with
  | nil =>
    intro i out hR _ hdone
    exact ⟨hR, hdone⟩
  | cons a rest ih =>
    intro i out hR hrun hdone
    have hrest : ∀ s2, R out.2.1 s2 →
        ∀ k p, rest.getD k none = some p → Routine.Runs R (Q (i + 1 + k)) p s2 := by
      intro s2 hs2 k p hk
      have := hrun (k + 1) p (by simpa using hk)
      have hidx : i + (k + 1) = i + 1 + k := by omega
      rw [hidx] at this
      exact this.shift htrans hs2
    cases a with
    | none =>
      simp only [Group.drain]
      exact ih (i + 1) out hR (hrest _ (hrefl _)) hdone
    | some p =>
      simp only [Group.drain]
      have hp := hrun 0 p (by simp)
      obtain ⟨hstep, hpost⟩ := hp.run_sound hrefl htrans
      refine ih (i + 1) _ (htrans _ _ _ hR hstep) (hrest _ hstep) ?_
      intro rec hrec s' hs'
      rcases List.mem_append.mp hrec with hrec | hrec
      · exact hdone rec hrec s' (htrans _ _ _ hstep hs')
      · simp only [List.mem_singleton] at hrec
        subst hrec
        exact hpost s' hs'

/-- Rely/guarantee for an `errgroup`, under any schedule.  If every goroutine,
started in `s` and interleaved with steps inside `R`, keeps its own steps
inside `R` and ends in its postcondition `Q i`, then the group leaves a state
reached along `R`, in which the result of every goroutine satisfies its
postcondition. -/
theorem observeGroup_sound {R : S → S → Prop} {Q : Nat → Option ε → S → Prop}
    (hrefl : ∀ a, R a a) (htrans : ∀ a b c, R a b → R b c → R a c)
    (sched : List Nat) (tasks : List (Routine S (Option ε))) (s : S)
    (h : ∀ (i : Nat) (p : Routine S (Option ε)), tasks[i]? = some p →
      Routine.Runs R (Q i) p s) :
    R s (observeGroup sched tasks s).2.1 ∧
    ∀ rec ∈ (observeGroup sched tasks s).2.2, Q rec.1 rec.2 (observeGroup sched tasks s).2.1 := by
  have hstart : Group.Sound R Q s (Group.start tasks s) := by
    refine ⟨hrefl s, ?_, by simp [Group.start]⟩
    intro i p hp
    have hi : i < tasks.length := by
      have := lt_length_of_getD_ne (tasks.map some) i none (by
        simp only [Group.start] at hp
        rw [hp]; simp)
      simpa using this
    apply h i p
    simp only [Group.start, List.getD_eq_getElem?_getD, List.getElem?_map] at hp
    rw [List.getElem?_eq_getElem hi] at hp ⊢
    simpa using hp
  obtain ⟨hR, hrun, hdone⟩ := Group.foldl_step_sound hrefl htrans s sched _ hstart
  obtain ⟨h1, h2⟩ := Group.drain_sound hrefl htrans s
    (sched.foldl Group.step (Group.start tasks s)).routines 0
    ((sched.foldl Group.step (Group.start tasks s)).err,
      (sched.foldl Group.step (Group.start tasks s)).shared,
      (sched.foldl Group.step (Group.start tasks s)).returned)
    hR (by intro k p hk; simpa using hrun k p hk) hdone
  exact ⟨h1, fun rec hrec => h2 rec hrec _ (hrefl _)⟩

end GroupSound

end Sealer

namespace Sealer

/-! ## Groups that do not interleave, and simulation of groups -/

section GroupRun

variable {S S' ε : Type}

/-- A group without goroutines returns nil and leaves the state as it is. -/
theorem observeGroup_nil (sched : List Nat) (s : S) :
    observeGroup sched ([] : List (Routine S (Option ε))) s = (none, s, []) := by
  have hfold : ∀ g : Group S ε, g.routines = [] → sched.foldl Group.step g = g := by
    induction sched with
    | nil => intro g _; rfl
    | cons i sched ih =>
      intro g hg
      have : g.step i = g := Group.step_through g i (by rw [hg]; rfl)
      simp only [List.foldl_cons, this]
      exact ih g hg
  simp only [observeGroup, hfold (Group.start [] s) rfl]
  rfl

theorem runGroup_nil (sched : List Nat) (s : S) :
    runGroup sched ([] : List (Routine S (Option ε))) s = (none, s) := by
  simp only [runGroup, observeGroup_nil]

/-- A group of one goroutine: whatever the schedule, the outcome is that of the
body run from start to end. -/
theorem runGroup_single (sched : List Nat) (p : Routine S (Option ε)) (s : S) :
    runGroup sched [p] s = p.run s := by
  have hfold : ∀ g : Group S ε,
      ((∃ q, g.routines = [some q] ∧ g.err = none ∧ q.run g.shared = p.run s) ∨
        (g.routines = [none] ∧ (g.err, g.shared) = p.run s)) →
      ((∃ q, (sched.foldl Group.step g).routines = [some q] ∧
          (sched.foldl Group.step g).err = none ∧
          q.run (sched.foldl Group.step g).shared = p.run s) ∨
        ((sched.foldl Group.step g).routines = [none] ∧
          ((sched.foldl Group.step g).err, (sched.foldl Group.step g).shared) = p.run s)) := by
    induction sched with
    | nil => intro g h; exact h
    | cons i sched ih =>
      intro g h
      simp only [List.foldl_cons]
      apply ih
      rcases h with ⟨q, hq, herr, hrun⟩ | ⟨hq, hrun⟩
      · cases i with
        | zero =>
          cases q with
          | ret r =>
            rw [Group.step_ret g 0 r (by rw [hq]; rfl)]
            refine Or.inr ⟨by simp [hq], ?_⟩
            simp only [herr, Group.errOnce]
            exact hrun
          | act upd next =>
            rw [Group.step_act g 0 upd next (by rw [hq]; rfl)]
            exact Or.inl ⟨next g.shared, by simp [hq], herr, hrun⟩
        | succ i =>
          rw [Group.step_through g (i + 1) (by rw [hq]; rfl)]
          exact Or.inl ⟨q, hq, herr, hrun⟩
      · rw [Group.step_through g i (by rw [hq]; cases i <;> rfl)]
        exact Or.inr ⟨hq, hrun⟩
  rcases hfold (Group.start [p] s) (Or.inl ⟨p, rfl, rfl, rfl⟩) with ⟨q, hq, herr, hrun⟩ | ⟨hq, hrun⟩
  · simp only [runGroup, observeGroup, hq, herr, Group.drain, Group.errOnce]
    exact hrun
  · simp only [runGroup, observeGroup, hq, Group.drain]
    exact hrun

theorem Group.SimSlot.through {π : S' → S} {b : Option (Routine S' (Option ε))}
    (h : Group.SimSlot π (none : Option (Routine S (Option ε))) b) : b = none := by
  cases b with
  | none => rfl
  | some q => exact absurd h (by simp [Group.SimSlot])

/-- A move of the scheduler keeps two groups in simulation. -/
theorem Group.step_simulates (π : S' → S) (g : Group S ε) (h : Group S' ε) (i : Nat)
    (hsim : Group.Simulates π g h) : Group.Simulates π (g.step i) (h.step i) := by
  obtain ⟨hlen, hslots, herr, hshared, hret⟩ := hsim
  have hslot := hslots i
  cases hg : g.routines.getD i none with
  | none =>
    rw [hg] at hslot
    rw [Group.step_through g i hg, Group.step_through h i hslot.through]
    exact ⟨hlen, hslots, herr, hshared, hret⟩
  | some p =>
    have hi : i < g.routines.length :=
      lt_length_of_getD_ne _ _ none (by rw [hg]; simp)
    have hi' : i < h.routines.length := hlen ▸ hi
    rw [hg] at hslot
    cases hh : h.routines.getD i none with
    | none => rw [hh] at hslot; exact absurd hslot (by simp [Group.SimSlot])
    | some q =>
      rw [hh] at hslot
      have hpq : Routine.Sim π p q := hslot
      cases p with
      | ret r =>
        cases q with
        | ret r' =>
          have hrr : r = r' := hpq
          subst hrr
          rw [Group.step_ret g i r hg, Group.step_ret h i r hh]
          refine ⟨by simp [hlen], ?_, by simp [herr], hshared, by simp [hret]⟩
          intro j
          by_cases hij : i = j
          · subst hij
            rw [getD_set_self _ _ _ _ hi, getD_set_self _ _ _ _ hi']
            trivial
          · rw [getD_set_ne _ _ _ _ _ hij, getD_set_ne _ _ _ _ _ hij]
            exact hslots j
        | act upd' next' => exact absurd hpq (by simp [Routine.Sim])
      | act upd next =>
        cases q with
        | ret r' => exact absurd hpq (by simp [Routine.Sim])
        | act upd' next' =>
          rw [Group.step_act g i upd next hg, Group.step_act h i upd' next' hh]
          obtain ⟨hupd, hnext⟩ := hpq h.shared
          refine ⟨by simp [hlen], ?_, herr, by simp only [hupd, hshared], hret⟩
          intro j
          by_cases hij : i = j
          · subst hij
            rw [getD_set_self _ _ _ _ hi, getD_set_self _ _ _ _ hi']
            simp only [← hshared]
            exact hnext
          · rw [getD_set_ne _ _ _ _ _ hij, getD_set_ne _ _ _ _ _ hij]
            exact hslots j

theorem Group.foldl_step_simulates (π : S' → S) (sched : List Nat) :
    ∀ (g : Group S ε) (h : Group S' ε), Group.Simulates π g h →
      Group.Simulates π (sched.foldl Group.step g) (sched.foldl Group.step h) := by
  induction sched with
  | nil => intro g h hsim; exact hsim
  | cons i sched ih =>
    intro g h hsim
    exact ih _ _ (Group.step_simulates π g h i hsim)

/-- Running the goroutines left to their end keeps the simulation. -/
theorem Group.drain_simulates (π : S' → S) (rest : List (Option (Routine S (Option ε)))) :
    ∀ (rest' : List (Option (Routine S' (Option ε)))) (i : Nat)
      (out : Option ε × S × List (StageRecord ε)) (out' : Option ε × S' × List (StageRecord ε)),
      rest.length = rest'.length →
      (∀ k, Group.SimSlot π (rest.getD k none) (rest'.getD k none)) →
      out.1 = out'.1 → π out'.2.1 = out.2.1 → out.2.2 = out'.2.2 →
      (Group.drain i rest out).1 = (Group.drain i rest' out').1 ∧
      π (Group.drain i rest' out').2.1 = (Group.drain i rest out).2.1 ∧
      (Group.drain i rest out).2.2 = (Group.drain i rest' out').2.2 := by
  induction rest with
  | nil =>
    intro rest' i out out' hlen _ h1 h2 h3
    cases rest' with
    | nil => exact ⟨h1, h2, h3⟩
    | cons b rest' => simp at hlen
  | cons a rest ih =>
    intro rest' i out out' hlen hslots h1 h2 h3
    cases rest' with
    | nil => simp at hlen
    | cons b rest' =>
      have hlen' : rest.length = rest'.length := by simpa using hlen
      have hrest : ∀ k, Group.SimSlot π (rest.getD k none) (rest'.getD k none) := by
        intro k
        simpa using hslots (k + 1)
      have h0 : Group.SimSlot π a b := by simpa using hslots 0
      cases a with
      | none =>
        rw [h0.through]
        simp only [Group.drain]
        exact ih rest' (i + 1) out out' hlen' hrest h1 h2 h3
      | some p =>
        cases b with
        | none => exact absurd h0 (by simp [Group.SimSlot])
        | some q =>
          have hpq : Routine.Sim π p q := h0
          obtain ⟨hr, hs⟩ := hpq.run_sim out'.2.1
          rw [h2] at hr hs
          simp only [Group.drain]
          exact ih rest' (i + 1) _ _ hlen' hrest (by simp only [h1, hr]) hs
            (by simp only [h3, hr])

/-- Simulation of groups: if every goroutine of `tasks'`, on the state `S'`,
does through `π` what the goroutine of `tasks` at the same index does, then
under every schedule the two groups return the same error and the same
results in the same order, and leave related states. -/
theorem observeGroup_simulates (π : S' → S) (sched : List Nat)
    (tasks : List (Routine S (Option ε))) (tasks' : List (Routine S' (Option ε)))
    (hlen : tasks.length = tasks'.length)
    (h : ∀ (i : Nat) (p : Routine S (Option ε)) (q : Routine S' (Option ε)),
      tasks[i]? = some p → tasks'[i]? = some q → Routine.Sim π p q) (s' : S') :
    (observeGroup sched tasks' s').1 = (observeGroup sched tasks (π s')).1 ∧
    π (observeGroup sched tasks' s').2.1 = (observeGroup sched tasks (π s')).2.1 ∧
    (observeGroup sched tasks' s').2.2 = (observeGroup sched tasks (π s')).2.2 := by
  have hstart : Group.Simulates π (Group.start tasks (π s')) (Group.start tasks' s') := by
    refine ⟨by simp [Group.start, hlen], ?_, rfl, rfl, rfl⟩
    intro i
    simp only [Group.start, List.getD_eq_getElem?_getD, List.getElem?_map]
    by_cases hi : i < tasks.length
    · have hi' : i < tasks'.length := hlen ▸ hi
      have := h i _ _ (List.getElem?_eq_getElem hi) (List.getElem?_eq_getElem hi')
      rw [List.getElem?_eq_getElem hi, List.getElem?_eq_getElem hi']
      exact this
    · have hi' : ¬ i < tasks'.length := hlen ▸ hi
      rw [List.getElem?_eq_none (Nat.le_of_not_lt hi), List.getElem?_eq_none (Nat.le_of_not_lt hi')]
      trivial
  obtain ⟨h1, h2, h3, h4, h5⟩ := Group.foldl_step_simulates π sched _ _ hstart
  obtain ⟨d1, d2, d3⟩ := Group.drain_simulates π _ _ 0
    ((sched.foldl Group.step (Group.start tasks (π s'))).err,
      (sched.foldl Group.step (Group.start tasks (π s'))).shared,
      (sched.foldl Group.step (Group.start tasks (π s'))).returned)
    ((sched.foldl Group.step (Group.start tasks' s')).err,
      (sched.foldl Group.step (Group.start tasks' s')).shared,
      (sched.foldl Group.step (Group.start tasks' s')).returned)
    h1 h2 h3 h4 h5
  exact ⟨d1.symm, d2, d3.symm⟩

end GroupRun

end Sealer

namespace Sealer

section Join

variable {κ σ : Type}

theorem cmdAsyncCalls_append (l1 l2 : RuntimeJournal) :
    cmdAsyncCalls (l1 ++ l2) = cmdAsyncCalls l1 ++ cmdAsyncCalls l2 := by
  induction l1 with
  | nil => rfl
  | cons a l ih =>
    rcases a with ⟨c, r⟩
    cases c <;> simp [cmdAsyncCalls, ih]

/-- The `masters` argument of the IPVS command is the concatenation of
`" --rs <m>:6443"` over the masters, in list order. -/
theorem KubeadmRuntime.mastersArg_eq_join (masterIPList : List String) :
    KubeadmRuntime.mastersArg masterIPList
      = String.join (masterIPList.map (fun m => " --rs " ++ m ++ ":6443")) := by
  simp [KubeadmRuntime.mastersArg, String.join, List.foldl_map]

/-- The route check, journaled: same result as the plain one, the runtime is
not touched, and no command sequence is handed to `CmdAsync`. -/
theorem KubeadmRuntime.checkMultiNetworkAddVIPRoute_traced (env : RuntimeEnv κ σ)
    (node : String) (k : KubeadmRuntime κ) (w : σ) (tr0 : RuntimeJournal) :
    ∃ tr : RuntimeJournal,
      KubeadmRuntime.checkMultiNetworkAddVIPRoute env.traced node (k, (w, tr0))
        = ((KubeadmRuntime.checkMultiNetworkAddVIPRoute env node (k, w)).1,
           (k, ((KubeadmRuntime.checkMultiNetworkAddVIPRoute env node (k, w)).2.2, tr0 ++ tr))) ∧
      (KubeadmRuntime.checkMultiNetworkAddVIPRoute env node (k, w)).2.1 = k ∧
      cmdAsyncCalls tr = [] := by
  rcases h1 : env.getHostSSHClient k node w with ⟨r1, w1⟩
  cases r1 with
  | some e =>
    exact ⟨[(.getHostSSHClient node, some e)], by
      simp [KubeadmRuntime.checkMultiNetworkAddVIPRoute, RuntimeEnv.traced, recorded, h1,
        cmdAsyncCalls]⟩
  | none =>
    rcases h2 : env.CmdToString node (RemoteCheckRoute node) "" w1 with ⟨r2, w2⟩
    cases r2 with
    | error e =>
      exact ⟨[(.getHostSSHClient node, none),
          (.cmdToString node (RemoteCheckRoute node), some e)], by
        simp [KubeadmRuntime.checkMultiNetworkAddVIPRoute, RuntimeEnv.traced, recorded,
          recordedE, errorOf, h1, h2, cmdAsyncCalls]⟩
    | ok result =>
      by_cases hres : result = RouteOK
      · exact ⟨[(.getHostSSHClient node, none),
            (.cmdToString node (RemoteCheckRoute node), none)], by
          simp [KubeadmRuntime.checkMultiNetworkAddVIPRoute, RuntimeEnv.traced, recorded,
            recordedE, errorOf, h1, h2, hres, cmdAsyncCalls]⟩
      · rcases h3 : env.Cmd node (RemoteAddRoute k.getVIP node) w2 with ⟨r3, w3⟩
        cases r3 with
        | error e =>
          exact ⟨[(.getHostSSHClient node, none),
              (.cmdToString node (RemoteCheckRoute node), none),
              (.cmd node (RemoteAddRoute k.getVIP node), some e)], by
            simp [KubeadmRuntime.checkMultiNetworkAddVIPRoute, RuntimeEnv.traced, recorded,
              recordedE, errorOf, h1, h2, h3, hres, cmdAsyncCalls]⟩
        | ok out =>
          exact ⟨[(.getHostSSHClient node, none),
              (.cmdToString node (RemoteCheckRoute node), none),
              (.cmd node (RemoteAddRoute k.getVIP node), none)], by
            simp [KubeadmRuntime.checkMultiNetworkAddVIPRoute, RuntimeEnv.traced, recorded,
              recordedE, errorOf, h1, h2, h3, hres, cmdAsyncCalls]⟩

/-- Rendering the join configuration, journaled: same result and same runtime
as the plain one, one probe of the cgroup driver, no `CmdAsync`. -/
theorem KubeadmRuntime.joinNodeConfig_traced (env : RuntimeEnv κ σ)
    (node : String) (k : KubeadmRuntime κ) (w : σ) (tr0 : RuntimeJournal) :
    ∃ tr : RuntimeJournal,
      KubeadmRuntime.joinNodeConfig env.traced node (k, (w, tr0))
        = ((KubeadmRuntime.joinNodeConfig env node (k, w)).1,
           ((KubeadmRuntime.joinNodeConfig env node (k, w)).2.1,
            ((KubeadmRuntime.joinNodeConfig env node (k, w)).2.2, tr0 ++ tr))) ∧
      cmdAsyncCalls tr = [] := by
  rcases h1 : env.getCgroupDriverFromShell (k.setAPIServerEndpoint (k.getVIP ++ ":6443")) node w
    with ⟨r1, w1⟩
  cases r1 with
  | error e =>
    exact ⟨[(.getCgroupDriverFromShell node, some e)], by
      simp [KubeadmRuntime.joinNodeConfig, RuntimeEnv.traced, recordedE, errorOf, h1,
        cmdAsyncCalls]⟩
  | ok cg =>
    exact ⟨[(.getCgroupDriverFromShell node, none)], by
      simp [KubeadmRuntime.joinNodeConfig, RuntimeEnv.traced, recordedE, errorOf, h1,
        cmdAsyncCalls]⟩

/-- Rendering the join configuration rewrites only the API-server endpoint and
the cgroup driver of the runtime. -/
theorem KubeadmRuntime.joinNodeConfig_frame (env : RuntimeEnv κ σ)
    (node : String) (k : KubeadmRuntime κ) (w : σ) :
    ∃ endpoint cGroupDriver,
      (KubeadmRuntime.joinNodeConfig env node (k, w)).2.1
        = { k with APIServerEndpoint := endpoint, CgroupDriver := cGroupDriver } := by
  rcases h1 : env.getCgroupDriverFromShell (k.setAPIServerEndpoint (k.getVIP ++ ":6443")) node w
    with ⟨r1, w1⟩
  cases r1 with
  | error e =>
    exact ⟨k.getVIP ++ ":6443", k.CgroupDriver, by
      simp only [KubeadmRuntime.joinNodeConfig, h1]; rfl⟩
  | ok cg =>
    exact ⟨k.getVIP ++ ":6443", cg, by
      simp only [KubeadmRuntime.joinNodeConfig, h1]; rfl⟩

end Join

end Sealer

namespace Sealer

section JoinClaim

variable {κ σ : Type}

/-- A join task rewrites only the API-server endpoint and the cgroup driver of
the runtime; masters, VIP, domain, rootfs and version stay as they were. -/
theorem KubeadmRuntime.joinNodeTask_frame (env : RuntimeEnv κ σ) (ipvsCmd addReg node : String)
    (k : KubeadmRuntime κ) (w : σ) :
    ∃ endpoint cGroupDriver,
      (KubeadmRuntime.joinNodeTask env ipvsCmd addReg node (k, w)).2.1
        = { k with APIServerEndpoint := endpoint, CgroupDriver := cGroupDriver } := by
  obtain ⟨tr, -, hk, -⟩ :=
    KubeadmRuntime.checkMultiNetworkAddVIPRoute_traced env node k w []
  rcases h1 : KubeadmRuntime.checkMultiNetworkAddVIPRoute env node (k, w) with ⟨r1, ⟨k1, w1⟩⟩
  rw [h1] at hk
  simp only at hk
  subst hk
  cases r1 with
  | some e =>
    exact ⟨k1.APIServerEndpoint, k1.CgroupDriver, by
      simp only [KubeadmRuntime.joinNodeTask, h1]⟩
  | none =>
    obtain ⟨endpoint, cg, hframe⟩ := KubeadmRuntime.joinNodeConfig_frame env node k1 w1
    rcases h2 : KubeadmRuntime.joinNodeConfig env node (k1, w1) with ⟨r2, ⟨k2, w2⟩⟩
    rw [h2] at hframe
    simp only at hframe
    refine ⟨endpoint, cg, ?_⟩
    cases r2 with
    | error e =>
      simp only [KubeadmRuntime.joinNodeTask, h1, h2]
      exact hframe
    | ok joinConfig =>
      rcases h3 : env.getHostSSHClient k2 node w2 with ⟨r3, w3⟩
      cases r3 with
      | some e =>
        simp only [KubeadmRuntime.joinNodeTask, h1, h2, h3]
        exact hframe
      | none =>
        rcases h4 : env.CmdAsync node
          (KubeadmRuntime.joinCommands env k2 addReg joinConfig ipvsCmd) w3 with ⟨r4, w4⟩
        cases r4 <;>
          · simp only [KubeadmRuntime.joinNodeTask, h1, h2, h3, h4]
            exact hframe

/-- A join task, journaled: it returns what the plain task returns, and it
hands at most one command sequence to `CmdAsync`: none, or the seven join
commands for its node, built from a runtime that differs from the one the
task started with only in API-server endpoint and cgroup driver. -/
theorem KubeadmRuntime.joinNodeTask_traced (env : RuntimeEnv κ σ) (ipvsCmd addReg node : String)
    (k : KubeadmRuntime κ) (w : σ) (tr0 : RuntimeJournal) :
    ∃ tr : RuntimeJournal,
      KubeadmRuntime.joinNodeTask env.traced ipvsCmd addReg node (k, (w, tr0))
        = ((KubeadmRuntime.joinNodeTask env ipvsCmd addReg node (k, w)).1,
           ((KubeadmRuntime.joinNodeTask env ipvsCmd addReg node (k, w)).2.1,
            ((KubeadmRuntime.joinNodeTask env ipvsCmd addReg node (k, w)).2.2, tr0 ++ tr))) ∧
      (cmdAsyncCalls tr = [] ∨
        ∃ (joinConfig endpoint cGroupDriver : String),
          cmdAsyncCalls tr
            = [(node, KubeadmRuntime.joinCommands env
                { k with APIServerEndpoint := endpoint, CgroupDriver := cGroupDriver }
                addReg joinConfig ipvsCmd)]) := by
  obtain ⟨tr1, ht1, hk1, hc1⟩ :=
    KubeadmRuntime.checkMultiNetworkAddVIPRoute_traced env node k w tr0
  rcases h1 : KubeadmRuntime.checkMultiNetworkAddVIPRoute env node (k, w) with ⟨r1, ⟨k1, w1⟩⟩
  rw [h1] at ht1 hk1
  simp only at hk1 ht1
  subst hk1
  cases r1 with
  | some e =>
    exact ⟨tr1, by simp only [KubeadmRuntime.joinNodeTask, ht1, h1], Or.inl hc1⟩
  | none =>
    obtain ⟨tr2, ht2, hc2⟩ := KubeadmRuntime.joinNodeConfig_traced env node k1 w1 (tr0 ++ tr1)
    obtain ⟨endpoint, cg, hframe⟩ := KubeadmRuntime.joinNodeConfig_frame env node k1 w1
    rcases h2 : KubeadmRuntime.joinNodeConfig env node (k1, w1) with ⟨r2, ⟨k2, w2⟩⟩
    rw [h2] at ht2 hframe
    simp only at ht2 hframe
    cases r2 with
    | error e =>
      refine ⟨tr1 ++ tr2, ?_, Or.inl (by simp [cmdAsyncCalls_append, hc1, hc2])⟩
      simp only [KubeadmRuntime.joinNodeTask, ht1, h1, ht2, h2]
      simp [List.append_assoc]
    | ok joinConfig =>
      have hcmds : KubeadmRuntime.joinCommands env.traced k2 addReg joinConfig ipvsCmd
          = KubeadmRuntime.joinCommands env k2 addReg joinConfig ipvsCmd := rfl
      rcases h3 : env.getHostSSHClient k2 node w2 with ⟨r3, w3⟩
      have e3 : env.traced.getHostSSHClient k2 node (w2, tr0 ++ tr1 ++ tr2)
          = (r3, (w3, tr0 ++ tr1 ++ tr2 ++ [(.getHostSSHClient node, r3)])) := by
        simp [RuntimeEnv.traced, recorded, h3]
      cases r3 with
      | some e =>
        refine ⟨tr1 ++ tr2 ++ [(.getHostSSHClient node, some e)], ?_,
          Or.inl (by simp [cmdAsyncCalls_append, hc1, hc2, cmdAsyncCalls])⟩
        simp only [KubeadmRuntime.joinNodeTask, ht1, h1, ht2, h2, e3, h3]
        simp [List.append_assoc]
      | none =>
        rcases h4 : env.CmdAsync node
          (KubeadmRuntime.joinCommands env k2 addReg joinConfig ipvsCmd) w3 with ⟨r4, w4⟩
        have e4 : env.traced.CmdAsync node
              (KubeadmRuntime.joinCommands env k2 addReg joinConfig ipvsCmd)
              (w3, tr0 ++ tr1 ++ tr2 ++ [(.getHostSSHClient node, none)])
            = (r4, (w4, tr0 ++ tr1 ++ tr2 ++ [(.getHostSSHClient node, none)] ++
                [(.cmdAsync node
                  (KubeadmRuntime.joinCommands env k2 addReg joinConfig ipvsCmd), r4)])) := by
          simp [RuntimeEnv.traced, recorded, h4]
        refine ⟨tr1 ++ tr2 ++ [(.getHostSSHClient node, none),
            (.cmdAsync node (KubeadmRuntime.joinCommands env k2 addReg joinConfig ipvsCmd), r4)],
          ?_, Or.inr ⟨joinConfig, endpoint, cg, ?_⟩⟩
        · cases r4 <;>
            · simp only [KubeadmRuntime.joinNodeTask, ht1, h1, ht2, h2, e3, h3, hcmds, e4, h4]
              simp [List.append_assoc]
        · simp [cmdAsyncCalls_append, hc1, hc2, cmdAsyncCalls, hframe]

end JoinClaim

end Sealer

namespace Sealer
section StepsRun
variable {κ σ : Type}

/-- The steps of the route check, run with nothing in between, are the route check. -/
theorem KubeadmRuntime.checkMultiNetworkAddVIPRouteSteps_run (env : RuntimeEnv κ σ)
    (node : String) :
    (KubeadmRuntime.checkMultiNetworkAddVIPRouteSteps env node).run
      = KubeadmRuntime.checkMultiNetworkAddVIPRoute env node := by
  funext s
  obtain ⟨k, w⟩ := s
  simp only [KubeadmRuntime.checkMultiNetworkAddVIPRouteSteps, KubeadmRuntime.call,
    Routine.bind_eq, Routine.pure_eq, Routine.run_bind, Routine.run_atomic,
    KubeadmRuntime.checkMultiNetworkAddVIPRoute]
  rcases h1 : env.getHostSSHClient k node w with ⟨r1, w1⟩
  cases r1 with
  | some e => simp only [Routine.run_ret]
  | none =>
    simp only [Routine.run_bind, Routine.run_atomic]
    rcases h2 : env.CmdToString node (RemoteCheckRoute node) "" w1 with ⟨r2, w2⟩
    cases r2 with
    | error e => simp only [Routine.run_ret]
    | ok result =>
      simp only
      split
      · simp only [Routine.run_ret]
      · simp only [Routine.run_bind, Routine.run_atomic]
        rcases h3 : env.Cmd node (RemoteAddRoute k.getVIP node) w2 with ⟨r3, w3⟩
        cases r3 <;> simp only [Routine.run_ret]

/-- The steps of `joinNodeConfig`, run with nothing in between, are `joinNodeConfig`. -/
theorem KubeadmRuntime.joinNodeConfigSteps_run (env : RuntimeEnv κ σ) (nodeIP : String) :
    (KubeadmRuntime.joinNodeConfigSteps env nodeIP).run
      = KubeadmRuntime.joinNodeConfig env nodeIP := by
  funext s
  obtain ⟨k, w⟩ := s
  simp only [KubeadmRuntime.joinNodeConfigSteps, KubeadmRuntime.call, KubeadmRuntime.store,
    KubeadmRuntime.load, Routine.bind_eq, Routine.pure_eq, Routine.run_bind, Routine.run_atomic,
    KubeadmRuntime.joinNodeConfig]
  rcases h1 : env.getCgroupDriverFromShell (k.setAPIServerEndpoint (k.getVIP ++ ":6443")) nodeIP w
    with ⟨r1, w1⟩
  cases r1 with
  | error e => simp only [Routine.run_ret]
  | ok cg => simp only [Routine.run_bind, Routine.run_atomic]

/-- The steps of a join task, run with nothing in between, are the join task. -/
theorem KubeadmRuntime.joinNodeTaskSteps_run (env : RuntimeEnv κ σ)
    (ipvsCmd addReg node : String) :
    (KubeadmRuntime.joinNodeTaskSteps env ipvsCmd addReg node).run
      = KubeadmRuntime.joinNodeTask env ipvsCmd addReg node := by
  funext s
  simp only [KubeadmRuntime.joinNodeTaskSteps, Routine.bind_eq, Routine.pure_eq,
    Routine.run_bind, KubeadmRuntime.checkMultiNetworkAddVIPRouteSteps_run,
    KubeadmRuntime.joinNodeConfigSteps_run, KubeadmRuntime.joinNodeTask]
  rcases h1 : KubeadmRuntime.checkMultiNetworkAddVIPRoute env node s with ⟨r1, s1⟩
  cases r1 with
  | some e => simp only [Routine.run_ret]
  | none =>
    simp only [Routine.run_bind, KubeadmRuntime.joinNodeConfigSteps_run]
    rcases h2 : KubeadmRuntime.joinNodeConfig env node s1 with ⟨r2, ⟨k2, w2⟩⟩
    cases r2 with
    | error e => simp only [Routine.run_ret]
    | ok joinConfig =>
      simp only [KubeadmRuntime.load, KubeadmRuntime.call, Routine.run_bind, Routine.run_atomic,
        KubeadmRuntime.joinCommands]
      rcases h3 : env.getHostSSHClient k2 node w2 with ⟨r3, w3⟩
      cases r3 with
      | some e => simp only [Routine.run_ret]
      | none =>
        simp only [Routine.run_bind, Routine.run_atomic]
        rcases h4 : env.CmdAsync node
          [addReg, RemoteJoinConfig joinConfig k2.getRootfs,
            RemoteAddIPVSEtcHosts k2.getVIP k2.getAPIServerDomain, ipvsCmd,
            env.CommandJoinNode k2 k2.getKubeVersion, RemoteStaticPodMkdir,
            LvscareStaticPodCmd (env.LvsStaticPodYaml k2.getVIP k2.GetMasterIPList "")
              LvscareDefaultStaticPodFileName] w3 with ⟨r4, w4⟩
        cases r4 <;> simp only [Routine.run_ret]

end StepsRun
end Sealer

namespace Sealer

/-! ## Rely/guarantee for the join goroutines -/

section JoinRules

variable {κ σ : Type}

theorem KubeadmRuntime.SameButJoinFields.same_refl (k : KubeadmRuntime κ) :
    KubeadmRuntime.SameButJoinFields k k :=
  ⟨k.APIServerEndpoint, k.CgroupDriver, rfl⟩

theorem KubeadmRuntime.SameButJoinFields.same_trans {k k2 k3 : KubeadmRuntime κ}
    (h1 : KubeadmRuntime.SameButJoinFields k k2) (h2 : KubeadmRuntime.SameButJoinFields k2 k3) :
    KubeadmRuntime.SameButJoinFields k k3 := by
  obtain ⟨e1, c1, rfl⟩ := h1
  obtain ⟨e2, c2, rfl⟩ := h2
  exact ⟨e2, c2, rfl⟩

theorem KubeadmRuntime.IsJoinCommands.of_same {env : RuntimeEnv κ σ} {k k2 : KubeadmRuntime κ}
    {addReg ipvsCmd : String} {cmds : List String}
    (h : KubeadmRuntime.SameButJoinFields k k2)
    (hc : KubeadmRuntime.IsJoinCommands env k2 addReg ipvsCmd cmds) :
    KubeadmRuntime.IsJoinCommands env k addReg ipvsCmd cmds := by
  obtain ⟨e1, c1, rfl⟩ := h
  obtain ⟨joinConfig, e2, c2, rfl⟩ := hc
  exact ⟨joinConfig, e2, c2, rfl⟩

theorem KubeadmRuntime.IsJoinCommands.to_same {env : RuntimeEnv κ σ} {k k2 : KubeadmRuntime κ}
    {addReg ipvsCmd : String} {cmds : List String}
    (h : KubeadmRuntime.SameButJoinFields k k2)
    (hc : KubeadmRuntime.IsJoinCommands env k addReg ipvsCmd cmds) :
    KubeadmRuntime.IsJoinCommands env k2 addReg ipvsCmd cmds := by
  obtain ⟨e1, c1, rfl⟩ := h
  obtain ⟨joinConfig, e2, c2, rfl⟩ := hc
  exact ⟨joinConfig, e2, c2, rfl⟩

theorem KubeadmRuntime.JoinRely.rely_refl (env : RuntimeEnv κ σ) (nodes : List String)
    (addReg ipvsCmd : String) (s : KubeadmRuntime κ × (σ × RuntimeJournal)) :
    KubeadmRuntime.JoinRely env nodes addReg ipvsCmd s s :=
  ⟨KubeadmRuntime.SameButJoinFields.same_refl s.1, [], by simp, by simp⟩

theorem KubeadmRuntime.JoinRely.rely_trans (env : RuntimeEnv κ σ) (nodes : List String)
    (addReg ipvsCmd : String) (a b c : KubeadmRuntime κ × (σ × RuntimeJournal))
    (h1 : KubeadmRuntime.JoinRely env nodes addReg ipvsCmd a b)
    (h2 : KubeadmRuntime.JoinRely env nodes addReg ipvsCmd b c) :
    KubeadmRuntime.JoinRely env nodes addReg ipvsCmd a c := by
  obtain ⟨hf1, tr1, hj1, hc1⟩ := h1
  obtain ⟨hf2, tr2, hj2, hc2⟩ := h2
  refine ⟨hf1.same_trans hf2, tr1 ++ tr2, by rw [hj2, hj1, List.append_assoc], ?_⟩
  intro host cmds r hmem
  rcases List.mem_append.mp hmem with hmem | hmem
  · exact hc1 host cmds r hmem
  · exact ⟨(hc2 host cmds r hmem).1, (hc2 host cmds r hmem).2.of_same hf1⟩

/-- What is in the journal stays in the journal. -/
theorem KubeadmRuntime.JoinRely.mem {env : RuntimeEnv κ σ} {nodes : List String}
    {addReg ipvsCmd : String} {a b : KubeadmRuntime κ × (σ × RuntimeJournal)}
    (h : KubeadmRuntime.JoinRely env nodes addReg ipvsCmd a b)
    {x : RuntimeCall × Option String} (hx : x ∈ a.2.2) : x ∈ b.2.2 := by
  obtain ⟨-, tr, hj, -⟩ := h
  rw [hj]
  exact List.mem_append_left _ hx

/-- The rule for a statement that calls out of the file and is journaled as the
call `c` with the error `err` of its result; a `CmdAsync` call has to hand the
join commands to a target node. -/
theorem KubeadmRuntime.JoinRely.call_bind {α : Type} {env : RuntimeEnv κ σ}
    {nodes : List String} {addReg ipvsCmd : String}
    {Q : Option String → KubeadmRuntime κ × (σ × RuntimeJournal) → Prop}
    (c : KubeadmRuntime κ → RuntimeCall) (err : α → Option String)
    {f : KubeadmRuntime κ → σ × RuntimeJournal → α × (σ × RuntimeJournal)}
    {g : α → Routine (KubeadmRuntime κ × (σ × RuntimeJournal)) (Option String)}
    {s : KubeadmRuntime κ × (σ × RuntimeJournal)}
    (hf : ∀ k w, (f k w).2.2 = w.2 ++ [(c k, err (f k w).1)])
    (hc : ∀ s1, KubeadmRuntime.JoinRely env nodes addReg ipvsCmd s s1 →
      ∀ host cmds, c s1.1 = .cmdAsync host cmds →
        host ∈ nodes ∧ KubeadmRuntime.IsJoinCommands env s1.1 addReg ipvsCmd cmds)
    (hg : ∀ a s2, KubeadmRuntime.JoinRely env nodes addReg ipvsCmd s s2 →
      (c s2.1, err a) ∈ s2.2.2 →
      Routine.Runs (KubeadmRuntime.JoinRely env nodes addReg ipvsCmd) Q (g a) s2) :
    Routine.Runs (KubeadmRuntime.JoinRely env nodes addReg ipvsCmd) Q
      ((KubeadmRuntime.call f).bind g) s := by
  refine Routine.Runs.atomic_bind_rule ?_
  intro s1 h1
  have hstep : KubeadmRuntime.JoinRely env nodes addReg ipvsCmd s1
      (s1.1, (f s1.1 s1.2).2) := by
    refine ⟨KubeadmRuntime.SameButJoinFields.same_refl s1.1,
      [(c s1.1, err (f s1.1 s1.2).1)], ?_, ?_⟩
    · exact hf s1.1 s1.2
    · intro host cmds r hmem
      simp only [List.mem_singleton, Prod.mk.injEq] at hmem
      exact hc s1 h1 host cmds hmem.1.symm
  refine ⟨hstep, ?_⟩
  apply hg _ _ (KubeadmRuntime.JoinRely.rely_trans env nodes addReg ipvsCmd _ _ _ h1 hstep)
  show (c s1.1, err (f s1.1 s1.2).1) ∈ (f s1.1 s1.2).2.2
  rw [hf]
  simp

/-- The rule for a statement that reads the shared runtime. -/
theorem KubeadmRuntime.JoinRely.load_bind {α : Type} {env : RuntimeEnv κ σ}
    {nodes : List String} {addReg ipvsCmd : String}
    {Q : Option String → KubeadmRuntime κ × (σ × RuntimeJournal) → Prop}
    {f : KubeadmRuntime κ → α}
    {g : α → Routine (KubeadmRuntime κ × (σ × RuntimeJournal)) (Option String)}
    {s : KubeadmRuntime κ × (σ × RuntimeJournal)}
    (hg : ∀ s1, KubeadmRuntime.JoinRely env nodes addReg ipvsCmd s s1 →
      Routine.Runs (KubeadmRuntime.JoinRely env nodes addReg ipvsCmd) Q (g (f s1.1)) s1) :
    Routine.Runs (KubeadmRuntime.JoinRely env nodes addReg ipvsCmd) Q
      ((KubeadmRuntime.load f).bind g) s := by
  refine Routine.Runs.atomic_bind_rule ?_
  intro s1 h1
  exact ⟨KubeadmRuntime.JoinRely.rely_refl env nodes addReg ipvsCmd s1, hg s1 h1⟩

/-- The rule for a statement that writes API-server endpoint or cgroup driver. -/
theorem KubeadmRuntime.JoinRely.store_bind {env : RuntimeEnv κ σ}
    {nodes : List String} {addReg ipvsCmd : String}
    {Q : Option String → KubeadmRuntime κ × (σ × RuntimeJournal) → Prop}
    {f : KubeadmRuntime κ → KubeadmRuntime κ}
    {g : Unit → Routine (KubeadmRuntime κ × (σ × RuntimeJournal)) (Option String)}
    {s : KubeadmRuntime κ × (σ × RuntimeJournal)}
    (hf : ∀ k, KubeadmRuntime.SameButJoinFields k (f k))
    (hg : ∀ s2, KubeadmRuntime.JoinRely env nodes addReg ipvsCmd s s2 →
      Routine.Runs (KubeadmRuntime.JoinRely env nodes addReg ipvsCmd) Q (g ()) s2) :
    Routine.Runs (KubeadmRuntime.JoinRely env nodes addReg ipvsCmd) Q
      ((KubeadmRuntime.store f).bind g) s := by
  refine Routine.Runs.atomic_bind_rule ?_
  intro s1 h1
  have hstep : KubeadmRuntime.JoinRely env nodes addReg ipvsCmd s1 (f s1.1, s1.2) :=
    ⟨hf s1.1, [], by simp, by simp⟩
  exact ⟨hstep, hg _ (KubeadmRuntime.JoinRely.rely_trans env nodes addReg ipvsCmd _ _ _ h1 hstep)⟩

end JoinRules

end Sealer

namespace Sealer

section JoinRuns

variable {κ σ : Type}

theorem KubeadmRuntime.SameButJoinFields.fields {k k2 : KubeadmRuntime κ}
    (h : KubeadmRuntime.SameButJoinFields k k2) :
    k2.getVIP = k.VIP ∧ k2.getRootfs = k.Rootfs ∧ k2.getAPIServerDomain = k.APIServerDomain ∧
    k2.getKubeVersion = k.KubeVersion ∧ k2.GetMasterIPList = k.MasterIPList := by
  obtain ⟨e, c, rfl⟩ := h
  exact ⟨rfl, rfl, rfl, rfl, rfl⟩

/-- The route check of a join goroutine, interleaved: whatever follows it
starts after the request for the SSH client of the node, and an error of the
route check is the error of one of its three calls, which is in the journal. -/
theorem KubeadmRuntime.checkMultiNetworkAddVIPRouteSteps_runs (env : RuntimeEnv κ σ)
    (nodes : List String) (addReg ipvsCmd node : String) (k0 : KubeadmRuntime κ)
    {Q : Option String → KubeadmRuntime κ × (σ × RuntimeJournal) → Prop}
    {g : Option String → Routine (KubeadmRuntime κ × (σ × RuntimeJournal)) (Option String)}
    {s : KubeadmRuntime κ × (σ × RuntimeJournal)}
    (hs : KubeadmRuntime.SameButJoinFields k0 s.1)
    (hg : ∀ r s2, KubeadmRuntime.JoinRely env nodes addReg ipvsCmd s s2 →
      (∃ r0, (RuntimeCall.getHostSSHClient node, r0) ∈ s2.2.2) →
      (∀ e, r = some e →
        (RuntimeCall.getHostSSHClient node, some e) ∈ s2.2.2 ∨
        (RuntimeCall.cmdToString node (RemoteCheckRoute node), some e) ∈ s2.2.2 ∨
        (RuntimeCall.cmd node (RemoteAddRoute k0.VIP node), some e) ∈ s2.2.2) →
      Routine.Runs (KubeadmRuntime.JoinRely env nodes addReg ipvsCmd) Q (g r) s2) :
    Routine.Runs (KubeadmRuntime.JoinRely env nodes addReg ipvsCmd) Q
      ((KubeadmRuntime.checkMultiNetworkAddVIPRouteSteps env.traced node).bind g) s := by
  simp only [KubeadmRuntime.checkMultiNetworkAddVIPRouteSteps, Routine.bind_eq, Routine.pure_eq,
    Routine.bind_assoc]
  refine KubeadmRuntime.JoinRely.call_bind (fun _ => .getHostSSHClient node) id
    (fun k w => rfl) (fun _ _ _ _ h => by cases h) ?_
  intro r1 s1 h1 m1
  cases r1 with
  | some e =>
    exact hg (some e) s1 h1 ⟨_, m1⟩ (fun e' he' => Or.inl (by
      simp only [Option.some.injEq] at he'
      subst he'
      exact m1))
  | none =>
    simp only [Routine.bind_assoc]
    refine KubeadmRuntime.JoinRely.call_bind
      (fun _ => .cmdToString node (RemoteCheckRoute node)) errorOf
      (fun k w => rfl) (fun _ _ _ _ h => by cases h) ?_
    intro r2 s2 h2 m2
    have h12 := KubeadmRuntime.JoinRely.rely_trans env nodes addReg ipvsCmd _ _ _ h1 h2
    cases r2 with
    | error e =>
      exact hg (some e) s2 h12 ⟨_, h2.mem m1⟩ (fun e' he' => Or.inr (Or.inl (by
        simp only [Option.some.injEq] at he'
        subst he'
        exact m2)))
    | ok result =>
      by_cases hres : result = RouteOK
      · simp only [hres, if_true, Routine.ret_bind]
        exact hg none s2 h12 ⟨_, h2.mem m1⟩ (fun e' he' => by cases he')
      · simp only [hres, if_false, Routine.bind_assoc]
        refine KubeadmRuntime.JoinRely.call_bind
          (fun k => .cmd node (RemoteAddRoute k.getVIP node)) errorOf
          (fun k w => rfl) (fun _ _ _ _ h => by cases h) ?_
        intro r3 s3 h3 m3
        have h13 := KubeadmRuntime.JoinRely.rely_trans env nodes addReg ipvsCmd _ _ _ h12 h3
        have hvip : s3.1.getVIP = k0.VIP := (hs.same_trans h13.1).fields.1
        simp only [hvip] at m3
        cases r3 with
        | error e =>
          exact hg (some e) s3 h13 ⟨_, h3.mem (h2.mem m1)⟩ (fun e' he' => Or.inr (Or.inr (by
            simp only [Option.some.injEq] at he'
            subst he'
            exact m3)))
        | ok out =>
          exact hg none s3 h13 ⟨_, h3.mem (h2.mem m1)⟩ (fun e' he' => by cases he')

/-- The rendering of the join configuration inside a join goroutine,
interleaved: an error is the error of the cgroup-driver probe, which is in
the journal, or of the rendering. -/
theorem KubeadmRuntime.joinNodeConfigSteps_runs (env : RuntimeEnv κ σ)
    (nodes : List String) (addReg ipvsCmd node : String)
    {Q : Option String → KubeadmRuntime κ × (σ × RuntimeJournal) → Prop}
    {g : Except String String →
      Routine (KubeadmRuntime κ × (σ × RuntimeJournal)) (Option String)}
    {s : KubeadmRuntime κ × (σ × RuntimeJournal)}
    (hg : ∀ r s2, KubeadmRuntime.JoinRely env nodes addReg ipvsCmd s s2 →
      (∀ e, r = .error e →
        (RuntimeCall.getCgroupDriverFromShell node, some e) ∈ s2.2.2 ∨
        ∃ k2, env.MarshalYamlConfigs k2 = .error e) →
      Routine.Runs (KubeadmRuntime.JoinRely env nodes addReg ipvsCmd) Q (g r) s2) :
    Routine.Runs (KubeadmRuntime.JoinRely env nodes addReg ipvsCmd) Q
      ((KubeadmRuntime.joinNodeConfigSteps env.traced node).bind g) s := by
  simp only [KubeadmRuntime.joinNodeConfigSteps, Routine.bind_eq, Routine.pure_eq,
    Routine.bind_assoc]
  refine KubeadmRuntime.JoinRely.store_bind (fun k => ⟨_, _, rfl⟩) ?_
  intro s1 h1
  refine KubeadmRuntime.JoinRely.call_bind (fun _ => .getCgroupDriverFromShell node) errorOf
    (fun k w => rfl) (fun _ _ _ _ h => by cases h) ?_
  intro r2 s2 h2 m2
  have h12 := KubeadmRuntime.JoinRely.rely_trans env nodes addReg ipvsCmd _ _ _ h1 h2
  cases r2 with
  | error e =>
    exact hg (.error e) s2 h12 (fun e' he' => Or.inl (by
      simp only [Except.error.injEq] at he'
      subst he'
      exact m2))
  | ok cGroupDriver =>
    simp only [Routine.bind_assoc]
    refine KubeadmRuntime.JoinRely.store_bind (fun k => ⟨_, _, rfl⟩) ?_
    intro s3 h3
    have h13 := KubeadmRuntime.JoinRely.rely_trans env nodes addReg ipvsCmd _ _ _ h12 h3
    refine KubeadmRuntime.JoinRely.load_bind ?_
    intro s4 h4
    exact hg _ s4 (KubeadmRuntime.JoinRely.rely_trans env nodes addReg ipvsCmd _ _ _ h13 h4)
      (fun e' he' => Or.inr ⟨s4.1, he'⟩)

end JoinRuns

end Sealer

namespace Sealer

section JoinRunsTask

variable {κ σ : Type}

/-- The join goroutine of a target node, journaled and interleaved with the
join goroutines of the other nodes: each of its steps keeps the rely, and it
returns with `JoinTaskOutcome`. -/
theorem KubeadmRuntime.joinNodeTaskSteps_runs (env : RuntimeEnv κ σ) (nodes : List String)
    (addReg ipvsCmd node : String) (hnode : node ∈ nodes) (k0 : KubeadmRuntime κ)
    (s : KubeadmRuntime κ × (σ × RuntimeJournal))
    (hs : KubeadmRuntime.SameButJoinFields k0 s.1) :
    Routine.Runs (KubeadmRuntime.JoinRely env nodes addReg ipvsCmd)
      (fun r s2 => KubeadmRuntime.JoinTaskOutcome env k0 addReg ipvsCmd node r s2.2.2)
      (KubeadmRuntime.joinNodeTaskSteps env.traced ipvsCmd addReg node) s := by
  simp only [KubeadmRuntime.joinNodeTaskSteps, Routine.bind_eq, Routine.pure_eq]
  refine KubeadmRuntime.checkMultiNetworkAddVIPRouteSteps_runs env nodes addReg ipvsCmd node k0
    hs ?_
  intro r1 s1 h1 hstart hfail
  cases r1 with
  | some e =>
    refine Routine.Runs.ret_rule ?_
    intro s' h'
    obtain ⟨r0, hr0⟩ := hstart
    refine ⟨⟨r0, h'.mem hr0⟩, Or.inr (Or.inl ⟨e, ?_, rfl⟩)⟩
    rcases hfail e rfl with h | h | h
    · exact Or.inl (h'.mem h)
    · exact Or.inr (Or.inl (h'.mem h))
    · exact Or.inr (Or.inr (h'.mem h))
  | none =>
    simp only
    refine KubeadmRuntime.joinNodeConfigSteps_runs env nodes addReg ipvsCmd node ?_
    intro r2 s2 h2 hconf
    have h02 := KubeadmRuntime.JoinRely.rely_trans env nodes addReg ipvsCmd _ _ _ h1 h2
    cases r2 with
    | error e =>
      refine Routine.Runs.ret_rule ?_
      intro s' h'
      obtain ⟨r0, hr0⟩ := hstart
      refine ⟨⟨r0, h'.mem (h2.mem hr0)⟩, Or.inr (Or.inr ⟨e, ?_, rfl⟩)⟩
      rcases hconf e rfl with h | h
      · exact Or.inl (h'.mem h)
      · exact Or.inr (Or.inl h)
    | ok joinConfig =>
      simp only
      refine KubeadmRuntime.JoinRely.load_bind ?_
      intro s3 h3
      have h03 := KubeadmRuntime.JoinRely.rely_trans env nodes addReg ipvsCmd _ _ _ h02 h3
      refine KubeadmRuntime.JoinRely.load_bind ?_
      intro s4 h4
      have h04 := KubeadmRuntime.JoinRely.rely_trans env nodes addReg ipvsCmd _ _ _ h03 h4
      refine KubeadmRuntime.JoinRely.load_bind ?_
      intro s5 h5
      have h05 := KubeadmRuntime.JoinRely.rely_trans env nodes addReg ipvsCmd _ _ _ h04 h5
      refine KubeadmRuntime.JoinRely.load_bind ?_
      intro s6 h6
      have h06 := KubeadmRuntime.JoinRely.rely_trans env nodes addReg ipvsCmd _ _ _ h05 h6
      have hcmds : KubeadmRuntime.IsJoinCommands env k0 addReg ipvsCmd
          [addReg, RemoteJoinConfig joinConfig s3.1.getRootfs,
            RemoteAddIPVSEtcHosts s4.1.getVIP s4.1.getAPIServerDomain, ipvsCmd,
            env.CommandJoinNode s5.1 s5.1.getKubeVersion, RemoteStaticPodMkdir,
            LvscareStaticPodCmd (env.LvsStaticPodYaml s6.1.getVIP s6.1.GetMasterIPList "")
              LvscareDefaultStaticPodFileName] := by
        obtain ⟨-, hroot, -, -, -⟩ := (hs.same_trans h03.1).fields
        obtain ⟨hvip4, -, hdom4, -, -⟩ := (hs.same_trans h04.1).fields
        obtain ⟨hvip6, -, -, -, hm6⟩ := (hs.same_trans h06.1).fields
        obtain ⟨e5, c5, hk5⟩ := hs.same_trans h05.1
        refine ⟨joinConfig, e5, c5, ?_⟩
        rw [hroot, hvip4, hdom4, hvip6, hm6, hk5]
        rfl
      refine KubeadmRuntime.JoinRely.call_bind (fun _ => .getHostSSHClient node) id
        (fun k w => rfl) (fun _ _ _ _ h => by cases h) ?_
      intro r7 s7 h7 m7
      have h07 := KubeadmRuntime.JoinRely.rely_trans env nodes addReg ipvsCmd _ _ _ h06 h7
      cases r7 with
      | some e =>
        refine Routine.Runs.ret_rule ?_
        intro s' h'
        exact ⟨⟨_, h'.mem m7⟩, Or.inr (Or.inr ⟨e, Or.inr (Or.inr (h'.mem m7)), rfl⟩)⟩
      | none =>
        simp only
        refine KubeadmRuntime.JoinRely.call_bind (fun _ => .cmdAsync node _) id
          (fun k w => rfl) ?_ ?_
        · intro s8 h8 host cmds hc
          simp only [RuntimeCall.cmdAsync.injEq] at hc
          obtain ⟨rfl, rfl⟩ := hc
          exact ⟨hnode, hcmds.to_same
            (hs.same_trans (KubeadmRuntime.JoinRely.rely_trans env nodes addReg ipvsCmd _ _ _ h07 h8).1)⟩
        · intro r8 s8 h8 m8
          cases r8 with
          | some e =>
            refine Routine.Runs.ret_rule ?_
            intro s' h'
            exact ⟨⟨_, h'.mem (h8.mem m7)⟩, Or.inl ⟨_, some e, h'.mem m8, hcmds, rfl⟩⟩
          | none =>
            refine Routine.Runs.ret_rule ?_
            intro s' h'
            exact ⟨⟨_, h'.mem (h8.mem m7)⟩, Or.inl ⟨_, none, h'.mem m8, hcmds, rfl⟩⟩

end JoinRunsTask

end Sealer

namespace Sealer

/-! ## The journal does not change what the goroutines do -/

section JoinErase

variable {κ σ : Type}

/-- Forgetting the journal. -/
theorem KubeadmRuntime.sim_call {α : Type}
    {f : KubeadmRuntime κ → σ → α × σ}
    {f2 : KubeadmRuntime κ → σ × RuntimeJournal → α × (σ × RuntimeJournal)}
    (h : ∀ k w, (f2 k w).1 = (f k w.1).1 ∧ (f2 k w).2.1 = (f k w.1).2) :
    Routine.Sim (fun s : KubeadmRuntime κ × (σ × RuntimeJournal) => (s.1, s.2.1))
      (KubeadmRuntime.call f) (KubeadmRuntime.call f2) := by
  refine Routine.Sim.atomic_sim ?_
  intro s
  exact ⟨(h s.1 s.2).1, by simp only [(h s.1 s.2).2]⟩

theorem KubeadmRuntime.sim_load {α : Type} (f : KubeadmRuntime κ → α) :
    Routine.Sim (fun s : KubeadmRuntime κ × (σ × RuntimeJournal) => (s.1, s.2.1))
      (KubeadmRuntime.load f) (KubeadmRuntime.load f) :=
  Routine.Sim.atomic_sim (fun _ => ⟨rfl, rfl⟩)

theorem KubeadmRuntime.sim_store (f : KubeadmRuntime κ → KubeadmRuntime κ) :
    Routine.Sim (fun s : KubeadmRuntime κ × (σ × RuntimeJournal) => (s.1, s.2.1))
      (KubeadmRuntime.store f) (KubeadmRuntime.store f) :=
  Routine.Sim.atomic_sim (fun _ => ⟨rfl, rfl⟩)

/-- The journaled join goroutine does, up to the journal, what the plain one does. -/
theorem KubeadmRuntime.joinNodeTaskSteps_sim (env : RuntimeEnv κ σ)
    (ipvsCmd addReg node : String) :
    Routine.Sim (fun s : KubeadmRuntime κ × (σ × RuntimeJournal) => (s.1, s.2.1))
      (KubeadmRuntime.joinNodeTaskSteps env ipvsCmd addReg node)
      (KubeadmRuntime.joinNodeTaskSteps env.traced ipvsCmd addReg node) := by
  simp only [KubeadmRuntime.joinNodeTaskSteps, KubeadmRuntime.checkMultiNetworkAddVIPRouteSteps,
    KubeadmRuntime.joinNodeConfigSteps, Routine.bind_eq, Routine.pure_eq]
  refine Routine.Sim.bind_sim (fun r1 => ?_)
    (Routine.Sim.bind_sim (fun a => ?_) (KubeadmRuntime.sim_call (fun k w => ⟨rfl, rfl⟩)))
  · cases r1 with
    | some e => exact Routine.Sim.ret_sim _
    | none =>
      refine Routine.Sim.bind_sim (fun r2 => ?_)
        (Routine.Sim.bind_sim (fun _ =>
          Routine.Sim.bind_sim (fun a => ?_) (KubeadmRuntime.sim_call (fun k w => ⟨rfl, rfl⟩)))
          (KubeadmRuntime.sim_store _))
      · cases r2 with
        | error e => exact Routine.Sim.ret_sim _
        | ok joinConfig =>
          refine Routine.Sim.bind_sim (fun _ => Routine.Sim.bind_sim (fun _ =>
            Routine.Sim.bind_sim (fun _ => Routine.Sim.bind_sim (fun _ =>
              Routine.Sim.bind_sim (fun r3 => ?_) (KubeadmRuntime.sim_call (fun k w => ⟨rfl, rfl⟩)))
              (KubeadmRuntime.sim_load _)) (KubeadmRuntime.sim_load _))
            (KubeadmRuntime.sim_load _)) (KubeadmRuntime.sim_load _)
          cases r3 with
          | some e => exact Routine.Sim.ret_sim _
          | none =>
            refine Routine.Sim.bind_sim (fun r4 => ?_)
              (KubeadmRuntime.sim_call (fun k w => ⟨rfl, rfl⟩))
            cases r4 <;> exact Routine.Sim.ret_sim _
      · cases a with
        | error e => exact Routine.Sim.ret_sim _
        | ok cg =>
          exact Routine.Sim.bind_sim (fun _ => KubeadmRuntime.sim_load _)
            (KubeadmRuntime.sim_store _)
  · cases a with
    | some e => exact Routine.Sim.ret_sim _
    | none =>
      refine Routine.Sim.bind_sim (fun r2 => ?_) (KubeadmRuntime.sim_call (fun k w => ⟨rfl, rfl⟩))
      cases r2 with
      | error e => exact Routine.Sim.ret_sim _
      | ok result =>
        by_cases hres : result = RouteOK
        · simp only [hres, if_true]
          exact Routine.Sim.ret_sim _
        · simp only [hres, if_false]
          refine Routine.Sim.bind_sim (fun r3 => ?_)
            (KubeadmRuntime.sim_call (fun k w => ⟨rfl, rfl⟩))
          cases r3 <;> exact Routine.Sim.ret_sim _

end JoinErase

end Sealer

namespace Sealer

/-! ## The group of join goroutines -/

section JoinGroup

variable {κ σ : Type}

theorem mem_cmdAsyncCalls {host : String} {cmds : List String} {j : RuntimeJournal} :
    (host, cmds) ∈ cmdAsyncCalls j ↔ ∃ r, (RuntimeCall.cmdAsync host cmds, r) ∈ j := by
  induction j with
  | nil => simp [cmdAsyncCalls]
  | cons a j ih =>
    rcases a with ⟨c, r⟩
    cases c with
    | cmdAsync h2 c2 =>
      simp only [cmdAsyncCalls, List.mem_cons, Prod.mk.injEq, RuntimeCall.cmdAsync.injEq, ih]
      constructor
      · rintro (⟨rfl, rfl⟩ | ⟨r2, h⟩)
        · exact ⟨r, Or.inl ⟨⟨rfl, rfl⟩, rfl⟩⟩
        · exact ⟨r2, Or.inr h⟩
      · rintro ⟨r2, (⟨⟨rfl, rfl⟩, -⟩ | h)⟩
        · exact Or.inl ⟨rfl, rfl⟩
        · exact Or.inr ⟨r2, h⟩
    | _ => simp [cmdAsyncCalls, ih]

/-- The group of journaled join goroutines, under any schedule: the shared
state it leaves is reached along `JoinRely` (the runtime changed in API-server
endpoint and cgroup driver only, every command sequence added to the journal
goes to a target node and consists of the seven join commands), and every
goroutine has returned with `JoinTaskOutcome`. -/
theorem KubeadmRuntime.joinGroup_sound (env : RuntimeEnv κ σ) (sched : List Nat)
    (ipvsCmd addReg : String) (nodes : List String)
    (s : KubeadmRuntime κ × (σ × RuntimeJournal)) :
    KubeadmRuntime.JoinRely env nodes addReg ipvsCmd s
      (observeGroup sched
        (nodes.map (KubeadmRuntime.joinNodeTaskSteps env.traced ipvsCmd addReg)) s).2.1 ∧
    ∀ rec ∈ (observeGroup sched
        (nodes.map (KubeadmRuntime.joinNodeTaskSteps env.traced ipvsCmd addReg)) s).2.2,
      ∃ node, nodes[rec.1]? = some node ∧
        KubeadmRuntime.JoinTaskOutcome env s.1 addReg ipvsCmd node rec.2
          (observeGroup sched
            (nodes.map (KubeadmRuntime.joinNodeTaskSteps env.traced ipvsCmd addReg)) s).2.1.2.2 := by
  refine observeGroup_sound
    (Q := fun i r s2 => ∃ node, nodes[i]? = some node ∧
      KubeadmRuntime.JoinTaskOutcome env s.1 addReg ipvsCmd node r s2.2.2)
    (KubeadmRuntime.JoinRely.rely_refl env nodes addReg ipvsCmd)
    (KubeadmRuntime.JoinRely.rely_trans env nodes addReg ipvsCmd) sched _ s ?_
  intro i p hp
  rw [List.getElem?_map] at hp
  cases hnode : nodes[i]? with
  | none => rw [hnode] at hp; simp at hp
  | some node =>
    rw [hnode] at hp
    simp only [Option.map_some', Option.some.injEq] at hp
    subst hp
    have hmem : node ∈ nodes := by
      obtain ⟨hi, hget⟩ := List.getElem?_eq_some_iff.mp hnode
      exact hget ▸ List.getElem_mem hi
    exact (KubeadmRuntime.joinNodeTaskSteps_runs env nodes addReg ipvsCmd node hmem s.1 s
      (KubeadmRuntime.SameButJoinFields.same_refl s.1)).conseq (fun r s2 h => ⟨node, hnode, h⟩)

/-- Under any schedule, the journal of the group of join goroutines shows for
every target node that the goroutine of the node has run to its end. -/
theorem KubeadmRuntime.joinGroup_outcome (env : RuntimeEnv κ σ) (sched : List Nat)
    (ipvsCmd addReg : String) (nodes : List String)
    (s : KubeadmRuntime κ × (σ × RuntimeJournal)) :
    ∀ node ∈ nodes, ∃ r,
      KubeadmRuntime.JoinTaskOutcome env s.1 addReg ipvsCmd node r
        (observeGroup sched
          (nodes.map (KubeadmRuntime.joinNodeTaskSteps env.traced ipvsCmd addReg)) s).2.1.2.2 := by
  intro node hnode
  obtain ⟨-, hout⟩ := KubeadmRuntime.joinGroup_sound env sched ipvsCmd addReg nodes s
  have hperm := (observeGroup_book sched
    (nodes.map (KubeadmRuntime.joinNodeTaskSteps env.traced ipvsCmd addReg)) s).1
  simp only [List.length_map] at hperm
  obtain ⟨i, hi, hget⟩ := List.getElem_of_mem hnode
  have hmem : i ∈ List.range nodes.length := List.mem_range.mpr hi
  rw [← hperm.mem_iff] at hmem
  obtain ⟨rec, hrec, hfst⟩ := List.mem_map.mp hmem
  obtain ⟨node2, hnode2, h⟩ := hout rec hrec
  rw [hfst, List.getElem?_eq_getElem hi, hget] at hnode2
  simp only [Option.some.injEq] at hnode2
  subst hnode2
  exact ⟨rec.2, h⟩

/-- The group of journaled join goroutines returns the error, leaves the
runtime and the world, and records the results of the group of plain join
goroutines under the same schedule. -/
theorem KubeadmRuntime.joinGroup_erase (env : RuntimeEnv κ σ) (sched : List Nat)
    (ipvsCmd addReg : String) (nodes : List String)
    (s : KubeadmRuntime κ × (σ × RuntimeJournal)) :
    (observeGroup sched
        (nodes.map (KubeadmRuntime.joinNodeTaskSteps env.traced ipvsCmd addReg)) s).1
      = (observeGroup sched
          (nodes.map (KubeadmRuntime.joinNodeTaskSteps env ipvsCmd addReg)) (s.1, s.2.1)).1 ∧
    ((observeGroup sched
        (nodes.map (KubeadmRuntime.joinNodeTaskSteps env.traced ipvsCmd addReg)) s).2.1.1,
      (observeGroup sched
        (nodes.map (KubeadmRuntime.joinNodeTaskSteps env.traced ipvsCmd addReg)) s).2.1.2.1)
      = (observeGroup sched
          (nodes.map (KubeadmRuntime.joinNodeTaskSteps env ipvsCmd addReg)) (s.1, s.2.1)).2.1 ∧
    (observeGroup sched
        (nodes.map (KubeadmRuntime.joinNodeTaskSteps env.traced ipvsCmd addReg)) s).2.2
      = (observeGroup sched
          (nodes.map (KubeadmRuntime.joinNodeTaskSteps env ipvsCmd addReg)) (s.1, s.2.1)).2.2 := by
  refine observeGroup_simulates
    (fun s : KubeadmRuntime κ × (σ × RuntimeJournal) => (s.1, s.2.1)) sched
    (nodes.map (KubeadmRuntime.joinNodeTaskSteps env ipvsCmd addReg))
    (nodes.map (KubeadmRuntime.joinNodeTaskSteps env.traced ipvsCmd addReg))
    (by simp) ?_ s
  intro i p q hp hq
  rw [List.getElem?_map] at hp hq
  cases hnode : nodes[i]? with
  | none => rw [hnode] at hp; simp at hp
  | some node =>
    rw [hnode] at hp hq
    simp only [Option.map_some', Option.some.injEq] at hp hq
    subst hp
    subst hq
    exact KubeadmRuntime.joinNodeTaskSteps_sim env ipvsCmd addReg node

end JoinGroup

end Sealer

namespace Sealer

section JoinClaim

variable {κ σ : Type}

/-- C10. Once the shared preparation of a non-empty batch has succeeded
(leaving runtime `k4`), `joinNodes` runs one join task per target node, every
task with the same two prepared commands: the IPVS command, which is
`seautil ipvs --vs <VIP>:6443 ` followed by ` --rs <m>:6443` for every master
`m` in list order and the health-check flags, and the registry command, which
is the registry `/etc/hosts` write, followed by ` && <docker login>` exactly
when registry user name and password are both non-empty.  A task whose route
check, join-config rendering and SSH client creation succeed hands exactly one
command sequence to `CmdAsync`, for its node, made of these seven commands in
this order: registry command, join-config write to `<rootfs>/etc/kubeadm.yml`,
`echo <VIP> <domain> >> /etc/hosts`, IPVS command, join command,
`mkdir -p /etc/kubernetes/manifests`, static-pod manifest write to
`/etc/kubernetes/manifests/kube-lvscare.yaml`.  A task changes nothing of the
runtime but the API-server endpoint and the cgroup driver, so VIP and masters
are those of `k4` in every task: every command sequence in the journal of the
batch goes to a target node and consists of the seven commands built from
`k4`, whatever the schedule of the goroutines.  The tasks are goroutines of
an `errgroup`; the goroutine of a node, run with nothing in between, is the
task `joinNodeTask` of that node, and under every schedule the journal of the
batch shows for every target node that its goroutine ran to its end
(`JoinTaskOutcome`): it handed the seven commands to `CmdAsync` on the node
unless its route check, its join-config rendering or its SSH client creation
failed. -/
theorem C10_join_command_sequence (env : RuntimeEnv κ σ) (nodes : List String)
    (s0 : KubeadmRuntime κ × σ) (k1 k4 : KubeadmRuntime κ) (w1 w2 w3 w4 : σ)
    (hne : nodes ≠ [])
    (h1 : env.MergeKubeadmConfig s0 = (none, (k1, w1)))
    (h2 : env.WaitSSHReady k1 6 nodes w1 = (none, w2))
    (h3 : env.sendRegistryCert k1 nodes w2 = (none, w3))
    (h4 : env.GetJoinTokenHashAndKey (k1, w3) = (none, (k4, w4))) :
    KubeadmRuntime.joinNodes env nodes s0
      = runGroup env.schedule
          (nodes.map (KubeadmRuntime.joinNodeTaskSteps env
            (RemoteAddIPVS k4.VIP (KubeadmRuntime.mastersArg k4.MasterIPList))
            (KubeadmRuntime.addRegistryHostsAndLogin env k4)))
          ({ k4 with APIServerEndpoint := k4.VIP ++ ":6443", JoinLocalAPIEndPoint := none }, w4) ∧
    (∀ node ipvsCmd addReg : String,
      (KubeadmRuntime.joinNodeTaskSteps env ipvsCmd addReg node).run
        = KubeadmRuntime.joinNodeTask env ipvsCmd addReg node) ∧
    RemoteAddIPVS k4.VIP (KubeadmRuntime.mastersArg k4.MasterIPList)
      = "seautil ipvs --vs " ++ k4.VIP ++ ":6443 " ++
          String.join (k4.MasterIPList.map (fun m => " --rs " ++ m ++ ":6443")) ++
          " --health-path /healthz --health-schem https --run-once" ∧
    KubeadmRuntime.addRegistryHostsAndLogin env k4
      = (if (env.GetRegistryConfig k4.ImageMountDir (k4.MasterIPList.headD "")).Username ≠ "" ∧
            (env.GetRegistryConfig k4.ImageMountDir (k4.MasterIPList.headD "")).Password ≠ "" then
          env.RemoteAddEtcHosts (env.getRegistryHost k4.ImageMountDir (k4.MasterIPList.headD ""))
              (env.getRegistryHost k4.ImageMountDir (k4.MasterIPList.headD "")) ++ " && " ++
            env.DockerLoginCommand
              ((env.GetRegistryConfig k4.ImageMountDir (k4.MasterIPList.headD "")).Domain ++ ":" ++
                (env.GetRegistryConfig k4.ImageMountDir (k4.MasterIPList.headD "")).Port)
              (env.GetRegistryConfig k4.ImageMountDir (k4.MasterIPList.headD "")).Username
              (env.GetRegistryConfig k4.ImageMountDir (k4.MasterIPList.headD "")).Password
        else
          env.RemoteAddEtcHosts (env.getRegistryHost k4.ImageMountDir (k4.MasterIPList.headD ""))
            (env.getRegistryHost k4.ImageMountDir (k4.MasterIPList.headD ""))) ∧
    (∀ (node ipvsCmd addReg joinConfig : String) (k k2 : KubeadmRuntime κ) (w wc ws : σ)
        (s1 : KubeadmRuntime κ × σ),
      KubeadmRuntime.checkMultiNetworkAddVIPRoute env node (k, w) = (none, s1) →
      KubeadmRuntime.joinNodeConfig env node s1 = (.ok joinConfig, (k2, wc)) →
      env.getHostSSHClient k2 node wc = (none, ws) →
      cmdAsyncCalls
          (KubeadmRuntime.joinNodeTask env.traced ipvsCmd addReg node (k, (w, []))).2.2.2
        = [(node,
            [addReg,
             "echo \"" ++ joinConfig ++ "\" > " ++ k.Rootfs ++ "/etc/kubeadm.yml",
             "echo " ++ k.VIP ++ " " ++ k.APIServerDomain ++ " >> /etc/hosts",
             ipvsCmd,
             env.CommandJoinNode k2 k.KubeVersion,
             "mkdir -p /etc/kubernetes/manifests",
             "echo \"" ++ env.LvsStaticPodYaml k.VIP k.MasterIPList "" ++ "\" > " ++
               "/etc/kubernetes/manifests/kube-lvscare.yaml"])]) ∧
    (∀ (node ipvsCmd addReg : String) (k : KubeadmRuntime κ) (w : σ),
      ∃ endpoint cGroupDriver,
        (KubeadmRuntime.joinNodeTask env ipvsCmd addReg node (k, w)).2.1
          = { k with APIServerEndpoint := endpoint, CgroupDriver := cGroupDriver }) ∧
    (∀ host cmds,
      (host, cmds) ∈ cmdAsyncCalls
        (KubeadmRuntime.joinNodes env.traced nodes (s0.1, (s0.2, []))).2.2.2 →
      host ∈ nodes ∧
      ∃ (joinConfig endpoint cGroupDriver : String),
        cmds =
          [KubeadmRuntime.addRegistryHostsAndLogin env k4,
           "echo \"" ++ joinConfig ++ "\" > " ++ k4.Rootfs ++ "/etc/kubeadm.yml",
           "echo " ++ k4.VIP ++ " " ++ k4.APIServerDomain ++ " >> /etc/hosts",
           RemoteAddIPVS k4.VIP (KubeadmRuntime.mastersArg k4.MasterIPList),
           env.CommandJoinNode
             { k4 with APIServerEndpoint := endpoint, CgroupDriver := cGroupDriver,
                       JoinLocalAPIEndPoint := none }
             k4.KubeVersion,
           "mkdir -p /etc/kubernetes/manifests",
           "echo \"" ++ env.LvsStaticPodYaml k4.VIP k4.MasterIPList "" ++ "\" > " ++
             "/etc/kubernetes/manifests/kube-lvscare.yaml"]) ∧
    (∀ node ∈ nodes, ∃ r,
      KubeadmRuntime.JoinTaskOutcome env
        { k4 with APIServerEndpoint := k4.VIP ++ ":6443", JoinLocalAPIEndPoint := none }
        (KubeadmRuntime.addRegistryHostsAndLogin env k4)
        (RemoteAddIPVS k4.VIP (KubeadmRuntime.mastersArg k4.MasterIPList)) node r
        (KubeadmRuntime.joinNodes env.traced nodes (s0.1, (s0.2, []))).2.2.2) := by
  have hlen : nodes.length ≠ 0 := fun h => hne (List.length_eq_zero.mp h)
  have e1 : env.traced.MergeKubeadmConfig (s0.1, (s0.2, []))
      = (none, (k1, (w1, [(.mergeKubeadmConfig, none)]))) := by
    simp [RuntimeEnv.traced, recordedK, h1]
  have e2 : env.traced.WaitSSHReady k1 6 nodes (w1, [(.mergeKubeadmConfig, none)])
      = (none, (w2, [(.mergeKubeadmConfig, none), (.waitSSHReady 6 nodes, none)])) := by
    simp [RuntimeEnv.traced, recorded, h2]
  have e3 : env.traced.sendRegistryCert k1 nodes
        (w2, [(.mergeKubeadmConfig, none), (.waitSSHReady 6 nodes, none)])
      = (none, (w3, [(.mergeKubeadmConfig, none), (.waitSSHReady 6 nodes, none),
          (.sendRegistryCert nodes, none)])) := by
    simp [RuntimeEnv.traced, recorded, h3]
  have e4 : env.traced.GetJoinTokenHashAndKey
        (k1, (w3, [(.mergeKubeadmConfig, none), (.waitSSHReady 6 nodes, none),
          (.sendRegistryCert nodes, none)]))
      = (none, (k4, (w4, [(.mergeKubeadmConfig, none), (.waitSSHReady 6 nodes, none),
          (.sendRegistryCert nodes, none), (.getJoinTokenHashAndKey, none)]))) := by
    simp [RuntimeEnv.traced, recordedK, h4]
  have hbatch : KubeadmRuntime.joinNodes env.traced nodes (s0.1, (s0.2, []))
      = runGroup env.schedule
          (nodes.map (KubeadmRuntime.joinNodeTaskSteps env.traced
            (RemoteAddIPVS k4.VIP (KubeadmRuntime.mastersArg k4.MasterIPList))
            (KubeadmRuntime.addRegistryHostsAndLogin env k4)))
          ({ k4 with APIServerEndpoint := k4.VIP ++ ":6443", JoinLocalAPIEndPoint := none },
            (w4, [(.mergeKubeadmConfig, none), (.waitSSHReady 6 nodes, none),
              (.sendRegistryCert nodes, none), (.getJoinTokenHashAndKey, none)])) := by
    simp only [KubeadmRuntime.joinNodes, hlen, if_false, e1, e2, e3, e4]
    rfl
  refine ⟨?_, ?_, ?_, ?_, ?_, ?_, ?_, ?_⟩
  · simp only [KubeadmRuntime.joinNodes, hlen, if_false, h1, h2, h3, h4]
    rfl
  · intro node ipvsCmd addReg
    exact KubeadmRuntime.joinNodeTaskSteps_run env ipvsCmd addReg node
  · rw [KubeadmRuntime.mastersArg_eq_join]
    rfl
  · rfl
  · intro node ipvsCmd addReg joinConfig k k2 w wc ws s1 hroute hconf hssh
    obtain ⟨tr1, ht1, hk1, hc1⟩ :=
      KubeadmRuntime.checkMultiNetworkAddVIPRoute_traced env node k w []
    rw [hroute] at ht1 hk1
    simp only at hk1
    obtain ⟨tr2, ht2, hc2⟩ :=
      KubeadmRuntime.joinNodeConfig_traced env node k s1.2 ([] ++ tr1)
    have hs1 : s1 = (k, s1.2) := by rw [← hk1]
    rw [← hs1, hconf] at ht2
    obtain ⟨endpoint, cg, hframe⟩ := KubeadmRuntime.joinNodeConfig_frame env node k s1.2
    rw [← hs1, hconf] at hframe
    simp only at hframe
    rcases hcmd : env.CmdAsync node
      (KubeadmRuntime.joinCommands env k2 addReg joinConfig ipvsCmd) ws with ⟨r4, w4'⟩
    have hrun : (KubeadmRuntime.joinNodeTask env.traced ipvsCmd addReg node (k, (w, []))).2.2.2
        = [] ++ tr1 ++ tr2 ++ [(.getHostSSHClient node, none),
            (.cmdAsync node (KubeadmRuntime.joinCommands env k2 addReg joinConfig ipvsCmd), r4)] := by
      simp only [KubeadmRuntime.joinNodeTask, ht1, ht2]
      have e1 : env.traced.getHostSSHClient k2 node (wc, [] ++ tr1 ++ tr2)
          = (none, (ws, [] ++ tr1 ++ tr2 ++ [(.getHostSSHClient node, none)])) := by
        simp [RuntimeEnv.traced, recorded, hssh]
      have e2 : env.traced.CmdAsync node
            (KubeadmRuntime.joinCommands env.traced k2 addReg joinConfig ipvsCmd)
            (ws, [] ++ tr1 ++ tr2 ++ [(.getHostSSHClient node, none)])
          = (r4, (w4', [] ++ tr1 ++ tr2 ++ [(.getHostSSHClient node, none)] ++
              [(.cmdAsync node (KubeadmRuntime.joinCommands env k2 addReg joinConfig ipvsCmd),
                r4)])) := by
        have : KubeadmRuntime.joinCommands env.traced k2 addReg joinConfig ipvsCmd
            = KubeadmRuntime.joinCommands env k2 addReg joinConfig ipvsCmd := rfl
        rw [this]
        simp [RuntimeEnv.traced, recorded, hcmd]
      rw [e1]
      simp only
      rw [e2]
      cases r4 <;> simp
    rw [hrun]
    simp only [cmdAsyncCalls_append, hc1, hc2, cmdAsyncCalls, List.nil_append, List.append_nil]
    rw [hframe]
    rfl
  · intro node ipvsCmd addReg k w
    exact KubeadmRuntime.joinNodeTask_frame env ipvsCmd addReg node k w
  · intro host cmds hmem
    obtain ⟨⟨-, tr, htr, hall⟩, -⟩ := KubeadmRuntime.joinGroup_sound env env.schedule
      (RemoteAddIPVS k4.VIP (KubeadmRuntime.mastersArg k4.MasterIPList))
      (KubeadmRuntime.addRegistryHostsAndLogin env k4) nodes
      ({ k4 with APIServerEndpoint := k4.VIP ++ ":6443", JoinLocalAPIEndPoint := none },
        (w4, [(.mergeKubeadmConfig, none), (.waitSSHReady 6 nodes, none),
          (.sendRegistryCert nodes, none), (.getJoinTokenHashAndKey, none)]))
    rw [hbatch] at hmem
    simp only [runGroup] at hmem
    rw [htr, cmdAsyncCalls_append] at hmem
    simp only [cmdAsyncCalls, List.nil_append] at hmem
    obtain ⟨r, hr⟩ := mem_cmdAsyncCalls.mp hmem
    obtain ⟨hin, joinConfig, endpoint, cg, hcmds⟩ := hall host cmds r hr
    exact ⟨hin, joinConfig, endpoint, cg, hcmds⟩
  · intro node hnode
    rw [hbatch]
    exact KubeadmRuntime.joinGroup_outcome env env.schedule
      (RemoteAddIPVS k4.VIP (KubeadmRuntime.mastersArg k4.MasterIPList))
      (KubeadmRuntime.addRegistryHostsAndLogin env k4) nodes
      ({ k4 with APIServerEndpoint := k4.VIP ++ ":6443", JoinLocalAPIEndPoint := none },
        (w4, [(.mergeKubeadmConfig, none), (.waitSSHReady 6 nodes, none),
          (.sendRegistryCert nodes, none), (.getJoinTokenHashAndKey, none)])) node hnode

end JoinClaim

end Sealer

namespace Sealer

/-- C10 at the scenario of the spec: masters `[10.0.0.1]`, no nodes, join target
`[10.0.0.2]`, no registry credentials.  The only command sequence issued goes
to `10.0.0.2`; its fourth command is the IPVS add referencing `10.0.0.1:6443`. -/
theorem C10_join_command_sequence_witness :
    cmdAsyncCalls
        (KubeadmRuntime.joinNodes (sampleRuntimeEnv "OK" "" "").traced ["10.0.0.2"]
          (sampleRuntime ["10.0.0.1"], (0, []))).2.2.2
      = [("10.0.0.2",
          ["grep -q '10.0.0.1 sea.hub' /etc/hosts || echo 10.0.0.1 sea.hub >> /etc/hosts",
           "echo \"endpoint: 10.103.97.2:6443, cgroupDriver: systemd\" > /var/lib/sealer/data/my-cluster/rootfs/etc/kubeadm.yml",
           "echo 10.103.97.2 apiserver.cluster.local >> /etc/hosts",
           "seautil ipvs --vs 10.103.97.2:6443  --rs 10.0.0.1:6443 --health-path /healthz --health-schem https --run-once",
           "kubeadm join --config /etc/kubeadm.yml # v1.19.8",
           "mkdir -p /etc/kubernetes/manifests",
           "echo \"lvscare 10.103.97.2:6443 10.0.0.1:6443\" > /etc/kubernetes/manifests/kube-lvscare.yaml"])] ∧
    KubeadmRuntime.addRegistryHostsAndLogin (sampleRuntimeEnv "OK" "admin" "s3cret")
        (sampleRuntime ["10.0.0.1"])
      = "grep -q '10.0.0.1 sea.hub' /etc/hosts || echo 10.0.0.1 sea.hub >> /etc/hosts && docker login sea.hub:5000 -u admin -p s3cret" ∧
    KubeadmRuntime.joinNodes (sampleRuntimeEnv "OK" "" "") ["10.0.0.2"]
        (sampleRuntime ["10.0.0.1"], 0)
      = runGroup (sampleRuntimeEnv "OK" "" "").schedule
          (["10.0.0.2"].map (KubeadmRuntime.joinNodeTaskSteps (sampleRuntimeEnv "OK" "" "")
            (RemoteAddIPVS "10.103.97.2" (KubeadmRuntime.mastersArg ["10.0.0.1"]))
            (KubeadmRuntime.addRegistryHostsAndLogin (sampleRuntimeEnv "OK" "" "")
              (sampleRuntime ["10.0.0.1"]))))
          ({ sampleRuntime ["10.0.0.1"] with
              APIServerEndpoint := "10.103.97.2:6443", JoinLocalAPIEndPoint := none }, 4) :=
  ⟨by decide, by decide,
    (C10_join_command_sequence (sampleRuntimeEnv "OK" "" "") ["10.0.0.2"]
      (sampleRuntime ["10.0.0.1"], 0) (sampleRuntime ["10.0.0.1"]) (sampleRuntime ["10.0.0.1"])
      1 2 3 4 (by decide) rfl rfl rfl rfl).1⟩

end Sealer

namespace Sealer

section RouteCheck

variable {κ σ : Type}

/-- C11, as stated, fails: when the SSH client for the node cannot be created,
`checkMultiNetworkAddVIPRoute` returns that error and runs no route check
command at all (the claim says exactly one is run for every node). -/
theorem C11_no_check_without_ssh_counterexample :
    KubeadmRuntime.checkMultiNetworkAddVIPRoute (faultyRuntimeEnv "OK" ["10.0.0.2"] [] []).traced
        "10.0.0.2" (sampleRuntime ["10.0.0.1"], (0, []))
      = (some "dial 10.0.0.2",
         (sampleRuntime ["10.0.0.1"], (1, [(RuntimeCall.getHostSSHClient "10.0.0.2",
            some "dial 10.0.0.2")]))) ∧
    cmdToStringCalls
        (KubeadmRuntime.checkMultiNetworkAddVIPRoute
          (faultyRuntimeEnv "OK" ["10.0.0.2"] [] []).traced
          "10.0.0.2" (sampleRuntime ["10.0.0.1"], (0, []))).2.2.2 = [] := by
  constructor
  · rfl
  · decide

/-- C11, amended.  `checkMultiNetworkAddVIPRoute` first asks for the SSH client
of the node; if that fails it returns the error and runs no command.  With
the client, it runs exactly one command `seautil route check --host <node>`:
* if the check fails, its error is returned and no route add is issued;
* if the check prints the sentinel `OK`, nil is returned and no route add is
  issued (so a call made when the route already exists, a second call
  included, adds nothing);
* if the check prints anything else, exactly one command
  `seautil route add --host <VIP> --gateway <node>` follows and its error, if
  any, is returned.
The journal `tr0` of earlier calls is only extended, the runtime is not touched. -/
theorem C11_route_check_then_add (env : RuntimeEnv κ σ) (node : String)
    (k : KubeadmRuntime κ) (w : σ) (tr0 : RuntimeJournal) :
    (∀ e w1, env.getHostSSHClient k node w = (some e, w1) →
      KubeadmRuntime.checkMultiNetworkAddVIPRoute env.traced node (k, (w, tr0))
        = (some e, (k, (w1, tr0 ++ [(.getHostSSHClient node, some e)])))) ∧
    (∀ w1 e w2, env.getHostSSHClient k node w = (none, w1) →
      env.CmdToString node ("seautil route check --host " ++ node) "" w1 = (.error e, w2) →
      KubeadmRuntime.checkMultiNetworkAddVIPRoute env.traced node (k, (w, tr0))
        = (some e, (k, (w2, tr0 ++ [(.getHostSSHClient node, none),
            (.cmdToString node ("seautil route check --host " ++ node), some e)])))) ∧
    (∀ w1 w2, env.getHostSSHClient k node w = (none, w1) →
      env.CmdToString node ("seautil route check --host " ++ node) "" w1 = (.ok RouteOK, w2) →
      KubeadmRuntime.checkMultiNetworkAddVIPRoute env.traced node (k, (w, tr0))
        = (none, (k, (w2, tr0 ++ [(.getHostSSHClient node, none),
            (.cmdToString node ("seautil route check --host " ++ node), none)])))) ∧
    (∀ w1 result w2 r w3, env.getHostSSHClient k node w = (none, w1) →
      env.CmdToString node ("seautil route check --host " ++ node) "" w1 = (.ok result, w2) →
      result ≠ RouteOK →
      env.Cmd node ("seautil route add --host " ++ k.VIP ++ " --gateway " ++ node) w2 = (r, w3) →
      KubeadmRuntime.checkMultiNetworkAddVIPRoute env.traced node (k, (w, tr0))
        = (errorOf r, (k, (w3, tr0 ++ [(.getHostSSHClient node, none),
            (.cmdToString node ("seautil route check --host " ++ node), none),
            (.cmd node ("seautil route add --host " ++ k.VIP ++ " --gateway " ++ node),
              errorOf r)])))) ∧
    (KubeadmRuntime.checkMultiNetworkAddVIPRoute env.traced node (k, (w, tr0))).1
      = (KubeadmRuntime.checkMultiNetworkAddVIPRoute env node (k, w)).1 := by
  refine ⟨?_, ?_, ?_, ?_, ?_⟩
  · intro e w1 h1
    simp [KubeadmRuntime.checkMultiNetworkAddVIPRoute, RuntimeEnv.traced, recorded, h1]
  · intro w1 e w2 h1 h2
    simp [KubeadmRuntime.checkMultiNetworkAddVIPRoute, RuntimeEnv.traced, recorded, recordedE,
      errorOf, h1, h2, RemoteCheckRoute]
  · intro w1 w2 h1 h2
    simp [KubeadmRuntime.checkMultiNetworkAddVIPRoute, RuntimeEnv.traced, recorded, recordedE,
      errorOf, h1, h2, RemoteCheckRoute]
  · intro w1 result w2 r w3 h1 h2 hne h3
    cases r <;>
      simp [KubeadmRuntime.checkMultiNetworkAddVIPRoute, RuntimeEnv.traced, recorded, recordedE,
        errorOf, h1, h2, h3, hne, RemoteCheckRoute, RemoteAddRoute, KubeadmRuntime.getVIP]
  · obtain ⟨tr, ht, -, -⟩ :=
      KubeadmRuntime.checkMultiNetworkAddVIPRoute_traced env node k w tr0
    rw [ht]

/-- C11 at concrete inputs: two calls in a row on a node whose route exists
(the check prints `OK`) run two route checks and no route add; one call on a
node whose check prints something else runs one check and one route add. -/
theorem C11_route_check_then_add_witness :
    (KubeadmRuntime.checkMultiNetworkAddVIPRoute (sampleRuntimeEnv "OK" "" "").traced "10.0.0.2"
        (KubeadmRuntime.checkMultiNetworkAddVIPRoute (sampleRuntimeEnv "OK" "" "").traced
          "10.0.0.2" (sampleRuntime ["10.0.0.1"], (0, []))).2).2.2.2
      = [(RuntimeCall.getHostSSHClient "10.0.0.2", none),
         (RuntimeCall.cmdToString "10.0.0.2" "seautil route check --host 10.0.0.2", none),
         (RuntimeCall.getHostSSHClient "10.0.0.2", none),
         (RuntimeCall.cmdToString "10.0.0.2" "seautil route check --host 10.0.0.2", none)] ∧
    cmdCalls (KubeadmRuntime.checkMultiNetworkAddVIPRoute (sampleRuntimeEnv "FAIL" "" "").traced
        "10.0.0.2" (sampleRuntime ["10.0.0.1"], (0, []))).2.2.2
      = [("10.0.0.2", "seautil route add --host 10.103.97.2 --gateway 10.0.0.2")] ∧
    KubeadmRuntime.checkMultiNetworkAddVIPRoute (sampleRuntimeEnv "OK" "" "").traced "10.0.0.2"
        (sampleRuntime ["10.0.0.1"], (0, []))
      = (none, (sampleRuntime ["10.0.0.1"], (2, [] ++
          [(RuntimeCall.getHostSSHClient "10.0.0.2", none),
           (RuntimeCall.cmdToString "10.0.0.2" ("seautil route check --host " ++ "10.0.0.2"),
             none)]))) :=
  ⟨by decide, by decide,
    (C11_route_check_then_add (sampleRuntimeEnv "OK" "" "") "10.0.0.2"
      (sampleRuntime ["10.0.0.1"]) 0 []).2.2.1 1 2 rfl rfl⟩

end RouteCheck

end Sealer

namespace Sealer

section JoinBatchClaim

variable {κ σ : Type}

/-- After a successful preparation the journaled `joinNodes` is the group of
journaled join goroutines, started with the four preparation calls in the journal. -/
theorem KubeadmRuntime.joinNodes_traced_eq_group (env : RuntimeEnv κ σ) (nodes : List String)
    (s0 : KubeadmRuntime κ × σ) (k1 k4 : KubeadmRuntime κ) (w1 w2 w3 w4 : σ)
    (hne : nodes ≠ [])
    (h1 : env.MergeKubeadmConfig s0 = (none, (k1, w1)))
    (h2 : env.WaitSSHReady k1 6 nodes w1 = (none, w2))
    (h3 : env.sendRegistryCert k1 nodes w2 = (none, w3))
    (h4 : env.GetJoinTokenHashAndKey (k1, w3) = (none, (k4, w4))) :
    KubeadmRuntime.joinNodes env.traced nodes (s0.1, (s0.2, []))
      = runGroup env.schedule
          (nodes.map (KubeadmRuntime.joinNodeTaskSteps env.traced
            (RemoteAddIPVS k4.VIP (KubeadmRuntime.mastersArg k4.MasterIPList))
            (KubeadmRuntime.addRegistryHostsAndLogin env k4)))
          ({ k4 with APIServerEndpoint := k4.VIP ++ ":6443", JoinLocalAPIEndPoint := none },
            (w4, [(.mergeKubeadmConfig, none), (.waitSSHReady 6 nodes, none),
              (.sendRegistryCert nodes, none), (.getJoinTokenHashAndKey, none)])) := by
  have hlen : nodes.length ≠ 0 := fun h => hne (List.length_eq_zero.mp h)
  have e1 : env.traced.MergeKubeadmConfig (s0.1, (s0.2, []))
      = (none, (k1, (w1, [(.mergeKubeadmConfig, none)]))) := by
    simp [RuntimeEnv.traced, recordedK, h1]
  have e2 : env.traced.WaitSSHReady k1 6 nodes (w1, [(.mergeKubeadmConfig, none)])
      = (none, (w2, [(.mergeKubeadmConfig, none), (.waitSSHReady 6 nodes, none)])) := by
    simp [RuntimeEnv.traced, recorded, h2]
  have e3 : env.traced.sendRegistryCert k1 nodes
        (w2, [(.mergeKubeadmConfig, none), (.waitSSHReady 6 nodes, none)])
      = (none, (w3, [(.mergeKubeadmConfig, none), (.waitSSHReady 6 nodes, none),
          (.sendRegistryCert nodes, none)])) := by
    simp [RuntimeEnv.traced, recorded, h3]
  have e4 : env.traced.GetJoinTokenHashAndKey
        (k1, (w3, [(.mergeKubeadmConfig, none), (.waitSSHReady 6 nodes, none),
          (.sendRegistryCert nodes, none)]))
      = (none, (k4, (w4, [(.mergeKubeadmConfig, none), (.waitSSHReady 6 nodes, none),
          (.sendRegistryCert nodes, none), (.getJoinTokenHashAndKey, none)]))) := by
    simp [RuntimeEnv.traced, recordedK, h4]
  simp only [KubeadmRuntime.joinNodes, hlen, if_false, e1, e2, e3, e4]
  rfl

/-- The error of a batch is the first one returned in time.  Three targets,
the command sequence fails on `10.0.0.2` and on `10.0.0.3`: when the
goroutines run one after the other the batch returns the error of
`10.0.0.2`; when the goroutine of `10.0.0.3` runs to its end first, the batch
returns the error of `10.0.0.3`. -/
theorem KubeadmRuntime.joinNodes_first_error_in_time :
    (KubeadmRuntime.joinNodes (faultyRuntimeEnv "OK" [] ["10.0.0.2", "10.0.0.3"] [])
        ["10.0.0.2", "10.0.0.3", "10.0.0.4"] (sampleRuntime ["10.0.0.1"], 0)).1
      = some "failed to join node 10.0.0.2 exit 1 on 10.0.0.2" ∧
    (KubeadmRuntime.joinNodes
        ((faultyRuntimeEnv "OK" [] ["10.0.0.2", "10.0.0.3"] []).scheduled (List.replicate 13 1))
        ["10.0.0.2", "10.0.0.3", "10.0.0.4"] (sampleRuntime ["10.0.0.1"], 0)).1
      = some "failed to join node 10.0.0.3 exit 1 on 10.0.0.3" := by
  decide

/-- C12. For a batch of `N ≥ 1` nodes whose shared preparation succeeds,
`joinNodes` is the `errgroup` of the `N` per-node join goroutines, and under
every schedule of the goroutines (`env.schedule` is arbitrary):
* every goroutine returns exactly once, whatever the others return: the
  indices of the recorded results are a permutation of `0..N-1`;
* `joinNodes` returns nil iff every goroutine returned nil, and otherwise the
  error of a failing goroutine, the first one that returned an error; when
  exactly one goroutine fails, its error is what the batch reports;
* the journaled batch returns the same error and leaves the same runtime and
  world, and its journal shows that every goroutine ran to its own end
  (`JoinTaskOutcome`): it asked for the SSH client of its node, and it handed
  the seven join commands to `CmdAsync` on its node unless one of its own
  earlier calls failed;
* in particular, when exactly one goroutine fails, the command sequence of
  every other node (the seven join commands built from `k4`) was executed,
  and returned nil. -/
theorem C12_join_batch_runs_every_task (env : RuntimeEnv κ σ) (nodes : List String)
    (s0 : KubeadmRuntime κ × σ) (k1 k4 : KubeadmRuntime κ) (w1 w2 w3 w4 : σ)
    (hne : nodes ≠ [])
    (h1 : env.MergeKubeadmConfig s0 = (none, (k1, w1)))
    (h2 : env.WaitSSHReady k1 6 nodes w1 = (none, w2))
    (h3 : env.sendRegistryCert k1 nodes w2 = (none, w3))
    (h4 : env.GetJoinTokenHashAndKey (k1, w3) = (none, (k4, w4))) :
    ∃ (tasks : List (Routine (KubeadmRuntime κ × σ) (Option String)))
      (s5 : KubeadmRuntime κ × σ) (ipvsCmd addReg : String)
      (records : List (StageRecord String)) (journal : RuntimeJournal),
      ipvsCmd = RemoteAddIPVS k4.VIP (KubeadmRuntime.mastersArg k4.MasterIPList) ∧
      addReg = KubeadmRuntime.addRegistryHostsAndLogin env k4 ∧
      tasks = nodes.map (KubeadmRuntime.joinNodeTaskSteps env ipvsCmd addReg) ∧
      s5 = ({ k4 with APIServerEndpoint := k4.VIP ++ ":6443", JoinLocalAPIEndPoint := none },
        w4) ∧
      records = (observeGroup env.schedule tasks s5).2.2 ∧
      journal = (KubeadmRuntime.joinNodes env.traced nodes (s0.1, (s0.2, []))).2.2.2 ∧
      KubeadmRuntime.joinNodes env nodes s0 = runGroup env.schedule tasks s5 ∧
      (records.map Prod.fst).Perm (List.range nodes.length) ∧
      ((KubeadmRuntime.joinNodes env nodes s0).1 = none ↔ ∀ rec ∈ records, rec.2 = none) ∧
      (∀ e, (KubeadmRuntime.joinNodes env nodes s0).1 = some e →
        ∃ pre j post, records = pre ++ (j, some e) :: post ∧ ∀ rec ∈ pre, rec.2 = none) ∧
      (∀ j e, (j, some e) ∈ records → (∀ j2 e2, (j2, some e2) ∈ records → j2 = j) →
        (KubeadmRuntime.joinNodes env nodes s0).1 = some e) ∧
      (KubeadmRuntime.joinNodes env.traced nodes (s0.1, (s0.2, []))).1
        = (KubeadmRuntime.joinNodes env nodes s0).1 ∧
      ((KubeadmRuntime.joinNodes env.traced nodes (s0.1, (s0.2, []))).2.1,
        (KubeadmRuntime.joinNodes env.traced nodes (s0.1, (s0.2, []))).2.2.1)
        = (KubeadmRuntime.joinNodes env nodes s0).2 ∧
      (∀ rec ∈ records, ∃ node, nodes[rec.1]? = some node ∧
        KubeadmRuntime.JoinTaskOutcome env s5.1 addReg ipvsCmd node rec.2 journal) ∧
      (∀ node ∈ nodes, ∃ r, (RuntimeCall.getHostSSHClient node, r) ∈ journal) ∧
      (∀ j e, (j, some e) ∈ records → (∀ j2 e2, (j2, some e2) ∈ records → j2 = j) →
        ∀ i node, nodes[i]? = some node → i ≠ j →
          ∃ joinConfig endpoint cGroupDriver,
            (RuntimeCall.cmdAsync node
              [KubeadmRuntime.addRegistryHostsAndLogin env k4,
               "echo \"" ++ joinConfig ++ "\" > " ++ k4.Rootfs ++ "/etc/kubeadm.yml",
               "echo " ++ k4.VIP ++ " " ++ k4.APIServerDomain ++ " >> /etc/hosts",
               RemoteAddIPVS k4.VIP (KubeadmRuntime.mastersArg k4.MasterIPList),
               env.CommandJoinNode
                 { k4 with APIServerEndpoint := endpoint, CgroupDriver := cGroupDriver,
                           JoinLocalAPIEndPoint := none }
                 k4.KubeVersion,
               "mkdir -p /etc/kubernetes/manifests",
               "echo \"" ++ env.LvsStaticPodYaml k4.VIP k4.MasterIPList "" ++ "\" > " ++
                 "/etc/kubernetes/manifests/kube-lvscare.yaml"], none) ∈ journal) := by
  have hlen : nodes.length ≠ 0 := fun h => hne (List.length_eq_zero.mp h)
  have hjoin : KubeadmRuntime.joinNodes env nodes s0
      = runGroup env.schedule (nodes.map (KubeadmRuntime.joinNodeTaskSteps env
          (RemoteAddIPVS k4.VIP (KubeadmRuntime.mastersArg k4.MasterIPList))
          (KubeadmRuntime.addRegistryHostsAndLogin env k4)))
        ({ k4 with APIServerEndpoint := k4.VIP ++ ":6443", JoinLocalAPIEndPoint := none },
          w4) := by
    simp only [KubeadmRuntime.joinNodes, hlen, if_false, h1, h2, h3, h4]
    rfl
  have htraced := KubeadmRuntime.joinNodes_traced_eq_group env nodes s0 k1 k4 w1 w2 w3 w4
    hne h1 h2 h3 h4
  obtain ⟨hperm, herr⟩ := observeGroup_book env.schedule
    (nodes.map (KubeadmRuntime.joinNodeTaskSteps env
      (RemoteAddIPVS k4.VIP (KubeadmRuntime.mastersArg k4.MasterIPList))
      (KubeadmRuntime.addRegistryHostsAndLogin env k4)))
    ({ k4 with APIServerEndpoint := k4.VIP ++ ":6443", JoinLocalAPIEndPoint := none }, w4)
  obtain ⟨hs1, hs2, hs3⟩ := KubeadmRuntime.joinGroup_erase env env.schedule
    (RemoteAddIPVS k4.VIP (KubeadmRuntime.mastersArg k4.MasterIPList))
    (KubeadmRuntime.addRegistryHostsAndLogin env k4) nodes
    ({ k4 with APIServerEndpoint := k4.VIP ++ ":6443", JoinLocalAPIEndPoint := none },
      (w4, [(.mergeKubeadmConfig, none), (.waitSSHReady 6 nodes, none),
        (.sendRegistryCert nodes, none), (.getJoinTokenHashAndKey, none)]))
  obtain ⟨hrely, hout⟩ := KubeadmRuntime.joinGroup_sound env env.schedule
    (RemoteAddIPVS k4.VIP (KubeadmRuntime.mastersArg k4.MasterIPList))
    (KubeadmRuntime.addRegistryHostsAndLogin env k4) nodes
    ({ k4 with APIServerEndpoint := k4.VIP ++ ":6443", JoinLocalAPIEndPoint := none },
      (w4, [(.mergeKubeadmConfig, none), (.waitSSHReady 6 nodes, none),
        (.sendRegistryCert nodes, none), (.getJoinTokenHashAndKey, none)]))
  simp only [List.length_map] at hperm
  rw [hs3] at hout
  have hres : (KubeadmRuntime.joinNodes env nodes s0).1
      = firstError (observeGroup env.schedule
          (nodes.map (KubeadmRuntime.joinNodeTaskSteps env
            (RemoteAddIPVS k4.VIP (KubeadmRuntime.mastersArg k4.MasterIPList))
            (KubeadmRuntime.addRegistryHostsAndLogin env k4)))
          ({ k4 with APIServerEndpoint := k4.VIP ++ ":6443", JoinLocalAPIEndPoint := none },
            w4)).2.2 := by
    rw [hjoin]
    exact herr
  have hone : ∀ j e, (j, some e) ∈ (observeGroup env.schedule
          (nodes.map (KubeadmRuntime.joinNodeTaskSteps env
            (RemoteAddIPVS k4.VIP (KubeadmRuntime.mastersArg k4.MasterIPList))
            (KubeadmRuntime.addRegistryHostsAndLogin env k4)))
          ({ k4 with APIServerEndpoint := k4.VIP ++ ":6443", JoinLocalAPIEndPoint := none },
            w4)).2.2 →
      (∀ j2 e2, (j2, some e2) ∈ (observeGroup env.schedule
          (nodes.map (KubeadmRuntime.joinNodeTaskSteps env
            (RemoteAddIPVS k4.VIP (KubeadmRuntime.mastersArg k4.MasterIPList))
            (KubeadmRuntime.addRegistryHostsAndLogin env k4)))
          ({ k4 with APIServerEndpoint := k4.VIP ++ ":6443", JoinLocalAPIEndPoint := none },
            w4)).2.2 → j2 = j) →
      (KubeadmRuntime.joinNodes env nodes s0).1 = some e := by
    intro j e hj honly
    cases hfe : (KubeadmRuntime.joinNodes env nodes s0).1 with
    | none =>
      have := (firstError_eq_none_iff _).mp (hres ▸ hfe) (j, some e) hj
      simp at this
    | some e0 =>
      obtain ⟨pre, j0, post, hl, -⟩ := firstError_eq_some _ e0 (hres ▸ hfe)
      have hj0 : (j0, some e0) ∈ (observeGroup env.schedule
          (nodes.map (KubeadmRuntime.joinNodeTaskSteps env
            (RemoteAddIPVS k4.VIP (KubeadmRuntime.mastersArg k4.MasterIPList))
            (KubeadmRuntime.addRegistryHostsAndLogin env k4)))
          ({ k4 with APIServerEndpoint := k4.VIP ++ ":6443", JoinLocalAPIEndPoint := none },
            w4)).2.2 := by
        rw [hl]; simp
      have hjj : j0 = j := honly j0 e0 hj0
      subst hjj
      have hnd := hperm.nodup_iff.mpr (List.nodup_range _)
      have := List.inj_on_of_nodup_map hnd hj0 hj rfl
      simp only [Prod.mk.injEq, true_and] at this
      rw [this]
  refine ⟨_, _, _, _, _, _, rfl, rfl, rfl, rfl, rfl, rfl, hjoin, hperm, ?_, ?_, hone, ?_,
    ?_, ?_, ?_, ?_⟩
  · rw [hres]
    exact firstError_eq_none_iff _
  · intro e he
    exact firstError_eq_some _ e (hres ▸ he)
  · rw [htraced, hjoin]
    exact hs1
  · rw [htraced, hjoin]
    exact hs2
  · rw [htraced]
    exact hout
  · intro node hnode
    obtain ⟨i, hi, hget⟩ := List.getElem_of_mem hnode
    have hmem : i ∈ List.range nodes.length := List.mem_range.mpr hi
    rw [← hperm.mem_iff] at hmem
    obtain ⟨rec, hrec, hfst⟩ := List.mem_map.mp hmem
    obtain ⟨node2, hnode2, ⟨r0, hr0⟩, -⟩ := hout rec hrec
    rw [hfst, List.getElem?_eq_getElem hi, hget] at hnode2
    simp only [Option.some.injEq] at hnode2
    subst hnode2
    rw [htraced]
    exact ⟨r0, hr0⟩
  · intro j e hj honly i node hnode hij
    obtain ⟨hi, hget⟩ := List.getElem?_eq_some_iff.mp hnode
    have hmem : i ∈ List.range nodes.length := List.mem_range.mpr hi
    rw [← hperm.mem_iff] at hmem
    obtain ⟨rec, hrec, hfst⟩ := List.mem_map.mp hmem
    obtain ⟨i2, r⟩ := rec
    simp only at hfst
    subst hfst
    have hr : r = none := by
      cases r with
      | none => rfl
      | some e2 => exact absurd (honly _ _ hrec) hij
    subst hr
    obtain ⟨node2, hnode2, -, hcase⟩ := hout _ hrec
    simp only at hnode2
    rw [hnode] at hnode2
    simp only [Option.some.injEq] at hnode2
    subst hnode2
    rw [htraced]
    rcases hcase with ⟨cmds, res, hmem2, hshape, hres2⟩ | ⟨e2, -, he2⟩ | ⟨e2, -, he2⟩
    · cases res with
      | none =>
        obtain ⟨joinConfig, endpoint, cg, rfl⟩ := hshape
        exact ⟨joinConfig, endpoint, cg, hmem2⟩
      | some e2 => simp at hres2
    · simp at he2
    · simp at he2

end JoinBatchClaim

end Sealer
namespace Sealer

/-- C12 at a concrete input: three targets, the command sequence fails on the
second (`10.0.0.3`), and the goroutines interleave: the goroutine of
`10.0.0.4` runs first, then those of `10.0.0.3` and `10.0.0.2` alternate.
The batch reports the error of `10.0.0.3`, all three goroutines returned, and
the command sequences of the two other nodes were executed. -/
theorem C12_join_batch_runs_every_task_witness :
    (KubeadmRuntime.joinNodes
        ((faultyRuntimeEnv "OK" [] ["10.0.0.3"] []).scheduled
          (List.replicate 13 2 ++ [1, 0, 1, 0, 1, 0])).traced
        ["10.0.0.2", "10.0.0.3", "10.0.0.4"] (sampleRuntime ["10.0.0.1"], (0, []))).1
      = some "failed to join node 10.0.0.3 exit 1 on 10.0.0.3" ∧
    (cmdAsyncCalls (KubeadmRuntime.joinNodes
        ((faultyRuntimeEnv "OK" [] ["10.0.0.3"] []).scheduled
          (List.replicate 13 2 ++ [1, 0, 1, 0, 1, 0])).traced
        ["10.0.0.2", "10.0.0.3", "10.0.0.4"] (sampleRuntime ["10.0.0.1"], (0, []))).2.2.2).map
        Prod.fst
      = ["10.0.0.4", "10.0.0.2", "10.0.0.3"] ∧
    (observeGroup (List.replicate 13 2 ++ [1, 0, 1, 0, 1, 0])
        (["10.0.0.2", "10.0.0.3", "10.0.0.4"].map
          (KubeadmRuntime.joinNodeTaskSteps (faultyRuntimeEnv "OK" [] ["10.0.0.3"] [])
            (RemoteAddIPVS "10.103.97.2" (KubeadmRuntime.mastersArg ["10.0.0.1"]))
            (KubeadmRuntime.addRegistryHostsAndLogin (faultyRuntimeEnv "OK" [] ["10.0.0.3"] [])
              (sampleRuntime ["10.0.0.1"]))))
        ({ sampleRuntime ["10.0.0.1"] with
            APIServerEndpoint := "10.103.97.2:6443", JoinLocalAPIEndPoint := none }, 4)).2.2
      = [(2, none), (0, none), (1, some "failed to join node 10.0.0.3 exit 1 on 10.0.0.3")] ∧
    ∃ cmds, (RuntimeCall.cmdAsync "10.0.0.4" cmds, none) ∈
      (KubeadmRuntime.joinNodes
        ((faultyRuntimeEnv "OK" [] ["10.0.0.3"] []).scheduled
          (List.replicate 13 2 ++ [1, 0, 1, 0, 1, 0])).traced
        ["10.0.0.2", "10.0.0.3", "10.0.0.4"]
        ((sampleRuntime ["10.0.0.1"], 0).1, ((sampleRuntime ["10.0.0.1"], 0).2, []))).2.2.2 := by
  refine ⟨by decide, by decide, by decide, ?_⟩
  obtain ⟨tasks, s5, ipvsCmd, addReg, records, journal, rfl, rfl, rfl, rfl, hrec, rfl, -, -, -,
    -, -, -, -, -, -, hothers⟩ :=
    C12_join_batch_runs_every_task
      ((faultyRuntimeEnv "OK" [] ["10.0.0.3"] []).scheduled
        (List.replicate 13 2 ++ [1, 0, 1, 0, 1, 0]))
      ["10.0.0.2", "10.0.0.3", "10.0.0.4"] (sampleRuntime ["10.0.0.1"], 0)
      (sampleRuntime ["10.0.0.1"]) (sampleRuntime ["10.0.0.1"]) 1 2 3 4
      (by decide) rfl rfl rfl rfl
  have hrecords : records
      = [(2, none), (0, none), (1, some "failed to join node 10.0.0.3 exit 1 on 10.0.0.3")] := by
    rw [hrec]
    decide
  obtain ⟨joinConfig, endpoint, cg, hmem⟩ :=
    hothers 1 "failed to join node 10.0.0.3 exit 1 on 10.0.0.3"
    (by rw [hrecords]; simp)
    (by
      intro j2 e2 h
      rw [hrecords] at h
      simp only [List.mem_cons, Prod.mk.injEq, reduceCtorEq, and_false, false_or,
        List.mem_singleton, List.not_mem_nil, or_false] at h
      exact h.1)
    2 "10.0.0.4" rfl (by decide)
  exact ⟨_, hmem⟩

end Sealer

namespace Sealer

section DeleteTask

variable {κ σ : Type}

theorem RuntimeEnv.traced_getHostSSHClient (env : RuntimeEnv κ σ) (k : KubeadmRuntime κ)
    (host : String) (w : σ) (tr : RuntimeJournal) :
    env.traced.getHostSSHClient k host (w, tr)
      = ((env.getHostSSHClient k host w).1,
         ((env.getHostSSHClient k host w).2,
          tr ++ [(.getHostSSHClient host, (env.getHostSSHClient k host w).1)])) := rfl

theorem RuntimeEnv.traced_CmdAsync (env : RuntimeEnv κ σ) (host : String) (cmds : List String)
    (w : σ) (tr : RuntimeJournal) :
    env.traced.CmdAsync host cmds (w, tr)
      = ((env.CmdAsync host cmds w).1,
         ((env.CmdAsync host cmds w).2,
          tr ++ [(.cmdAsync host cmds, (env.CmdAsync host cmds w).1)])) := rfl

theorem RuntimeEnv.traced_Cmd (env : RuntimeEnv κ σ) (host cmd : String)
    (w : σ) (tr : RuntimeJournal) :
    env.traced.Cmd host cmd (w, tr)
      = ((env.Cmd host cmd w).1,
         ((env.Cmd host cmd w).2, tr ++ [(.cmd host cmd, errorOf (env.Cmd host cmd w).1)])) := rfl

theorem RuntimeEnv.traced_isHostName (env : RuntimeEnv κ σ) (k : KubeadmRuntime κ)
    (master host : String) (w : σ) (tr : RuntimeJournal) :
    env.traced.isHostName k master host (w, tr)
      = ((env.isHostName k master host w).1,
         ((env.isHostName k master host w).2,
          tr ++ [(.isHostName master host, errorOf (env.isHostName k master host w).1)])) := rfl

theorem RuntimeEnv.traced_GetLocalHostAddresses (env : RuntimeEnv κ σ)
    (w : σ) (tr : RuntimeJournal) :
    env.traced.GetLocalHostAddresses (w, tr)
      = ((env.GetLocalHostAddresses w).1,
         ((env.GetLocalHostAddresses w).2,
          tr ++ [(.getLocalHostAddresses, errorOf (env.GetLocalHostAddresses w).1)])) := rfl

/-- `deleteNode` once the SSH client of the node exists: the cleanup sequence
`remoteCleanCmds` is handed to `CmdAsync`, then the node is removed from the
control plane through the first master. -/
theorem KubeadmRuntime.deleteNode_of_client (env : RuntimeEnv κ σ) (node : String)
    (k : KubeadmRuntime κ) (w w1 w2 : σ) (address : Except String (List String))
    (h1 : env.getHostSSHClient k node w = (none, w1))
    (h2 : env.GetLocalHostAddresses w1 = (address, w2)) :
    KubeadmRuntime.deleteNode env node (k, w) =
      match env.CmdAsync node (KubeadmRuntime.remoteCleanCmds env k node address) w2 with
      | (some err, w) => (some err, (k, w))
      | (none, w) =>
        if k.GetMasterIPList.length > 0 then
          match env.isHostName k k.GetMaster0IP node w with
          | (.error err, w) => (some err, (k, w))
          | (.ok hostname, w) =>
            match env.getHostSSHClient k k.GetMaster0IP w with
            | (some err, w) => (some ("failed to delete node on master0," ++ err), (k, w))
            | (none, w) =>
              match env.CmdAsync k.GetMaster0IP [env.KubeDeleteNode (env.TrimSpace hostname)]
                w with
              | (some err, w) =>
                (some ("delete node " ++ hostname ++ " failed " ++ err), (k, w))
              | (none, w) => (none, (k, w))
        else (none, (k, w)) := by
  simp only [KubeadmRuntime.deleteNode, h1, h2]
  cases address with
  | error e => rfl
  | ok a => simp only [KubeadmRuntime.remoteCleanCmds]

end DeleteTask

end Sealer
namespace Sealer

section DeleteTaskShape

variable {κ σ : Type}

/-- The journal of a delete task while a master remains: its calls are the
first `n` calls of `deleteTaskCalls` (cleanup on the node, host-name lookup
and delete-node command on the first master, route removal on the node); any
failing call other than the local address lookup is the last one; the task
returns nil iff all eight calls were made and none failed. -/
theorem KubeadmRuntime.deleteNodeTask_traced_shape (env : RuntimeEnv κ σ) (node : String)
    (k : KubeadmRuntime κ) (w : σ) (hm : k.MasterIPList ≠ []) :
    ∃ (hostname : String) (n : Nat),
      (KubeadmRuntime.deleteNodeTask env.traced node (k, (w, []))).1
        = (KubeadmRuntime.deleteNodeTask env node (k, w)).1 ∧
      (KubeadmRuntime.deleteNodeTask env.traced node (k, (w, []))).2.2.2.map Prod.fst
        = (deleteTaskCalls env k node
            (KubeadmRuntime.remoteCleanCmds env k node
              (env.GetLocalHostAddresses (env.getHostSSHClient k node w).2).1)
            hostname).take n ∧
      (KubeadmRuntime.deleteNodeTask env.traced node (k, (w, []))).2.2.2.length = n ∧
      1 ≤ n ∧ n ≤ 8 ∧
      ((env.getHostSSHClient k node w).1 = none → 3 ≤ n) ∧
      (∀ rec ∈ (KubeadmRuntime.deleteNodeTask env.traced node (k, (w, []))).2.2.2.dropLast,
        rec.1 ≠ RuntimeCall.getLocalHostAddresses → rec.2 = none) ∧
      ((KubeadmRuntime.deleteNodeTask env node (k, w)).1 = none ↔
        n = 8 ∧ ∀ rec ∈ (KubeadmRuntime.deleteNodeTask env.traced node (k, (w, []))).2.2.2,
          rec.1 ≠ RuntimeCall.getLocalHostAddresses → rec.2 = none) ∧
      (∀ e, (KubeadmRuntime.deleteNodeTask env.traced node (k, (w, []))).2.2.2[5]?
          = some (.cmdAsync k.GetMaster0IP [env.KubeDeleteNode (env.TrimSpace hostname)],
              some e) →
        n = 6 ∧
        (KubeadmRuntime.deleteNodeTask env node (k, w)).1
          = some ("delete node " ++ node ++ " failed " ++
              ("delete node " ++ hostname ++ " failed " ++ e))) ∧
      (∀ e, ((KubeadmRuntime.deleteNodeTask env.traced node (k, (w, []))).2.2.2[6]?
            = some (.getHostSSHClient node, some e) ∨
          (KubeadmRuntime.deleteNodeTask env.traced node (k, (w, []))).2.2.2[7]?
            = some (.cmd node (RemoteDelRoute k.getVIP node), some e)) →
        (KubeadmRuntime.deleteNodeTask env node (k, w)).1
          = some ("failed to delete " ++ node ++ " route: " ++ e)) := by
  have hlen : k.GetMasterIPList.length > 0 := List.length_pos.mpr hm
  rcases h1 : env.getHostSSHClient k node w with ⟨r1, w1⟩
  cases r1 with
  | some e1 =>
    have hP : KubeadmRuntime.deleteNodeTask env node (k, w)
        = (some ("delete node " ++ node ++ " failed " ++ ("failed to delete node: " ++ e1)),
            (k, w1)) := by
      simp [KubeadmRuntime.deleteNodeTask, KubeadmRuntime.deleteNode, h1]
    have hT : KubeadmRuntime.deleteNodeTask env.traced node (k, (w, []))
        = (some ("delete node " ++ node ++ " failed " ++ ("failed to delete node: " ++ e1)),
            (k, (w1, [(.getHostSSHClient node, some e1)]))) := by
      simp [KubeadmRuntime.deleteNodeTask, KubeadmRuntime.deleteNode,
        RuntimeEnv.traced_getHostSSHClient, h1]
    refine ⟨"", 1, ?_⟩
    rw [hT, hP]
    simp [deleteTaskCalls]
  | none =>
    rcases h2 : env.GetLocalHostAddresses w1 with ⟨address, w2⟩
    have h1t : env.traced.getHostSSHClient k node (w, [])
        = (none, (w1, [(.getHostSSHClient node, none)])) := by
      simp [RuntimeEnv.traced_getHostSSHClient, h1]
    have h2t : env.traced.GetLocalHostAddresses (w1, [(.getHostSSHClient node, none)])
        = (address, (w2, [(.getHostSSHClient node, none),
            (.getLocalHostAddresses, errorOf address)])) := by
      simp [RuntimeEnv.traced_GetLocalHostAddresses, h2]
    have hc : KubeadmRuntime.remoteCleanCmds env.traced k node address
        = KubeadmRuntime.remoteCleanCmds env k node address := rfl
    have hd : ∀ name, env.traced.KubeDeleteNode name = env.KubeDeleteNode name := fun _ => rfl
    have hs : ∀ name, env.traced.TrimSpace name = env.TrimSpace name := fun _ => rfl
    have hPd := KubeadmRuntime.deleteNode_of_client env node k w w1 w2 address h1 h2
    have hTd := KubeadmRuntime.deleteNode_of_client env.traced node k (w, []) _ _ address h1t h2t
    rw [hc] at hTd
    simp only [hd, hs] at hTd
    rcases h3 : env.CmdAsync node (KubeadmRuntime.remoteCleanCmds env k node address) w2
      with ⟨r3, w3⟩
    cases r3 with
    | some e3 =>
      have hP : KubeadmRuntime.deleteNodeTask env node (k, w)
          = (some ("delete node " ++ node ++ " failed " ++ e3), (k, w3)) := by
        simp [KubeadmRuntime.deleteNodeTask, hPd, h3]
      have hT : KubeadmRuntime.deleteNodeTask env.traced node (k, (w, []))
          = (some ("delete node " ++ node ++ " failed " ++ e3),
              (k, (w3, [(.getHostSSHClient node, none),
                (.getLocalHostAddresses, errorOf address),
                (.cmdAsync node (KubeadmRuntime.remoteCleanCmds env k node address),
                  some e3)]))) := by
        simp [KubeadmRuntime.deleteNodeTask, hTd, RuntimeEnv.traced_CmdAsync, h3]
      refine ⟨"", 3, ?_⟩
      rw [hT, hP]
      simp [deleteTaskCalls, h2]
    | none =>
      rcases h4 : env.isHostName k k.GetMaster0IP node w3 with ⟨r4, w4⟩
      cases r4 with
      | error e4 =>
        have hP : KubeadmRuntime.deleteNodeTask env node (k, w)
            = (some ("delete node " ++ node ++ " failed " ++ e4), (k, w4)) := by
          simp [KubeadmRuntime.deleteNodeTask, hPd, h3, hlen, h4]
        have hT : KubeadmRuntime.deleteNodeTask env.traced node (k, (w, []))
            = (some ("delete node " ++ node ++ " failed " ++ e4),
                (k, (w4, [(.getHostSSHClient node, none),
                  (.getLocalHostAddresses, errorOf address),
                  (.cmdAsync node (KubeadmRuntime.remoteCleanCmds env k node address), none),
                  (.isHostName k.GetMaster0IP node, some e4)]))) := by
          simp [KubeadmRuntime.deleteNodeTask, hTd, RuntimeEnv.traced_CmdAsync,
            RuntimeEnv.traced_isHostName, errorOf, h3, hlen, h4]
        refine ⟨"", 4, ?_⟩
        rw [hT, hP]
        simp [deleteTaskCalls, h2]
      | ok hostname =>
        rcases h5 : env.getHostSSHClient k k.GetMaster0IP w4 with ⟨r5, w5⟩
        cases r5 with
        | some e5 =>
          have hP : KubeadmRuntime.deleteNodeTask env node (k, w)
              = (some ("delete node " ++ node ++ " failed " ++
                  ("failed to delete node on master0," ++ e5)), (k, w5)) := by
            simp [KubeadmRuntime.deleteNodeTask, hPd, h3, hlen, h4, h5]
          have hT : KubeadmRuntime.deleteNodeTask env.traced node (k, (w, []))
              = (some ("delete node " ++ node ++ " failed " ++
                  ("failed to delete node on master0," ++ e5)),
                  (k, (w5, [(.getHostSSHClient node, none),
                    (.getLocalHostAddresses, errorOf address),
                    (.cmdAsync node (KubeadmRuntime.remoteCleanCmds env k node address), none),
                    (.isHostName k.GetMaster0IP node, none),
                    (.getHostSSHClient k.GetMaster0IP, some e5)]))) := by
            simp [KubeadmRuntime.deleteNodeTask, hTd, RuntimeEnv.traced_CmdAsync,
              RuntimeEnv.traced_isHostName, RuntimeEnv.traced_getHostSSHClient, errorOf,
              h3, hlen, h4, h5]
          refine ⟨hostname, 5, ?_⟩
          rw [hT, hP]
          simp [deleteTaskCalls, h2]
        | none =>
          rcases h6 : env.CmdAsync k.GetMaster0IP
            [env.KubeDeleteNode (env.TrimSpace hostname)] w5 with ⟨r6, w6⟩
          cases r6 with
          | some e6 =>
            have hP : KubeadmRuntime.deleteNodeTask env node (k, w)
                = (some ("delete node " ++ node ++ " failed " ++
                    ("delete node " ++ hostname ++ " failed " ++ e6)), (k, w6)) := by
              simp [KubeadmRuntime.deleteNodeTask, hPd, h3, hlen, h4, h5, h6]
            have hT : KubeadmRuntime.deleteNodeTask env.traced node (k, (w, []))
                = (some ("delete node " ++ node ++ " failed " ++
                    ("delete node " ++ hostname ++ " failed " ++ e6)),
                    (k, (w6, [(.getHostSSHClient node, none),
                      (.getLocalHostAddresses, errorOf address),
                      (.cmdAsync node (KubeadmRuntime.remoteCleanCmds env k node address),
                        none),
                      (.isHostName k.GetMaster0IP node, none),
                      (.getHostSSHClient k.GetMaster0IP, none),
                      (.cmdAsync k.GetMaster0IP [env.KubeDeleteNode (env.TrimSpace hostname)],
                        some e6)]))) := by
              simp [KubeadmRuntime.deleteNodeTask, hTd, RuntimeEnv.traced_CmdAsync,
                RuntimeEnv.traced_isHostName, RuntimeEnv.traced_getHostSSHClient, errorOf,
                h3, hlen, h4, h5, h6]
            refine ⟨hostname, 6, ?_⟩
            rw [hT, hP]
            simp [deleteTaskCalls, h2]
          | none =>
            rcases h7 : env.getHostSSHClient k node w6 with ⟨r7, w7⟩
            cases r7 with
            | some e7 =>
              have hP : KubeadmRuntime.deleteNodeTask env node (k, w)
                  = (some ("failed to delete " ++ node ++ " route: " ++ e7), (k, w7)) := by
                simp [KubeadmRuntime.deleteNodeTask, KubeadmRuntime.deleteVIPRouteIfExist,
                  hPd, h3, hlen, h4, h5, h6, h7]
              have hT : KubeadmRuntime.deleteNodeTask env.traced node (k, (w, []))
                  = (some ("failed to delete " ++ node ++ " route: " ++ e7),
                      (k, (w7, [(.getHostSSHClient node, none),
                        (.getLocalHostAddresses, errorOf address),
                        (.cmdAsync node (KubeadmRuntime.remoteCleanCmds env k node address),
                          none),
                        (.isHostName k.GetMaster0IP node, none),
                        (.getHostSSHClient k.GetMaster0IP, none),
                        (.cmdAsync k.GetMaster0IP
                          [env.KubeDeleteNode (env.TrimSpace hostname)], none),
                        (.getHostSSHClient node, some e7)]))) := by
                simp [KubeadmRuntime.deleteNodeTask, KubeadmRuntime.deleteVIPRouteIfExist,
                  hTd, RuntimeEnv.traced_CmdAsync, RuntimeEnv.traced_isHostName,
                  RuntimeEnv.traced_getHostSSHClient, errorOf, h3, hlen, h4, h5, h6, h7]
              refine ⟨hostname, 7, ?_⟩
              rw [hT, hP]
              simp [deleteTaskCalls, h2]
            | none =>
              rcases h8 : env.Cmd node (RemoteDelRoute k.getVIP node) w7 with ⟨r8, w8⟩
              have hP : KubeadmRuntime.deleteNodeTask env node (k, w)
                  = ((errorOf r8).map (fun e => "failed to delete " ++ node ++ " route: " ++ e),
                      (k, w8)) := by
                cases r8 <;>
                  simp [KubeadmRuntime.deleteNodeTask, KubeadmRuntime.deleteVIPRouteIfExist,
                    errorOf, hPd, h3, hlen, h4, h5, h6, h7, h8]
              have hT : KubeadmRuntime.deleteNodeTask env.traced node (k, (w, []))
                  = ((errorOf r8).map (fun e => "failed to delete " ++ node ++ " route: " ++ e),
                      (k, (w8, [(.getHostSSHClient node, none),
                        (.getLocalHostAddresses, errorOf address),
                        (.cmdAsync node (KubeadmRuntime.remoteCleanCmds env k node address),
                          none),
                        (.isHostName k.GetMaster0IP node, none),
                        (.getHostSSHClient k.GetMaster0IP, none),
                        (.cmdAsync k.GetMaster0IP
                          [env.KubeDeleteNode (env.TrimSpace hostname)], none),
                        (.getHostSSHClient node, none),
                        (.cmd node (RemoteDelRoute k.getVIP node), errorOf r8)]))) := by
                cases r8 <;>
                  simp [KubeadmRuntime.deleteNodeTask, KubeadmRuntime.deleteVIPRouteIfExist,
                    hTd, RuntimeEnv.traced_CmdAsync, RuntimeEnv.traced_isHostName,
                    RuntimeEnv.traced_getHostSSHClient, RuntimeEnv.traced_Cmd, errorOf,
                    h3, hlen, h4, h5, h6, h7, h8]
              refine ⟨hostname, 8, ?_⟩
              rw [hT, hP]
              cases r8 <;> simp [deleteTaskCalls, h2, errorOf]

end DeleteTaskShape

end Sealer

namespace Sealer

section CleanupClaim

variable {κ σ : Type}

/-- Once the SSH client of the node exists, the journal of `deleteNode` starts
with the client request, the local address lookup and the cleanup sequence
handed to `CmdAsync`, whatever follows. -/
theorem KubeadmRuntime.deleteNode_traced_cleanup (env : RuntimeEnv κ σ) (node : String)
    (k : KubeadmRuntime κ) (w w1 w2 : σ) (address : Except String (List String))
    (h1 : env.getHostSSHClient k node w = (none, w1))
    (h2 : env.GetLocalHostAddresses w1 = (address, w2)) :
    ∃ (r : Option String) (rest : RuntimeJournal),
      (KubeadmRuntime.deleteNode env.traced node (k, (w, []))).2.2.2
        = [(.getHostSSHClient node, none), (.getLocalHostAddresses, errorOf address),
            (.cmdAsync node (KubeadmRuntime.remoteCleanCmds env k node address), r)] ++ rest := by
  have h1t : env.traced.getHostSSHClient k node (w, [])
      = (none, (w1, [(.getHostSSHClient node, none)])) := by
    simp [RuntimeEnv.traced_getHostSSHClient, h1]
  have h2t : env.traced.GetLocalHostAddresses (w1, [(.getHostSSHClient node, none)])
      = (address, (w2, [(.getHostSSHClient node, none),
          (.getLocalHostAddresses, errorOf address)])) := by
    simp [RuntimeEnv.traced_GetLocalHostAddresses, h2]
  have hc : KubeadmRuntime.remoteCleanCmds env.traced k node address
      = KubeadmRuntime.remoteCleanCmds env k node address := rfl
  have hd : ∀ name, env.traced.KubeDeleteNode name = env.KubeDeleteNode name := fun _ => rfl
  have hs : ∀ name, env.traced.TrimSpace name = env.TrimSpace name := fun _ => rfl
  have hTd := KubeadmRuntime.deleteNode_of_client env.traced node k (w, []) _ _ address h1t h2t
  rw [hc] at hTd
  simp only [hd, hs] at hTd
  rcases h3 : env.CmdAsync node (KubeadmRuntime.remoteCleanCmds env k node address) w2
    with ⟨r3, w3⟩
  cases r3 with
  | some e3 =>
    exact ⟨some e3, [], by simp [hTd, RuntimeEnv.traced_CmdAsync, h3]⟩
  | none =>
    by_cases hlen : k.GetMasterIPList.length > 0
    · rcases h4 : env.isHostName k k.GetMaster0IP node w3 with ⟨r4, w4⟩
      cases r4 with
      | error e4 =>
        exact ⟨none, [(.isHostName k.GetMaster0IP node, some e4)], by
          simp [hTd, RuntimeEnv.traced_CmdAsync, RuntimeEnv.traced_isHostName, errorOf,
            h3, hlen, h4]⟩
      | ok hostname =>
        rcases h5 : env.getHostSSHClient k k.GetMaster0IP w4 with ⟨r5, w5⟩
        cases r5 with
        | some e5 =>
          exact ⟨none, [(.isHostName k.GetMaster0IP node, none),
              (.getHostSSHClient k.GetMaster0IP, some e5)], by
            simp [hTd, RuntimeEnv.traced_CmdAsync, RuntimeEnv.traced_isHostName,
              RuntimeEnv.traced_getHostSSHClient, errorOf, h3, hlen, h4, h5]⟩
        | none =>
          rcases h6 : env.CmdAsync k.GetMaster0IP
            [env.KubeDeleteNode (env.TrimSpace hostname)] w5 with ⟨r6, w6⟩
          exact ⟨none, [(.isHostName k.GetMaster0IP node, none),
              (.getHostSSHClient k.GetMaster0IP, none),
              (.cmdAsync k.GetMaster0IP [env.KubeDeleteNode (env.TrimSpace hostname)], r6)], by
            cases r6 <;>
              simp [hTd, RuntimeEnv.traced_CmdAsync, RuntimeEnv.traced_isHostName,
                RuntimeEnv.traced_getHostSSHClient, errorOf, h3, hlen, h4, h5, h6]⟩
    · exact ⟨none, [], by simp [hTd, RuntimeEnv.traced_CmdAsync, h3, hlen]⟩

/-- C13. For every node whose SSH client `deleteNode` obtains, the first command
sequence it hands to `CmdAsync` goes to that node and is
`[clean master-or-node, remove registry /etc/hosts entry, remove API-server
domain /etc/hosts entry, X]`: four commands, where `X` is the API-server
`/etc/hosts` re-add (built from the first master's IP and the API-server
domain) when the local addresses were resolved and the node is one of them,
and the kube-config removal when the node is not local or the resolution
failed.  Exactly one of the two is appended, never both. -/
theorem C13_cleanup_command_sequence (env : RuntimeEnv κ σ) (node : String)
    (k : KubeadmRuntime κ) (w w1 : σ)
    (hssh : env.getHostSSHClient k node w = (none, w1)) :
    (cmdAsyncCalls (KubeadmRuntime.deleteNode env.traced node (k, (w, []))).2.2.2).head?
      = some (node,
          [env.RemoteCleanMasterOrNode k.Vlog,
           env.RemoteRemoveAPIServerEtcHost
             (env.getRegistryHost k.Rootfs (k.MasterIPList.headD "")),
           env.RemoteRemoveAPIServerEtcHost k.APIServerDomain,
           (match (env.GetLocalHostAddresses w1).1 with
            | .ok address =>
              if env.IsLocalIP node address then
                env.RemoteAddEtcHosts
                  (env.getAPIServerHost (k.MasterIPList.headD "") k.APIServerDomain)
                  (env.getAPIServerHost (k.MasterIPList.headD "") k.APIServerDomain)
              else env.RemoveKubeConfig
            | .error _ => env.RemoveKubeConfig)]) := by
  rcases h2 : env.GetLocalHostAddresses w1 with ⟨address, w2⟩
  obtain ⟨r, rest, hJ⟩ :=
    KubeadmRuntime.deleteNode_traced_cleanup env node k w w1 w2 address hssh h2
  rw [hJ]
  simp only [cmdAsyncCalls, List.cons_append, List.nil_append, List.head?_cons]
  cases address with
  | error e => rfl
  | ok a =>
    by_cases hl : env.IsLocalIP node a = true
    · simp [KubeadmRuntime.remoteCleanCmds, hl, KubeadmRuntime.getRootfs,
        KubeadmRuntime.GetMaster0IP, KubeadmRuntime.getAPIServerDomain]
    · simp [KubeadmRuntime.remoteCleanCmds, hl, KubeadmRuntime.getRootfs,
        KubeadmRuntime.GetMaster0IP, KubeadmRuntime.getAPIServerDomain]

/-- C13 at the two scenarios of the spec: deleting the executing host
(`192.168.0.9`) re-adds the API-server host entry; deleting a remote node
(`10.0.0.2`) removes the kube config instead. -/
theorem C13_cleanup_command_sequence_witness :
    (cmdAsyncCalls (KubeadmRuntime.deleteNode (sampleRuntimeEnv "OK" "" "").traced "192.168.0.9"
        (sampleRuntime ["10.0.0.1"], (0, []))).2.2.2).head?
      = some ("192.168.0.9",
          ["kubeadm reset -f", "sed -i '/10.0.0.1 sea.hub/d' /etc/hosts",
           "sed -i '/apiserver.cluster.local/d' /etc/hosts",
           "grep -q '10.0.0.1 apiserver.cluster.local' /etc/hosts || echo 10.0.0.1 apiserver.cluster.local >> /etc/hosts"]) ∧
    (cmdAsyncCalls (KubeadmRuntime.deleteNode (sampleRuntimeEnv "OK" "" "").traced "10.0.0.2"
        (sampleRuntime ["10.0.0.1"], (0, []))).2.2.2).head?
      = some ("10.0.0.2",
          ["kubeadm reset -f", "sed -i '/10.0.0.1 sea.hub/d' /etc/hosts",
           "sed -i '/apiserver.cluster.local/d' /etc/hosts", "rm -rf $HOME/.kube"]) :=
  ⟨by decide,
    C13_cleanup_command_sequence (sampleRuntimeEnv "OK" "" "") "10.0.0.2"
      (sampleRuntime ["10.0.0.1"]) 0 1 rfl⟩

end CleanupClaim

end Sealer

namespace Sealer

/-! ## The delete goroutines -/

section StepsRunDelete

variable {κ σ : Type}

/-- The steps of the route deletion, run with nothing in between, are the route deletion. -/
theorem KubeadmRuntime.deleteVIPRouteIfExistSteps_run (env : RuntimeEnv κ σ) (node : String) :
    (KubeadmRuntime.deleteVIPRouteIfExistSteps env node).run
      = KubeadmRuntime.deleteVIPRouteIfExist env node := by
  funext s
  obtain ⟨k, w⟩ := s
  simp only [KubeadmRuntime.deleteVIPRouteIfExistSteps, KubeadmRuntime.call,
    Routine.bind_eq, Routine.pure_eq, Routine.run_bind, Routine.run_atomic,
    KubeadmRuntime.deleteVIPRouteIfExist]
  rcases h1 : env.getHostSSHClient k node w with ⟨r1, w1⟩
  cases r1 with
  | some e => simp only [Routine.run_ret]
  | none =>
    simp only [Routine.run_bind, Routine.run_atomic]
    rcases h2 : env.Cmd node (RemoteDelRoute k.getVIP node) w1 with ⟨r2, w2⟩
    cases r2 <;> simp only [Routine.run_ret]

/-- The steps of `deleteNode` after the cleanup sequence is built, run with
nothing in between. -/
theorem KubeadmRuntime.deleteNodeSteps_run_tail (env : RuntimeEnv κ σ) (node : String)
    (k : KubeadmRuntime κ) (w2 : σ) (cmds : List String) :
    ((KubeadmRuntime.call fun _ w => env.CmdAsync node cmds w).bind fun r =>
        match r with
        | some err => Routine.ret (some err)
        | none =>
          (KubeadmRuntime.load fun k => k.GetMasterIPList.length).bind fun n =>
            if n > 0 then
              (KubeadmRuntime.call fun k w => env.isHostName k k.GetMaster0IP node w).bind
                fun r =>
                match r with
                | .error err => Routine.ret (some err)
                | .ok hostname =>
                  (KubeadmRuntime.call fun k w => env.getHostSSHClient k k.GetMaster0IP w).bind
                    fun r =>
                    match r with
                    | some err => Routine.ret (some ("failed to delete node on master0," ++ err))
                    | none =>
                      (KubeadmRuntime.call fun k w =>
                          env.CmdAsync k.GetMaster0IP
                            [env.KubeDeleteNode (env.TrimSpace hostname)] w).bind
                        fun r =>
                        match r with
                        | some err =>
                          Routine.ret (some ("delete node " ++ hostname ++ " failed " ++ err))
                        | none => Routine.ret none
            else Routine.ret none).run (k, w2)
      = match env.CmdAsync node cmds w2 with
        | (some err, w) => (some err, (k, w))
        | (none, w) =>
          if k.GetMasterIPList.length > 0 then
            match env.isHostName k k.GetMaster0IP node w with
            | (.error err, w) => (some err, (k, w))
            | (.ok hostname, w) =>
              match env.getHostSSHClient k k.GetMaster0IP w with
              | (some err, w) => (some ("failed to delete node on master0," ++ err), (k, w))
              | (none, w) =>
                match env.CmdAsync k.GetMaster0IP [env.KubeDeleteNode (env.TrimSpace hostname)]
                  w with
                | (some err, w) =>
                  (some ("delete node " ++ hostname ++ " failed " ++ err), (k, w))
                | (none, w) => (none, (k, w))
          else (none, (k, w)) := by
  simp only [KubeadmRuntime.call, KubeadmRuntime.load, Routine.run_bind, Routine.run_atomic]
  rcases h3 : env.CmdAsync node cmds w2 with ⟨r3, w3⟩
  cases r3 with
  | some e => simp only [Routine.run_ret]
  | none =>
    simp only [Routine.run_bind, Routine.run_atomic]
    by_cases hm : k.GetMasterIPList.length > 0
    · simp only [hm, if_true, Routine.run_bind, Routine.run_atomic]
      rcases h4 : env.isHostName k k.GetMaster0IP node w3 with ⟨r4, w4⟩
      cases r4 with
      | error e => simp only [Routine.run_ret]
      | ok hostname =>
        simp only [Routine.run_bind, Routine.run_atomic]
        rcases h5 : env.getHostSSHClient k k.GetMaster0IP w4 with ⟨r5, w5⟩
        cases r5 with
        | some e => simp only [Routine.run_ret]
        | none =>
          simp only [Routine.run_bind, Routine.run_atomic]
          rcases h6 : env.CmdAsync k.GetMaster0IP [env.KubeDeleteNode (env.TrimSpace hostname)]
            w5 with ⟨r6, w6⟩
          cases r6 <;> simp only [Routine.run_ret]
    · simp only [hm, if_false, Routine.run_ret]

/-- The steps of `deleteNode`, run with nothing in between, are `deleteNode`. -/
theorem KubeadmRuntime.deleteNodeSteps_run (env : RuntimeEnv κ σ) (node : String) :
    (KubeadmRuntime.deleteNodeSteps env node).run = KubeadmRuntime.deleteNode env node := by
  funext s
  obtain ⟨k, w⟩ := s
  rcases h1 : env.getHostSSHClient k node w with ⟨r1, w1⟩
  cases r1 with
  | some e =>
    simp only [KubeadmRuntime.deleteNodeSteps, KubeadmRuntime.call,
      Routine.bind_eq, Routine.run_bind, Routine.run_atomic, KubeadmRuntime.deleteNode, h1,
      Routine.pure_eq, Routine.run_ret]
  | none =>
    rcases h2 : env.GetLocalHostAddresses w1 with ⟨address, w2⟩
    have tail := fun cmds => KubeadmRuntime.deleteNodeSteps_run_tail env node k w2 cmds
    simp only [KubeadmRuntime.call, KubeadmRuntime.load, Routine.run_bind, Routine.run_atomic]
      at tail
    rw [KubeadmRuntime.deleteNode_of_client env node k w w1 w2 address h1 h2]
    simp only [KubeadmRuntime.deleteNodeSteps, KubeadmRuntime.call, KubeadmRuntime.load,
      Routine.bind_eq, Routine.pure_eq, Routine.run_bind, Routine.run_atomic, h1, h2]
    cases address with
    | error e =>
      simp only [Routine.run_ret, KubeadmRuntime.remoteCleanCmds]
      exact tail _
    | ok a =>
      by_cases hl : (!env.IsLocalIP node a) = true
      · simp only [hl, if_true, Routine.run_ret, KubeadmRuntime.remoteCleanCmds]
        exact tail _
      · simp only [hl, if_false, Routine.run_bind, Routine.run_atomic, Routine.run_ret,
          KubeadmRuntime.remoteCleanCmds]
        exact tail _

/-- The steps of a delete task, run with nothing in between, are the delete task. -/
theorem KubeadmRuntime.deleteNodeTaskSteps_run (env : RuntimeEnv κ σ) (node : String) :
    (KubeadmRuntime.deleteNodeTaskSteps env node).run
      = KubeadmRuntime.deleteNodeTask env node := by
  funext s
  simp only [KubeadmRuntime.deleteNodeTaskSteps, Routine.bind_eq, Routine.pure_eq,
    Routine.run_bind, KubeadmRuntime.deleteNodeSteps_run,
    KubeadmRuntime.deleteVIPRouteIfExistSteps_run, KubeadmRuntime.deleteNodeTask]
  rcases h1 : KubeadmRuntime.deleteNode env node s with ⟨r1, s1⟩
  cases r1 with
  | some e => simp only [Routine.run_ret]
  | none =>
    simp only [Routine.run_bind, KubeadmRuntime.deleteVIPRouteIfExistSteps_run]
    rcases h2 : KubeadmRuntime.deleteVIPRouteIfExist env node s1 with ⟨r2, s2⟩
    cases r2 <;> simp only [Routine.run_ret]

/-- A batch of one node: whatever the schedule, `deleteNodes` is the delete
task of that node. -/
theorem KubeadmRuntime.deleteNodes_single (env : RuntimeEnv κ σ) (node : String)
    (s : KubeadmRuntime κ × σ) :
    KubeadmRuntime.deleteNodes env [node] s = KubeadmRuntime.deleteNodeTask env node s := by
  simp only [KubeadmRuntime.deleteNodes, List.length_singleton, one_ne_zero, if_false,
    List.map_cons, List.map_nil, runGroup_single, KubeadmRuntime.deleteNodeTaskSteps_run]

end StepsRunDelete

end Sealer

namespace Sealer

section RouteDeletion

variable {κ σ : Type}

/-- C14, as stated, fails: the route-deletion step is not swallowed.  On the
sample cluster, deleting `10.0.0.2` with a failing `route del` command: the
cleanup and the control-plane delete-node step succeed (`deleteNode` returns
nil), and `deleteNodes` returns the route-deletion error. -/
theorem C14_route_deletion_error_returned_counterexample :
    (KubeadmRuntime.deleteNode (faultyRuntimeEnv "OK" [] [] ["10.0.0.2"]) "10.0.0.2"
        (sampleRuntime ["10.0.0.1"], 0)).1 = none ∧
    (KubeadmRuntime.deleteNodes (faultyRuntimeEnv "OK" [] [] ["10.0.0.2"]) ["10.0.0.2"]
        (sampleRuntime ["10.0.0.1"], 0)).1
      = some "failed to delete 10.0.0.2 route: exit 2 on 10.0.0.2" := by
  decide

/-- C14, amended.  Route deletion is guarded on the remote side only (the
command is `if command -v seautil ...; then seautil route del ...; fi`); its
failure is not swallowed.  When the cleanup and the control-plane delete-node
step of a node succeed, the delete of that node returns nil iff the route
deletion succeeds: if the SSH client cannot be created or the guarded
`route del` command fails with error `e`, the result is
`failed to delete <node> route: <e>`.  For a batch, under every schedule of
the goroutines, every per-node task returns exactly once and `deleteNodes`
returns nil iff every per-node task returned nil. -/
theorem C14_route_deletion_failure_fails_delete (env : RuntimeEnv κ σ) (node : String)
    (k k1 : KubeadmRuntime κ) (w w1 : σ)
    (hdel : KubeadmRuntime.deleteNode env node (k, w) = (none, (k1, w1))) :
    (∀ e w2, env.getHostSSHClient k1 node w1 = (some e, w2) →
      KubeadmRuntime.deleteNodes env [node] (k, w)
        = (some ("failed to delete " ++ node ++ " route: " ++ e), (k1, w2))) ∧
    (∀ w2 e w3, env.getHostSSHClient k1 node w1 = (none, w2) →
      env.Cmd node
          ("if command -v seautil > /dev/null 2>&1; then seautil route del --host " ++ k1.VIP ++
            " --gateway " ++ node ++ "; fi") w2 = (.error e, w3) →
      KubeadmRuntime.deleteNodes env [node] (k, w)
        = (some ("failed to delete " ++ node ++ " route: " ++ e), (k1, w3))) ∧
    (∀ w2 out w3, env.getHostSSHClient k1 node w1 = (none, w2) →
      env.Cmd node
          ("if command -v seautil > /dev/null 2>&1; then seautil route del --host " ++ k1.VIP ++
            " --gateway " ++ node ++ "; fi") w2 = (.ok out, w3) →
      KubeadmRuntime.deleteNodes env [node] (k, w) = (none, (k1, w3))) ∧
    (∀ (nodes : List String) (s : KubeadmRuntime κ × σ), nodes ≠ [] →
      ((KubeadmRuntime.deleteNodes env nodes s).1 = none ↔
        ∀ rec ∈ (observeGroup env.schedule
            (nodes.map (KubeadmRuntime.deleteNodeTaskSteps env)) s).2.2,
          rec.2 = none)) ∧
    (∀ (nodes : List String) (s : KubeadmRuntime κ × σ),
      ((observeGroup env.schedule
          (nodes.map (KubeadmRuntime.deleteNodeTaskSteps env)) s).2.2.map Prod.fst).Perm
        (List.range nodes.length)) ∧
    (∀ node : String,
      (KubeadmRuntime.deleteNodeTaskSteps env node).run
        = KubeadmRuntime.deleteNodeTask env node) := by
  refine ⟨?_, ?_, ?_, ?_, ?_, ?_⟩
  · intro e w2 h1
    simp [KubeadmRuntime.deleteNodes_single, KubeadmRuntime.deleteNodeTask, hdel,
      KubeadmRuntime.deleteVIPRouteIfExist, h1]
  · intro w2 e w3 h1 h2
    have h2' : env.Cmd node (RemoteDelRoute k1.getVIP node) w2 = (.error e, w3) := h2
    simp [KubeadmRuntime.deleteNodes_single, KubeadmRuntime.deleteNodeTask, hdel,
      KubeadmRuntime.deleteVIPRouteIfExist, h1, h2']
  · intro w2 out w3 h1 h2
    have h2' : env.Cmd node (RemoteDelRoute k1.getVIP node) w2 = (.ok out, w3) := h2
    simp [KubeadmRuntime.deleteNodes_single, KubeadmRuntime.deleteNodeTask, hdel,
      KubeadmRuntime.deleteVIPRouteIfExist, h1, h2']
  · intro nodes s hne
    have hlen : nodes.length ≠ 0 := fun h => hne (List.length_eq_zero.mp h)
    have hgroup : (KubeadmRuntime.deleteNodes env nodes s).1
        = (observeGroup env.schedule
            (nodes.map (KubeadmRuntime.deleteNodeTaskSteps env)) s).1 := by
      simp [KubeadmRuntime.deleteNodes, hlen, runGroup]
    rw [hgroup, (observeGroup_book _ _ _).2]
    exact firstError_eq_none_iff _
  · intro nodes s
    simpa using (observeGroup_book env.schedule
      (nodes.map (KubeadmRuntime.deleteNodeTaskSteps env)) s).1
  · intro node
    exact KubeadmRuntime.deleteNodeTaskSteps_run env node

/-- C14 at a concrete input: the node is cleaned and removed from the control
plane, its SSH client for the route deletion is created, the guarded
`route del` command fails, and the caller gets that error. -/
theorem C14_route_deletion_failure_fails_delete_witness :
    KubeadmRuntime.deleteNodes (faultyRuntimeEnv "OK" [] [] ["10.0.0.2"]) ["10.0.0.2"]
        (sampleRuntime ["10.0.0.1"], 0)
      = (some ("failed to delete " ++ "10.0.0.2" ++ " route: " ++ "exit 2 on 10.0.0.2"),
          (sampleRuntime ["10.0.0.1"], 8)) :=
  (C14_route_deletion_failure_fails_delete (faultyRuntimeEnv "OK" [] [] ["10.0.0.2"]) "10.0.0.2"
    (sampleRuntime ["10.0.0.1"]) (sampleRuntime ["10.0.0.1"]) 0 6 rfl).2.1 7
    "exit 2 on 10.0.0.2" 8 rfl rfl

end RouteDeletion

end Sealer

namespace Sealer

section DeleteOrder

variable {κ σ : Type}

/-- C15, as stated, fails on the order: the VIP route removal is not the second
step but the last.  On the sample cluster (master `10.0.0.1`), deleting
`10.0.0.2` with every call succeeding makes these calls, in this order: the
cleanup on the node, the host-name lookup and the delete-node command on the
first master, and only then the route removal on the node. -/
theorem C15_route_removal_is_last_counterexample :
    (KubeadmRuntime.deleteNodes (faultyRuntimeEnv "OK" [] [] []).traced ["10.0.0.2"]
        (sampleRuntime ["10.0.0.1"], (0, []))).2.2.2
      = [(RuntimeCall.getHostSSHClient "10.0.0.2", none),
         (RuntimeCall.getLocalHostAddresses, none),
         (RuntimeCall.cmdAsync "10.0.0.2"
            ["kubeadm reset -f", "sed -i '/10.0.0.1 sea.hub/d' /etc/hosts",
             "sed -i '/apiserver.cluster.local/d' /etc/hosts", "rm -rf $HOME/.kube"], none),
         (RuntimeCall.isHostName "10.0.0.1" "10.0.0.2", none),
         (RuntimeCall.getHostSSHClient "10.0.0.1", none),
         (RuntimeCall.cmdAsync "10.0.0.1" ["kubectl delete node node-10.0.0.2"], none),
         (RuntimeCall.getHostSSHClient "10.0.0.2", none),
         (RuntimeCall.cmd "10.0.0.2"
            "if command -v seautil > /dev/null 2>&1; then seautil route del --host 10.103.97.2 --gateway 10.0.0.2; fi",
            none)] := by
  decide

/-- C15, amended.  For every node deleted while at least one master remains, the
calls of the per-node delete task are the first `n` of this sequence, in this
order: SSH client of the node, local address lookup, cleanup command sequence
on the node, host-name lookup through the first master, SSH client of the
first master, delete-node command on the first master, SSH client of the
node, route removal on the node.  A failing call (other than the local
address lookup) is the last call made; the task returns nil iff all eight
calls were made and none failed.  In particular a failure of the delete-node
command fails the deletion of the node, with the error
`delete node <node> failed delete node <hostname> failed <e>`, and the route
removal is then not attempted.  In `deleteNodes` the task of a node is a
goroutine of an `errgroup`; run with nothing in between it is `deleteNodeTask`,
and a batch of one node is that task under every schedule. -/
theorem C15_delete_task_call_order (env : RuntimeEnv κ σ) (node : String)
    (k : KubeadmRuntime κ) (w : σ) (hm : k.MasterIPList ≠ []) :
    ∃ (hostname : String) (n : Nat),
      (KubeadmRuntime.deleteNodeTask env.traced node (k, (w, []))).2.2.2.map Prod.fst
        = ([RuntimeCall.getHostSSHClient node,
            RuntimeCall.getLocalHostAddresses,
            RuntimeCall.cmdAsync node
              (KubeadmRuntime.remoteCleanCmds env k node
                (env.GetLocalHostAddresses (env.getHostSSHClient k node w).2).1),
            RuntimeCall.isHostName (k.MasterIPList.headD "") node,
            RuntimeCall.getHostSSHClient (k.MasterIPList.headD ""),
            RuntimeCall.cmdAsync (k.MasterIPList.headD "")
              [env.KubeDeleteNode (env.TrimSpace hostname)],
            RuntimeCall.getHostSSHClient node,
            RuntimeCall.cmd node (RemoteDelRoute k.VIP node)]).take n ∧
      (KubeadmRuntime.deleteNodeTask env.traced node (k, (w, []))).2.2.2.length = n ∧
      1 ≤ n ∧ n ≤ 8 ∧
      (∀ rec ∈ (KubeadmRuntime.deleteNodeTask env.traced node (k, (w, []))).2.2.2.dropLast,
        rec.1 ≠ RuntimeCall.getLocalHostAddresses → rec.2 = none) ∧
      ((KubeadmRuntime.deleteNodeTask env node (k, w)).1 = none ↔
        n = 8 ∧ ∀ rec ∈ (KubeadmRuntime.deleteNodeTask env.traced node (k, (w, []))).2.2.2,
          rec.1 ≠ RuntimeCall.getLocalHostAddresses → rec.2 = none) ∧
      (∀ e, (KubeadmRuntime.deleteNodeTask env.traced node (k, (w, []))).2.2.2[5]?
          = some (RuntimeCall.cmdAsync (k.MasterIPList.headD "")
              [env.KubeDeleteNode (env.TrimSpace hostname)], some e) →
        n = 6 ∧
        (KubeadmRuntime.deleteNodeTask env node (k, w)).1
          = some ("delete node " ++ node ++ " failed " ++
              ("delete node " ++ hostname ++ " failed " ++ e))) ∧
      (∀ (nodes : List String) (s : KubeadmRuntime κ × σ), nodes ≠ [] →
        KubeadmRuntime.deleteNodes env nodes s
          = runGroup env.schedule (nodes.map (KubeadmRuntime.deleteNodeTaskSteps env)) s) ∧
      (∀ node : String,
        (KubeadmRuntime.deleteNodeTaskSteps env node).run
          = KubeadmRuntime.deleteNodeTask env node) ∧
      (∀ (node : String) (s : KubeadmRuntime κ × σ),
        KubeadmRuntime.deleteNodes env [node] s = KubeadmRuntime.deleteNodeTask env node s) := by
  obtain ⟨hostname, n, -, hcalls, hlen, h1, h8, -, hlast, hnil, hdel, -⟩ :=
    KubeadmRuntime.deleteNodeTask_traced_shape env node k w hm
  refine ⟨hostname, n, hcalls, hlen, h1, h8, hlast, hnil, hdel, ?_,
    KubeadmRuntime.deleteNodeTaskSteps_run env, KubeadmRuntime.deleteNodes_single env⟩
  intro nodes s hne
  have hl : nodes.length ≠ 0 := fun h => hne (List.length_eq_zero.mp h)
  simp [KubeadmRuntime.deleteNodes, hl]

/-- C15 at a concrete input: on the sample cluster the delete-node command for
`10.0.0.2` fails on the master `10.0.0.1`; six calls are made, the route
removal is not among them, and the deletion fails. -/
theorem C15_delete_task_call_order_witness :
    (KubeadmRuntime.deleteNodeTask (faultyRuntimeEnv "OK" [] ["10.0.0.1"] []).traced "10.0.0.2"
        (sampleRuntime ["10.0.0.1"], (0, [])))
      = (some "delete node 10.0.0.2 failed delete node node-10.0.0.2 failed exit 1 on 10.0.0.1",
         (sampleRuntime ["10.0.0.1"],
          (6, [(RuntimeCall.getHostSSHClient "10.0.0.2", none),
               (RuntimeCall.getLocalHostAddresses, none),
               (RuntimeCall.cmdAsync "10.0.0.2"
                  ["kubeadm reset -f", "sed -i '/10.0.0.1 sea.hub/d' /etc/hosts",
                   "sed -i '/apiserver.cluster.local/d' /etc/hosts", "rm -rf $HOME/.kube"],
                  none),
               (RuntimeCall.isHostName "10.0.0.1" "10.0.0.2", none),
               (RuntimeCall.getHostSSHClient "10.0.0.1", none),
               (RuntimeCall.cmdAsync "10.0.0.1" ["kubectl delete node node-10.0.0.2"],
                  some "exit 1 on 10.0.0.1")]))) ∧
    ∃ n : Nat,
      (KubeadmRuntime.deleteNodeTask (faultyRuntimeEnv "OK" [] ["10.0.0.1"] []).traced
          "10.0.0.2" (sampleRuntime ["10.0.0.1"], (0, []))).2.2.2.length = n ∧ n ≤ 8 :=
  ⟨rfl,
    (C15_delete_task_call_order (faultyRuntimeEnv "OK" [] ["10.0.0.1"] []) "10.0.0.2"
      (sampleRuntime ["10.0.0.1"]) 0 (by decide)).elim
      (fun _ h => h.imp (fun _ h' => ⟨h'.2.1, h'.2.2.2.1⟩))⟩

end DeleteOrder

end Sealer

namespace Sealer

section EmptyTargets

variable {κ σ : Type}

/-- C16, as stated, fails: on the empty target list `joinNodes` and
`deleteNodes` return nil, not an error. -/
theorem C16_empty_list_returns_nil_counterexample :
    (KubeadmRuntime.joinNodes (sampleRuntimeEnv "OK" "" "") []
        (sampleRuntime ["10.0.0.1"], 0)).1 = none ∧
    (KubeadmRuntime.deleteNodes (sampleRuntimeEnv "OK" "" "") []
        (sampleRuntime ["10.0.0.1"], 0)).1 = none := by
  decide

/-- C16, amended.  An empty target list is a no-op: `joinNodes []` and
`deleteNodes []` return nil immediately, the runtime and the world are left as
they were, and no call leaves the process (no config merge, no SSH wait, no
remote command): the journal is unchanged. -/
theorem C16_empty_list_is_noop (env : RuntimeEnv κ σ) (k : KubeadmRuntime κ) (w : σ)
    (tr : RuntimeJournal) :
    KubeadmRuntime.joinNodes env [] (k, w) = (none, (k, w)) ∧
    KubeadmRuntime.deleteNodes env [] (k, w) = (none, (k, w)) ∧
    KubeadmRuntime.joinNodes env.traced [] (k, (w, tr)) = (none, (k, (w, tr))) ∧
    KubeadmRuntime.deleteNodes env.traced [] (k, (w, tr)) = (none, (k, (w, tr))) :=
  ⟨rfl, rfl, rfl, rfl⟩

end EmptyTargets

end Sealer

namespace Sealer

section ExecTargets

variable {σ : Type}

/-- The role loop appends, role after role, the IPs of each role. -/
theorem appendIPSByRoles_eq (cluster : ExecCluster) (roles : List GoString)
    (ipList : List String) :
    appendIPSByRoles cluster roles ipList = ipList ++ roles.flatMap cluster.GetIPSByRole := by
  induction roles generalizing ipList with
  | nil => simp [appendIPSByRoles]
  | cons role roles ih => simp [appendIPSByRoles, ih, List.append_assoc]

/-- The steps of a broadcast goroutine, run with nothing in between, are the
task `Exec.runCmdTask`. -/
theorem Exec.runCmdTaskSteps_run (env : ExecEnv σ) (e : Exec) (cmd ip : String) :
    (Exec.runCmdTaskSteps env e cmd ip).run = Exec.runCmdTask env e cmd ip := by
  funext w
  simp only [Exec.runCmdTaskSteps, Routine.bind_eq, Routine.pure_eq, Routine.run_bind,
    Routine.run_atomic, Exec.runCmdTask]
  rcases h1 : env.NewStdoutSSHClient ip e.cluster w with ⟨r1, w1⟩
  cases r1 with
  | some err => simp only [Routine.run_ret]
  | none =>
    simp only [Routine.run_bind, Routine.run_atomic]
    rcases h2 : env.CmdAsync ip cmd w1 with ⟨r2, w2⟩
    cases r2 <;> simp only [Routine.run_ret]

/-- C17. For a cluster that loads (the cluster name given, or the default name
when it is empty) and a non-empty roles string, the target list of
`NewExecCmd` is the concatenation of `GetIPSByRole r` over the
comma-separated tokens `r`, in the order they appear; `NewExecCmd` returns an
error exactly when that concatenation is empty, together with the zero
`Exec`, on which `RunCmd` makes no call at all.  For the empty roles string
the target list is the master IPs followed by the node IPs, with no error. -/
theorem C17_exec_target_list (env : ExecEnv σ) (clusterName name : String) (roles : GoString)
    (cluster : ExecCluster) (w w0 w1 : σ)
    (hname : (if clusterName = "" then env.GetDefaultClusterName w else (.ok clusterName, w))
      = (.ok name, w0))
    (hload : env.GetClusterFromFile (env.GetClusterWorkClusterfile name) w0 = (.ok cluster, w1)) :
    (roles ≠ [] → (Split roles comma).flatMap cluster.GetIPSByRole ≠ [] →
      NewExecCmd env clusterName roles w
        = (({ cluster := some cluster,
              ipList := (Split roles comma).flatMap cluster.GetIPSByRole }, none), w1)) ∧
    (roles ≠ [] → (Split roles comma).flatMap cluster.GetIPSByRole = [] →
      NewExecCmd env clusterName roles w
        = ((Exec.zero, some "failed to get ipList, please check your roles label"), w1)) ∧
    (roles ≠ [] →
      ((NewExecCmd env clusterName roles w).1.2 ≠ none ↔
        (Split roles comma).flatMap cluster.GetIPSByRole = [])) ∧
    (roles = [] →
      NewExecCmd env clusterName roles w
        = (({ cluster := some cluster,
              ipList := cluster.GetMasterIPList ++ cluster.GetNodeIPList }, none), w1)) ∧
    (∀ (cmd : String) (w' : σ) (tr : List (ShellCall × Option String)),
      Exec.RunCmd env.traced Exec.zero cmd (w', tr) = (none, (w', tr))) := by
  have hfull : ∀ hr : roles ≠ [], (Split roles comma).flatMap cluster.GetIPSByRole ≠ [] →
      NewExecCmd env clusterName roles w
        = (({ cluster := some cluster,
              ipList := (Split roles comma).flatMap cluster.GetIPSByRole }, none), w1) := by
    intro hr hne
    have hlen : ((Split roles comma).flatMap cluster.GetIPSByRole).length ≠ 0 :=
      fun h => hne (List.length_eq_zero.mp h)
    simp only [NewExecCmd, hname, hload, hr, if_false, appendIPSByRoles_eq, List.nil_append,
      hlen]
  have hempty : ∀ hr : roles ≠ [], (Split roles comma).flatMap cluster.GetIPSByRole = [] →
      NewExecCmd env clusterName roles w
        = ((Exec.zero, some "failed to get ipList, please check your roles label"), w1) := by
    intro hr he
    simp only [NewExecCmd, hname, hload, hr, if_false, appendIPSByRoles_eq, List.nil_append,
      he, List.length_nil, if_true]
  refine ⟨hfull, hempty, ?_, ?_, ?_⟩
  · intro hr
    by_cases he : (Split roles comma).flatMap cluster.GetIPSByRole = []
    · simp [hempty hr he, he]
    · simp [hfull hr he, he]
  · intro hr
    simp only [NewExecCmd, hname, hload, hr, if_true]
  · intro cmd w' tr
    simp only [Exec.RunCmd, Exec.zero, List.map_nil, runGroup_nil]

/-- C17 at concrete inputs on the sample cluster (default cluster name): roles
`db,master` give the `db` IPs followed by the master IPs; roles `bogus,` give
no IP, hence the error. -/
theorem C17_exec_target_list_witness :
    (NewExecCmd sampleExecEnv "" (ascii "db,master") 0).1.1.ipList = ["10.0.0.9", "10.0.0.1"] ∧
    (NewExecCmd sampleExecEnv "" (ascii "db,master") 0).1.2 = none ∧
    (NewExecCmd sampleExecEnv "" [] 0).1.1.ipList = ["10.0.0.1", "10.0.0.2", "10.0.0.3"] ∧
    NewExecCmd sampleExecEnv "" (ascii "bogus,") 0
      = ((Exec.zero, some "failed to get ipList, please check your roles label"), 2) :=
  ⟨by decide, by decide, by decide,
    (C17_exec_target_list sampleExecEnv "" "my-cluster" (ascii "bogus,") sampleExecCluster
      0 1 2 rfl rfl).2.1 (by decide) (by decide)⟩

end ExecTargets

end Sealer

namespace Sealer

section SharedState

/-- C18 (the code breaks the claim).  The join goroutines write the shared
runtime: `joinNodeConfig` stores the cgroup driver probed on its node in the
one `KubeadmRuntime` all goroutines share, with no lock, and renders the join
configuration from that runtime in a later statement.  Evaluated for the
targets `10.0.0.2` (probe reports `systemd`) and `10.0.0.3` (probe reports
`cgroupfs`), masters `[10.0.0.1]`:
* one join task alone changes the cgroup driver of the shared runtime from
  the empty string to `systemd`;
* when the goroutines run one after the other, the join configuration
  written on each node carries the driver of that node;
* when the goroutine of `10.0.0.3` stores its driver after the goroutine of
  `10.0.0.2` has stored its own and before it renders (five steps of the
  first, five steps of the second, then the rest), the join configuration
  written on `10.0.0.2` carries `cgroupfs`, the driver of the sibling;
* both batches return nil. -/
theorem C18_join_config_takes_sibling_driver :
    ((mixedDriverEnv []).getCgroupDriverFromShell (sampleRuntime ["10.0.0.1"])
        "10.0.0.2" 0).1 = .ok "systemd" ∧
    ((mixedDriverEnv []).getCgroupDriverFromShell (sampleRuntime ["10.0.0.1"])
        "10.0.0.3" 0).1 = .ok "cgroupfs" ∧
    ({ sampleRuntime ["10.0.0.1"] with
        APIServerEndpoint := "10.103.97.2:6443", JoinLocalAPIEndPoint := none } :
      KubeadmRuntime Unit).CgroupDriver = "" ∧
    (KubeadmRuntime.joinNodeTask (mixedDriverEnv [])
        (RemoteAddIPVS "10.103.97.2" (KubeadmRuntime.mastersArg ["10.0.0.1"]))
        (KubeadmRuntime.addRegistryHostsAndLogin (mixedDriverEnv [])
          (sampleRuntime ["10.0.0.1"]))
        "10.0.0.2"
        ({ sampleRuntime ["10.0.0.1"] with
            APIServerEndpoint := "10.103.97.2:6443", JoinLocalAPIEndPoint := none },
          4)).2.1.CgroupDriver = "systemd" ∧
    (cmdAsyncCalls (KubeadmRuntime.joinNodes (mixedDriverEnv []).traced
        ["10.0.0.2", "10.0.0.3"] (sampleRuntime ["10.0.0.1"], (0, []))).2.2.2).map
        (fun c => (c.1, c.2.getD 1 ""))
      = [("10.0.0.2",
          "echo \"endpoint: 10.103.97.2:6443, cgroupDriver: systemd\" > /var/lib/sealer/data/my-cluster/rootfs/etc/kubeadm.yml"),
         ("10.0.0.3",
          "echo \"endpoint: 10.103.97.2:6443, cgroupDriver: cgroupfs\" > /var/lib/sealer/data/my-cluster/rootfs/etc/kubeadm.yml")] ∧
    (cmdAsyncCalls (KubeadmRuntime.joinNodes
        (mixedDriverEnv [0, 0, 0, 0, 0, 1, 1, 1, 1, 1]).traced
        ["10.0.0.2", "10.0.0.3"] (sampleRuntime ["10.0.0.1"], (0, []))).2.2.2).map
        (fun c => (c.1, c.2.getD 1 ""))
      = [("10.0.0.2",
          "echo \"endpoint: 10.103.97.2:6443, cgroupDriver: cgroupfs\" > /var/lib/sealer/data/my-cluster/rootfs/etc/kubeadm.yml"),
         ("10.0.0.3",
          "echo \"endpoint: 10.103.97.2:6443, cgroupDriver: cgroupfs\" > /var/lib/sealer/data/my-cluster/rootfs/etc/kubeadm.yml")] ∧
    (KubeadmRuntime.joinNodes (mixedDriverEnv []) ["10.0.0.2", "10.0.0.3"]
        (sampleRuntime ["10.0.0.1"], 0)).1 = none ∧
    (KubeadmRuntime.joinNodes (mixedDriverEnv [0, 0, 0, 0, 0, 1, 1, 1, 1, 1])
        ["10.0.0.2", "10.0.0.3"] (sampleRuntime ["10.0.0.1"], 0)).1 = none :=
  ⟨rfl, rfl, by decide, by decide, by decide, by decide, by decide, by decide⟩

end SharedState

end Sealer
